import Mathlib

/-!
# Course platform: content sequencing, access gates and request handlers

A shallow embedding of `server.js`.  The relational store is a record of tables (lists of rows in
table order), a query is a total function on that record, and a route is its middleware gate
followed by its handler.  A handler returns the response it sends together with the store it
leaves behind.
-/

namespace Courses

/-! ## Values, rows and the store -/

/-- JavaScript values that reach the handlers in request bodies and table cells.  An array is
kept as its length and its JSON text, an object as its JSON text: the handlers only test them
for presence, truthiness, `Array.isArray` and `length`. -/
inductive JsValue where
  | undefined
  | null
  | bool (b : Bool)
  | num (n : Int)
  | str (s : String)
  | arr (length : Nat) (text : String)
  | obj (text : String)
  deriving DecidableEq, Repr

/-- Truthiness of a value, as tested by `!x`, `x || y` and `x && y`. -/
def JsValue.truthy : JsValue → Bool
  | .undefined => false
  | .null => false
  | .bool b => b
  | .num n => n != 0
  | .str s => s != ""
  | .arr _ _ => true
  | .obj _ => true

/-- The expression `x || y`. -/
def JsValue.or (x y : JsValue) : JsValue :=
  if x.truthy then x else y

/-- The expression `x ?? y`. -/
def JsValue.nullish (x y : JsValue) : JsValue :=
  match x with
  | .undefined => y
  | .null => y
  | _ => x

/-- The test `x != null`, false exactly for `null` and `undefined`. -/
def JsValue.notNullish : JsValue → Bool
  | .undefined => false
  | .null => false
  | _ => true

/-- The test `Array.isArray(x) && x.length` as a truth value. -/
def JsValue.isNonEmptyArray : JsValue → Bool
  | .arr length _ => length != 0
  | _ => false

/-- The object stored in `req.session.user` by login and registration. -/
structure SessionUser where
  id : Nat
  name : String
  email : String
  role : String
  deriving DecidableEq, Repr

structure UserRow where
  id : Nat
  name : String
  email : String
  password_hash : String
  role : String
  deriving DecidableEq, Repr

structure CourseRow where
  id : Nat
  teacher_id : Nat
  title : JsValue
  description : JsValue
  video_url : JsValue
  thumbnail_url : JsValue
  projected_hours : JsValue
  total_lectures : JsValue
  price : JsValue
  payment_type : JsValue
  monthly_payment_month : JsValue
  is_free : JsValue
  launch_date : JsValue
  is_published : JsValue
  created_at : Nat
  deriving DecidableEq, Repr

/-- Row of `lectures`.  `order_index` holds an integer, as the INTEGER column of the grand
tables does; `created_at` is the creation timestamp, compared as a number. -/
structure LectureRow where
  id : Nat
  course_id : Nat
  title : JsValue
  description : JsValue
  video_url : JsValue
  order_index : Int
  lecture_date : JsValue
  created_at : Nat
  deriving DecidableEq, Repr

structure LectureResourceRow where
  id : Nat
  lecture_id : Nat
  name : String
  file_url : String
  text_content : JsValue
  created_at : Nat
  deriving DecidableEq, Repr

structure LectureQuizRow where
  id : Nat
  lecture_id : Nat
  title : JsValue
  content_json : JsValue
  is_live : JsValue
  deriving DecidableEq, Repr

structure LectureAssignmentRow where
  id : Nat
  lecture_id : Nat
  title : JsValue
  description : JsValue
  file_url : JsValue
  deriving DecidableEq, Repr

structure QuizQuestionRow where
  id : Nat
  quiz_id : Nat
  text : String
  order_index : Int
  deriving DecidableEq, Repr

structure QuizAnswerOptionRow where
  id : Nat
  question_id : Nat
  text : String
  order_index : Int
  deriving DecidableEq, Repr

/-- Row of `grand_quizzes`, as created at start-up by `server.js`. -/
structure GrandQuizRow where
  id : Nat
  course_id : Nat
  title : JsValue
  description : JsValue
  content_json : JsValue
  is_live : JsValue
  order_index : Int
  is_required : JsValue
  created_at : Nat
  deriving DecidableEq, Repr

/-- Row of `grand_assignments`, as created at start-up by `server.js`. -/
structure GrandAssignmentRow where
  id : Nat
  course_id : Nat
  title : JsValue
  description : JsValue
  file_url : JsValue
  order_index : Int
  is_required : JsValue
  created_at : Nat
  deriving DecidableEq, Repr

structure EnrollmentRow where
  user_id : Nat
  course_id : Nat
  deriving DecidableEq, Repr

structure StudentProgressRow where
  user_id : Nat
  lecture_id : Nat
  completed : JsValue
  completion_percentage : JsValue
  deriving DecidableEq, Repr

/-- Row of `grand_quiz_submissions`: the only key is the auto-incremented `id`. -/
structure GrandQuizSubmissionRow where
  id : Nat
  quiz_id : Nat
  student_id : Nat
  answers_json : String
  score : Int
  submitted_at : Nat
  deriving DecidableEq, Repr

/-- Row of `grand_assignment_submissions`: the only key is the auto-incremented `id`. -/
structure GrandAssignmentSubmissionRow where
  id : Nat
  assignment_id : Nat
  student_id : Nat
  file_url : String
  submitted_at : Nat
  deriving DecidableEq, Repr

/-- The relational store: every table the handlers below read or write, rows in table order,
and the AUTOINCREMENT high-water marks of the four tables created by `server.js`. -/
structure Store where
  users : List UserRow
  courses : List CourseRow
  lectures : List LectureRow
  lecture_resources : List LectureResourceRow
  lecture_quizzes : List LectureQuizRow
  lecture_assignments : List LectureAssignmentRow
  quiz_questions : List QuizQuestionRow
  quiz_answer_options : List QuizAnswerOptionRow
  grand_quizzes : List GrandQuizRow
  grand_assignments : List GrandAssignmentRow
  enrollments : List EnrollmentRow
  student_progress : List StudentProgressRow
  grand_quiz_submissions : List GrandQuizSubmissionRow
  grand_assignment_submissions : List GrandAssignmentSubmissionRow
  seq_grand_quizzes : Nat
  seq_grand_assignments : Nat
  seq_grand_quiz_submissions : Nat
  seq_grand_assignment_submissions : Nat
  deriving DecidableEq, Repr

/-- A store with no rows. -/
def Store.empty : Store :=
  { users := [], courses := [], lectures := [], lecture_resources := [], lecture_quizzes := [],
    lecture_assignments := [], quiz_questions := [], quiz_answer_options := [],
    grand_quizzes := [], grand_assignments := [], enrollments := [], student_progress := [],
    grand_quiz_submissions := [], grand_assignment_submissions := [],
    seq_grand_quizzes := 0, seq_grand_assignments := 0, seq_grand_quiz_submissions := 0,
    seq_grand_assignment_submissions := 0 }

/-! ## Content items and responses -/

/-- The `type` tag added to a merged content item: 'lecture', 'grand_quiz', 'grand_assignment'. -/
inductive ContentType where
  | lecture
  | grand_quiz
  | grand_assignment
  deriving DecidableEq, Repr

/-- Row returned by the lectures query of GET /api/courses/:id: `l.*` with the three counting
sub-selects.  `resources` is the property the staff branch attaches to the row afterwards. -/
structure LectureView where
  row : LectureRow
  resource_count : Nat
  quiz_count : Nat
  assignment_count : Nat
  resources : Option (List LectureResourceRow)
  deriving DecidableEq, Repr

/-- The row spread into a merged content item. -/
inductive ContentRow where
  | lecture (l : LectureView)
  | grand_quiz (q : GrandQuizRow)
  | grand_assignment (a : GrandAssignmentRow)
  deriving DecidableEq, Repr

def ContentRow.id : ContentRow → Nat
  | .lecture l => l.row.id
  | .grand_quiz q => q.id
  | .grand_assignment a => a.id

def ContentRow.order_index : ContentRow → Int
  | .lecture l => l.row.order_index
  | .grand_quiz q => q.order_index
  | .grand_assignment a => a.order_index

def ContentRow.created_at : ContentRow → Nat
  | .lecture l => l.row.created_at
  | .grand_quiz q => q.created_at
  | .grand_assignment a => a.created_at

/-- The object `{ completed, percentage }`. -/
structure Progress where
  completed : JsValue
  percentage : JsValue
  deriving DecidableEq, Repr

/-- An element of `allContent`: `{ ...row, type }`, to which the student branch adds `progress`
and `is_locked`.  A field that the object does not carry is `none`. -/
structure ContentItem where
  type : ContentType
  row : ContentRow
  progress : Option Progress
  is_locked : Option Bool
  deriving DecidableEq, Repr

def ContentItem.id (item : ContentItem) : Nat := item.row.id

def ContentItem.order_index (item : ContentItem) : Int := item.row.order_index

def ContentItem.created_at (item : ContentItem) : Nat := item.row.created_at

/-- The object `courseOut`: the course row joined with its teacher name, and the four counts. -/
structure CourseOut where
  course : CourseRow
  teacher_name : String
  lecture_count : Nat
  grand_quiz_count : Nat
  grand_assignment_count : Nat
  total_content_count : Nat
  deriving DecidableEq, Repr

/-- The JSON object sent by GET /api/courses/:id on success. -/
structure CoursePayload where
  course : CourseOut
  lectures : List LectureView
  grandQuizzes : List GrandQuizRow
  grandAssignments : List GrandAssignmentRow
  allContent : List ContentItem
  deriving DecidableEq, Repr

/-- Row returned by the lecture lookup of the lecture endpoints: the lecture joined with its
course (`c.id as course_id`, `c.title as course_title`, `c.teacher_id`). -/
structure LectureDetail where
  row : LectureRow
  course_id : Nat
  course_title : JsValue
  teacher_id : Nat
  deriving DecidableEq, Repr

/-- A live-quiz question with its answer options attached. -/
structure QuestionOut where
  question : QuizQuestionRow
  options : List QuizAnswerOptionRow
  deriving DecidableEq, Repr

/-- The quiz object sent by GET /api/lectures/:id/quiz; `questions` is attached to live quizzes. -/
structure QuizOut where
  quiz : LectureQuizRow
  questions : Option (List QuestionOut)
  deriving DecidableEq, Repr

/-- JSON bodies sent by the modelled handlers. -/
inductive Body where
  | error (msg : String)
  | ok
  | okId (id : Nat)
  | okFile (file_url : String)
  | okVideo (id : Nat) (video_url : String)
  | course (payload : CoursePayload)
  | lecture (l : LectureDetail)
  | resources (rs : List LectureResourceRow)
  | quiz (q : Option QuizOut)
  | assignment (a : Option LectureAssignmentRow)
  deriving DecidableEq, Repr

/-- An HTTP response: status code (200 when `res.json` is called without `res.status`) and body. -/
structure Response where
  status : Nat
  body : Body
  deriving DecidableEq, Repr

/-! ## Auth middleware -/

/-- The function `requireAuth`: `none` means the middleware called `next()`, `some r` means it
answered `r` and the chain stopped. -/
def requireAuth (session : Option SessionUser) : Option Response :=
  match session with
  | none => some ⟨401, .error "Unauthorized"⟩
  | some _ => none

/-- The middleware `requireRole(...roles)`, with the same reading of the result. -/
def requireRole (roles : List String) (session : Option SessionUser) : Option Response :=
  match session with
  | none => some ⟨401, .error "Unauthorized"⟩
  | some user =>
    if !roles.contains user.role then some ⟨403, .error "Forbidden"⟩ else none

/-- Express runs the handler of a route only when the middleware before it called `next()`;
otherwise the middleware's response is the route's response and the store is untouched. -/
def guarded (gate : Option Response) (s : Store) (handler : Response × Store) :
    Response × Store :=
  match gate with
  | some r => (r, s)
  | none => handler

/-! ## Queries and sorting -/

/-- The ordering `ORDER BY order_index ASC, created_at ASC` on the pair of sort keys. -/
def sqlBefore (k₁ k₂ : Int × Nat) : Prop :=
  k₁.1 < k₂.1 ∨ (k₁.1 = k₂.1 ∧ k₁.2 ≤ k₂.2)

instance : DecidableRel sqlBefore := fun k₁ k₂ => by
  unfold sqlBefore; infer_instance

/-- Rows of a query ending in `ORDER BY order_index ASC, created_at ASC`; rows equal in both
keys come in table order. -/
def orderByIndexThenCreated {α : Type} (key : α → Int × Nat) (rows : List α) : List α :=
  rows.insertionSort fun a b => sqlBefore (key a) (key b)

/-- Rows of a query ending in `ORDER BY created_at ASC` (or `ORDER BY order_index ASC`). -/
def orderByKey {α κ : Type} [LinearOrder κ] (key : α → κ) (rows : List α) : List α :=
  rows.insertionSort fun a b => key a ≤ key b

/-- The query `SELECT 1 FROM enrollments WHERE user_id = ? AND course_id = ?`, tested for a row. -/
def enrolled (s : Store) (userId courseId : Nat) : Bool :=
  s.enrollments.any fun e => e.user_id == userId && e.course_id == courseId

/-- The query `SELECT c.*, u.name AS teacher_name FROM courses c JOIN users u
ON u.id = c.teacher_id WHERE c.id = ?`, first row. -/
def courseQuery (s : Store) (id : Nat) : Option (CourseRow × String) :=
  ((s.courses.filter fun c => c.id == id).flatMap fun c =>
    (s.users.filter fun u => u.id == c.teacher_id).map fun u => (c, u.name)).head?

/-- The select list of the lectures query: `l.*` and the three sub-selects
`(SELECT COUNT(*) FROM ... WHERE lecture_id = l.id)`. -/
def lectureWithCounts (s : Store) (l : LectureRow) : LectureView :=
  { row := l
    resource_count := (s.lecture_resources.filter fun r => r.lecture_id == l.id).length
    quiz_count := (s.lecture_quizzes.filter fun q => q.lecture_id == l.id).length
    assignment_count := (s.lecture_assignments.filter fun a => a.lecture_id == l.id).length
    resources := none }

/-- The lectures query of GET /api/courses/:id: the lectures of the course, `ORDER BY
l.order_index ASC, l.created_at ASC`. -/
def lecturesQuery (s : Store) (id : Nat) : List LectureView :=
  (orderByIndexThenCreated (fun l : LectureRow => (l.order_index, l.created_at))
      (s.lectures.filter fun l => l.course_id == id)).map (lectureWithCounts s)

/-- The query `SELECT * FROM grand_quizzes WHERE course_id = ? ORDER BY order_index ASC,
created_at ASC`. -/
def grandQuizzesQuery (s : Store) (id : Nat) : List GrandQuizRow :=
  orderByIndexThenCreated (fun q : GrandQuizRow => (q.order_index, q.created_at))
    (s.grand_quizzes.filter fun q => q.course_id == id)

/-- The query `SELECT * FROM grand_assignments WHERE course_id = ? ORDER BY order_index ASC,
created_at ASC`. -/
def grandAssignmentsQuery (s : Store) (id : Nat) : List GrandAssignmentRow :=
  orderByIndexThenCreated (fun a : GrandAssignmentRow => (a.order_index, a.created_at))
    (s.grand_assignments.filter fun a => a.course_id == id)

/-- The comparator `(a, b) => a.order_index - b.order_index`. -/
def compareOrderIndex (a b : ContentItem) : Int :=
  a.order_index - b.order_index

/-- The call `Array.prototype.sort` with that comparator: a stable sort, so `a` stays before `b`
whenever the comparator does not return a positive number. -/
def sortByOrderIndex (items : List ContentItem) : List ContentItem :=
  items.insertionSort fun a b => compareOrderIndex a b ≤ 0

def lectureItem (l : LectureView) : ContentItem :=
  { type := .lecture, row := .lecture l, progress := none, is_locked := none }

def grandQuizItem (q : GrandQuizRow) : ContentItem :=
  { type := .grand_quiz, row := .grand_quiz q, progress := none, is_locked := none }

def grandAssignmentItem (a : GrandAssignmentRow) : ContentItem :=
  { type := .grand_assignment, row := .grand_assignment a, progress := none, is_locked := none }

/-- The three tagged collections, concatenated, before the sort. -/
def taggedContent (lectures : List LectureView) (grandQuizzes : List GrandQuizRow)
    (grandAssignments : List GrandAssignmentRow) : List ContentItem :=
  lectures.map lectureItem ++ grandQuizzes.map grandQuizItem ++
    grandAssignments.map grandAssignmentItem

/-- The array `allContent` as built before any annotation. -/
def mergeContent (lectures : List LectureView) (grandQuizzes : List GrandQuizRow)
    (grandAssignments : List GrandAssignmentRow) : List ContentItem :=
  sortByOrderIndex (taggedContent lectures grandQuizzes grandAssignments)

/-! ## Progress map and lock annotation -/

/-- Key of `progressMap`.  The source key is the string built from the type tag, an underscore
and the id; for the three tags and integer ids that string determines the pair and the pair
determines the string, so the pair is the key. -/
abbrev ProgressKey := ContentType × Nat

/-- The object `progressMap`: the latest write for a key comes first. -/
abbrev ProgressMap := List (ProgressKey × Progress)

/-- The assignment `progressMap[key] = value`. -/
def ProgressMap.set (m : ProgressMap) (key : ProgressKey) (value : Progress) : ProgressMap :=
  (key, value) :: m

/-- The read `progressMap[key]`; `none` is `undefined`. -/
def ProgressMap.get (m : ProgressMap) (key : ProgressKey) : Option Progress :=
  List.lookup key m

def progressKey (item : ContentItem) : ProgressKey :=
  (item.type, item.id)

/-- The three `forEach` loops that fill `progressMap` from the rows of the student's lecture
progress, the ids of the submitted grand quizzes and those of the submitted grand assignments. -/
def buildProgressMap (lectureProgress : List StudentProgressRow) (quizSubmissions : List Nat)
    (assignmentSubmissions : List Nat) : ProgressMap :=
  let m₁ := lectureProgress.foldl
    (fun m p => ProgressMap.set m (.lecture, p.lecture_id) ⟨p.completed, p.completion_percentage⟩)
    []
  let m₂ := quizSubmissions.foldl
    (fun m item_id => ProgressMap.set m (.grand_quiz, item_id) ⟨.num 1, .num 100⟩) m₁
  assignmentSubmissions.foldl
    (fun m item_id => ProgressMap.set m (.grand_assignment, item_id) ⟨.num 1, .num 100⟩) m₂

/-- The expression `prevProgress && prevProgress.completed`, as a truth value. -/
def completedIn (progressMap : ProgressMap) (item : ContentItem) : Bool :=
  match progressMap.get (progressKey item) with
  | none => false
  | some prevProgress => prevProgress.completed.truthy

/-- The loop `allContent.forEach((item, index) => ...)` of the student branch.  The element
`allContent[index - 1]` exists whenever `index` is not 0. -/
def annotate (progressMap : ProgressMap) (allContent : List ContentItem) : List ContentItem :=
  allContent.enum.map fun (index, item) =>
    { item with
      progress := some ((progressMap.get (progressKey item)).getD ⟨.num 0, .num 0⟩)
      is_locked := some (
        if index = 0 then false
        else match allContent[index - 1]? with
          | none => true
          | some prevItem => !completedIn progressMap prevItem) }

/-- The student's rows of `student_progress`. -/
def lectureProgressQuery (s : Store) (userId : Nat) : List StudentProgressRow :=
  s.student_progress.filter fun p => p.user_id == userId

/-- The query `SELECT quiz_id as item_id FROM grand_quiz_submissions WHERE student_id = ?`. -/
def quizSubmissionsQuery (s : Store) (userId : Nat) : List Nat :=
  (s.grand_quiz_submissions.filter fun q => q.student_id == userId).map fun q => q.quiz_id

/-- The query `SELECT assignment_id as item_id FROM grand_assignment_submissions
WHERE student_id = ?`. -/
def assignmentSubmissionsQuery (s : Store) (userId : Nat) : List Nat :=
  (s.grand_assignment_submissions.filter fun a => a.student_id == userId).map
    fun a => a.assignment_id

/-- The map `progressMap` of GET /api/courses/:id for the student `userId`. -/
def studentProgressMap (s : Store) (userId : Nat) : ProgressMap :=
  buildProgressMap (lectureProgressQuery s userId) (quizSubmissionsQuery s userId)
    (assignmentSubmissionsQuery s userId)

/-- The staff branch: the resources of the course's lectures, oldest first, grouped by lecture
and attached to each row of `lectures`. -/
def attachResources (s : Store) (lectures : List LectureView) : List LectureView :=
  let lectureIds := lectures.map fun l => l.row.id
  let resources := orderByKey (fun r : LectureResourceRow => r.created_at)
    (s.lecture_resources.filter fun r => lectureIds.contains r.lecture_id)
  lectures.map fun l =>
    { l with resources := some (resources.filter fun r => r.lecture_id == l.row.id) }

/-! ## GET /api/courses/:id -/

/-- The handler of GET /api/courses/:id.  Reading a property of an absent session user throws
inside the `try`, which answers 500. -/
def getCourseHandler (s : Store) (session : Option SessionUser) (id : Nat) : Response :=
  match courseQuery s id with
  | none => ⟨404, .error "Not found"⟩
  | some (course, teacher_name) =>
    match session with
    | none => ⟨500, .error "Server error"⟩
    | some user =>
      if user.role = "student" ∧ enrolled s user.id id = false then
        ⟨403, .error "Not enrolled in this course"⟩
      else
        let lectures := lecturesQuery s id
        let grandQuizzes := grandQuizzesQuery s id
        let grandAssignments := grandAssignmentsQuery s id
        let allContent := mergeContent lectures grandQuizzes grandAssignments
        let allContent :=
          if user.role = "student" then annotate (studentProgressMap s user.id) allContent
          else allContent
        let lectures :=
          if user.role = "admin" ∨ user.role = "teacher" then attachResources s lectures
          else lectures
        ⟨200, .course
          { course :=
              { course := course
                teacher_name := teacher_name
                lecture_count := lectures.length
                grand_quiz_count := grandQuizzes.length
                grand_assignment_count := grandAssignments.length
                total_content_count := allContent.length }
            lectures := lectures
            grandQuizzes := grandQuizzes
            grandAssignments := grandAssignments
            allContent := allContent }⟩

/-- The route `app.get('/api/courses/:id', requireAuth, handler)`. -/
def getCourse (s : Store) (session : Option SessionUser) (id : Nat) : Response × Store :=
  guarded (requireAuth session) s (getCourseHandler s session id, s)

/-! ## Lecture endpoints -/

/-- The lecture lookup of the lecture endpoints: `SELECT l.*, c.id as course_id, c.title as
course_title, c.teacher_id FROM lectures l JOIN courses c ON c.id = l.course_id WHERE l.id = ?`,
first row. -/
def lectureQuery (s : Store) (lectureId : Nat) : Option LectureDetail :=
  ((s.lectures.filter fun l => l.id == lectureId).flatMap fun l =>
    (s.courses.filter fun c => c.id == l.course_id).map fun c =>
      LectureDetail.mk l c.id c.title c.teacher_id).head?

/-- The object `progressMap` of GET /api/lectures/:id: lecture id to `completed`, the later row
of the student winning. -/
def lectureCompletedMap (s : Store) (userId : Nat) : List (Nat × JsValue) :=
  (lectureProgressQuery s userId).foldl (fun m p => (p.lecture_id, p.completed) :: m) []

/-- The query `SELECT id FROM lectures WHERE course_id = ? ORDER BY order_index ASC,
created_at ASC`. -/
def allLecturesQuery (s : Store) (courseId : Nat) : List Nat :=
  (orderByIndexThenCreated (fun l : LectureRow => (l.order_index, l.created_at))
    (s.lectures.filter fun l => l.course_id == courseId)).map fun l => l.id

/-- The sequential-access test of GET /api/lectures/:id: the lecture is found at an index above
0 and the lecture just before it has no truthy `completed` in the map. -/
def previousLectureIncomplete (s : Store) (userId : Nat) (lecture : LectureDetail)
    (lectureId : Nat) : Bool :=
  let allLectures := allLecturesQuery s lecture.course_id
  match allLectures.findIdx? fun id => id == lectureId with
  | none => false
  | some lectureIndex =>
    if lectureIndex > 0 then
      match allLectures[lectureIndex - 1]? with
      | none => false
      | some prevLecture =>
        !(match List.lookup prevLecture (lectureCompletedMap s userId) with
          | none => false
          | some completed => completed.truthy)
    else false

/-- The handler of GET /api/lectures/:id. -/
def getLectureHandler (s : Store) (session : Option SessionUser) (lectureId : Nat) : Response :=
  match lectureQuery s lectureId with
  | none => ⟨404, .error "Lecture not found"⟩
  | some lecture =>
    match session with
    | none => ⟨500, .error "Server error"⟩
    | some user =>
      if user.role = "student" then
        if enrolled s user.id lecture.course_id = false then
          ⟨403, .error "Not enrolled in this course"⟩
        else if previousLectureIncomplete s user.id lecture lectureId then
          ⟨403, .error "Previous lecture must be completed first"⟩
        else ⟨200, .lecture lecture⟩
      else if user.role = "teacher" ∧ user.id ≠ lecture.teacher_id then
        ⟨403, .error "Access denied"⟩
      else ⟨200, .lecture lecture⟩

/-- The route `app.get('/api/lectures/:id', requireAuth, handler)`. -/
def getLecture (s : Store) (session : Option SessionUser) (lectureId : Nat) :
    Response × Store :=
  guarded (requireAuth session) s (getLectureHandler s session lectureId, s)

/-- The access check shared by the three sub-resource handlers of a lecture: the answer that
ends the request, or `none` when the handler goes on. -/
def lectureAccess (s : Store) (session : Option SessionUser) (lectureId : Nat) :
    Option Response :=
  match lectureQuery s lectureId with
  | none => some ⟨404, .error "Lecture not found"⟩
  | some lecture =>
    match session with
    | none => some ⟨500, .error "Server error"⟩
    | some user =>
      if user.role = "student" then
        if enrolled s user.id lecture.course_id = false then some ⟨403, .error "Not enrolled"⟩
        else none
      else if user.role = "teacher" ∧ user.id ≠ lecture.teacher_id then
        some ⟨403, .error "Access denied"⟩
      else none

/-- The handler of GET /api/lectures/:id/resources. -/
def getLectureResourcesHandler (s : Store) (session : Option SessionUser) (lectureId : Nat) :
    Response :=
  match lectureAccess s session lectureId with
  | some r => r
  | none =>
    ⟨200, .resources (orderByKey (fun r : LectureResourceRow => r.created_at)
      (s.lecture_resources.filter fun r => r.lecture_id == lectureId))⟩

/-- The route `app.get('/api/lectures/:id/resources', requireAuth, handler)`. -/
def getLectureResources (s : Store) (session : Option SessionUser) (lectureId : Nat) :
    Response × Store :=
  guarded (requireAuth session) s (getLectureResourcesHandler s session lectureId, s)

/-- The questions of a live quiz with their options, both `ORDER BY order_index ASC`. -/
def quizQuestions (s : Store) (quizId : Nat) : List QuestionOut :=
  (orderByKey (fun q : QuizQuestionRow => q.order_index)
    (s.quiz_questions.filter fun q => q.quiz_id == quizId)).map fun question =>
      { question := question
        options := orderByKey (fun o : QuizAnswerOptionRow => o.order_index)
          (s.quiz_answer_options.filter fun o => o.question_id == question.id) }

/-- The handler of GET /api/lectures/:id/quiz. -/
def getLectureQuizHandler (s : Store) (session : Option SessionUser) (lectureId : Nat) :
    Response :=
  match lectureAccess s session lectureId with
  | some r => r
  | none =>
    match (s.lecture_quizzes.filter fun q => q.lecture_id == lectureId).head? with
    | none => ⟨200, .quiz none⟩
    | some quiz =>
      if quiz.is_live.truthy then
        ⟨200, .quiz (some { quiz := quiz, questions := some (quizQuestions s quiz.id) })⟩
      else ⟨200, .quiz (some { quiz := quiz, questions := none })⟩

/-- The route `app.get('/api/lectures/:id/quiz', requireAuth, handler)`. -/
def getLectureQuiz (s : Store) (session : Option SessionUser) (lectureId : Nat) :
    Response × Store :=
  guarded (requireAuth session) s (getLectureQuizHandler s session lectureId, s)

/-- The handler of GET /api/lectures/:id/assignment. -/
def getLectureAssignmentHandler (s : Store) (session : Option SessionUser) (lectureId : Nat) :
    Response :=
  match lectureAccess s session lectureId with
  | some r => r
  | none =>
    ⟨200, .assignment (s.lecture_assignments.filter fun a => a.lecture_id == lectureId).head?⟩

/-- The route `app.get('/api/lectures/:id/assignment', requireAuth, handler)`. -/
def getLectureAssignment (s : Store) (session : Option SessionUser) (lectureId : Nat) :
    Response × Store :=
  guarded (requireAuth session) s (getLectureAssignmentHandler s session lectureId, s)

/-! ## Submissions -/

/-- The rowid given to a row inserted without an id into an AUTOINCREMENT table: one more than
the largest rowid the table ever held. -/
def nextRowId (seq : Nat) (ids : List Nat) : Nat :=
  max seq (ids.foldl max 0) + 1

/-- The file object `req.file` left by the upload middleware once it has stored the file. -/
structure StoredFile where
  fieldname : String
  originalname : String
  mimetype : String
  size : Nat
  filename : String
  deriving DecidableEq, Repr

/-- The handler of POST /api/grand-quizzes/:id/submit.  `stringify` is `JSON.stringify` and `now`
the clock read by `CURRENT_TIMESTAMP`.  The table has no key but its auto-incremented id, so
`INSERT OR REPLACE` adds a row; the insert fails, and the handler answers 500, when a foreign
key (`quiz_id`, `student_id`) names no row. -/
def submitGrandQuizHandler (stringify : JsValue → String) (now : Nat) (s : Store)
    (session : Option SessionUser) (quizId : Nat) (answers : JsValue) : Response × Store :=
  if answers.truthy = false then (⟨400, .error "answers required"⟩, s)
  else
    let answers_json := stringify answers
    match session with
    | none => (⟨500, .error "Server error"⟩, s)
    | some user =>
      if (s.grand_quizzes.any fun q => q.id == quizId) ∧ (s.users.any fun u => u.id == user.id)
      then
        let id := nextRowId s.seq_grand_quiz_submissions
          (s.grand_quiz_submissions.map fun r => r.id)
        (⟨200, .ok⟩,
          { s with
            grand_quiz_submissions := s.grand_quiz_submissions ++
              [{ id := id, quiz_id := quizId, student_id := user.id,
                 answers_json := answers_json, score := 0, submitted_at := now }]
            seq_grand_quiz_submissions := id })
      else (⟨500, .error "Server error"⟩, s)

/-- The route `app.post('/api/grand-quizzes/:id/submit', requireRole('student'), handler)`. -/
def submitGrandQuiz (stringify : JsValue → String) (now : Nat) (s : Store)
    (session : Option SessionUser) (quizId : Nat) (answers : JsValue) : Response × Store :=
  guarded (requireRole ["student"] session) s
    (submitGrandQuizHandler stringify now s session quizId answers)

/-- The handler of POST /api/grand-assignments/:id/submit, run after the upload middleware. -/
def submitGrandAssignmentHandler (now : Nat) (s : Store) (session : Option SessionUser)
    (assignmentId : Nat) (file : Option StoredFile) : Response × Store :=
  match file with
  | none => (⟨400, .error "File required"⟩, s)
  | some f =>
    let file_url := "/media/" ++ f.filename
    match session with
    | none => (⟨500, .error "Server error"⟩, s)
    | some user =>
      if (s.grand_assignments.any fun a => a.id == assignmentId) ∧
          (s.users.any fun u => u.id == user.id)
      then
        let id := nextRowId s.seq_grand_assignment_submissions
          (s.grand_assignment_submissions.map fun r => r.id)
        (⟨200, .ok⟩,
          { s with
            grand_assignment_submissions := s.grand_assignment_submissions ++
              [{ id := id, assignment_id := assignmentId, student_id := user.id,
                 file_url := file_url, submitted_at := now }]
            seq_grand_assignment_submissions := id })
      else (⟨500, .error "Server error"⟩, s)

/-- The route `app.post('/api/grand-assignments/:id/submit', requireRole('student'),
uploadAny.single('file'), handler)`, for a request whose upload, if any, the middleware stored
as `file`. -/
def submitGrandAssignment (now : Nat) (s : Store) (session : Option SessionUser)
    (assignmentId : Nat) (file : Option StoredFile) : Response × Store :=
  guarded (requireRole ["student"] session) s
    (submitGrandAssignmentHandler now s session assignmentId file)

/-! ## Authoring routes under /api/courses/:id -/

/-- The query `SELECT 1 FROM courses WHERE id=? AND teacher_id=?`, tested for a row. -/
def ownsCourse (s : Store) (courseId userId : Nat) : Bool :=
  s.courses.any fun c => c.id == courseId && c.teacher_id == userId

/-- Body of POST /api/courses/:id/grand-quiz.  `order_index` is the number `+order_index` when
it is finite, `none` otherwise. -/
structure GrandQuizBody where
  title : JsValue
  description : JsValue
  questions : JsValue
  order_index : Option Int
  deriving DecidableEq, Repr

/-- The handler of POST /api/courses/:id/grand-quiz. -/
def createGrandQuizHandler (stringify : JsValue → String) (now : Nat) (s : Store)
    (session : Option SessionUser) (courseId : Nat) (body : GrandQuizBody) : Response × Store :=
  if body.title.truthy = false ∨ body.questions.isNonEmptyArray = false then
    (⟨400, .error "title and questions array required"⟩, s)
  else
    match session with
    | none => (⟨500, .error "Server error"⟩, s)
    | some user =>
      if user.role = "teacher" ∧ ownsCourse s courseId user.id = false then
        (⟨403, .error "Forbidden"⟩, s)
      else if s.courses.any fun c => c.id == courseId then
        let id := nextRowId s.seq_grand_quizzes (s.grand_quizzes.map fun q => q.id)
        (⟨200, .okId id⟩,
          { s with
            grand_quizzes := s.grand_quizzes ++
              [{ id := id, course_id := courseId, title := body.title,
                 description := body.description.or (.str ""),
                 content_json := .str (stringify body.questions), is_live := .num 1,
                 order_index := body.order_index.getD 0, is_required := .num 1,
                 created_at := now }]
            seq_grand_quizzes := id })
      else (⟨500, .error "Server error"⟩, s)

/-- The route `app.post('/api/courses/:id/grand-quiz', requireRole('teacher', 'admin'),
handler)`. -/
def createGrandQuiz (stringify : JsValue → String) (now : Nat) (s : Store)
    (session : Option SessionUser) (courseId : Nat) (body : GrandQuizBody) : Response × Store :=
  guarded (requireRole ["teacher", "admin"] session) s
    (createGrandQuizHandler stringify now s session courseId body)

/-- Body of POST /api/courses/:id/grand-assignment, `order_index` as for the grand quiz. -/
structure GrandAssignmentBody where
  title : JsValue
  description : JsValue
  file_url : JsValue
  order_index : Option Int
  deriving DecidableEq, Repr

/-- The handler of POST /api/courses/:id/grand-assignment. -/
def createGrandAssignmentHandler (now : Nat) (s : Store) (session : Option SessionUser)
    (courseId : Nat) (body : GrandAssignmentBody) : Response × Store :=
  if body.title.truthy = false then (⟨400, .error "title required"⟩, s)
  else
    match session with
    | none => (⟨500, .error "Server error"⟩, s)
    | some user =>
      if user.role = "teacher" ∧ ownsCourse s courseId user.id = false then
        (⟨403, .error "Forbidden"⟩, s)
      else if s.courses.any fun c => c.id == courseId then
        let id := nextRowId s.seq_grand_assignments (s.grand_assignments.map fun a => a.id)
        (⟨200, .okId id⟩,
          { s with
            grand_assignments := s.grand_assignments ++
              [{ id := id, course_id := courseId, title := body.title,
                 description := body.description.or (.str ""),
                 file_url := body.file_url.or .null,
                 order_index := body.order_index.getD 0, is_required := .num 1,
                 created_at := now }]
            seq_grand_assignments := id })
      else (⟨500, .error "Server error"⟩, s)

/-- The route `app.post('/api/courses/:id/grand-assignment', requireRole('teacher', 'admin'),
handler)`. -/
def createGrandAssignment (now : Nat) (s : Store) (session : Option SessionUser)
    (courseId : Nat) (body : GrandAssignmentBody) : Response × Store :=
  guarded (requireRole ["teacher", "admin"] session) s
    (createGrandAssignmentHandler now s session courseId body)

/-- The handler of POST /api/courses/:id/grand-assignment/upload, run after the upload
middleware. -/
def uploadGrandAssignmentHandler (s : Store) (file : Option StoredFile) : Response × Store :=
  match file with
  | none => (⟨400, .error "File required"⟩, s)
  | some f => (⟨200, .okFile ("/media/" ++ f.filename)⟩, s)

/-- The route `app.post('/api/courses/:id/grand-assignment/upload', requireRole('teacher',
'admin'), uploadAny.single('file'), handler)`, for a request whose upload, if any, the
middleware stored as `file`. -/
def uploadGrandAssignment (s : Store) (session : Option SessionUser) (_courseId : Nat)
    (file : Option StoredFile) : Response × Store :=
  guarded (requireRole ["teacher", "admin"] session) s (uploadGrandAssignmentHandler s file)

/-- An element `{type, id, order}` of the `items` array of a reorder request. -/
structure ReorderItem where
  type : String
  id : Nat
  order : Int
  deriving DecidableEq, Repr

/-- The UPDATE statement run for one item, if its type is one of the three tags. -/
def applyReorderItem (courseId : Nat) (s : Store) (item : ReorderItem) : Store :=
  if item.type = "lecture" then
    { s with lectures := s.lectures.map fun l =>
        if l.id == item.id && l.course_id == courseId then { l with order_index := item.order }
        else l }
  else if item.type = "grand_quiz" then
    { s with grand_quizzes := s.grand_quizzes.map fun q =>
        if q.id == item.id && q.course_id == courseId then { q with order_index := item.order }
        else q }
  else if item.type = "grand_assignment" then
    { s with grand_assignments := s.grand_assignments.map fun a =>
        if a.id == item.id && a.course_id == courseId then { a with order_index := item.order }
        else a }
  else s

/-- The loop over `items` inside the transaction; `fails k` says that the statement run for the
item at position `k` throws.  `none` is a thrown error. -/
def runReorder (courseId : Nat) (fails : Nat → Bool) : Nat → List ReorderItem → Store →
    Option Store
  | _, [], s => some s
  | k, item :: rest, s =>
    if (item.type = "lecture" ∨ item.type = "grand_quiz" ∨ item.type = "grand_assignment") ∧
        fails k = true then none
    else runReorder courseId fails (k + 1) rest (applyReorderItem courseId s item)

/-- The handler of PUT /api/courses/:id/reorder-content.  `items` is `none` when the body
field is not an array.  A thrown error is answered 500 after `ROLLBACK`, which restores the
store of before `BEGIN`. -/
def reorderContentHandler (fails : Nat → Bool) (s : Store) (session : Option SessionUser)
    (courseId : Nat) (items : Option (List ReorderItem)) : Response × Store :=
  match items with
  | none => (⟨400, .error "items array required"⟩, s)
  | some [] => (⟨400, .error "items array required"⟩, s)
  | some (item :: rest) =>
    match session with
    | none => (⟨500, .error "Server error"⟩, s)
    | some user =>
      if user.role = "teacher" ∧ ownsCourse s courseId user.id = false then
        (⟨403, .error "Forbidden"⟩, s)
      else
        match runReorder courseId fails 0 (item :: rest) s with
        | some s' => (⟨200, .ok⟩, s')
        | none => (⟨500, .error "Server error"⟩, s)

/-- The route `app.put('/api/courses/:id/reorder-content', requireRole('teacher'), handler)`. -/
def reorderContent (fails : Nat → Bool) (s : Store) (session : Option SessionUser)
    (courseId : Nat) (items : Option (List ReorderItem)) : Response × Store :=
  guarded (requireRole ["teacher"] session) s
    (reorderContentHandler fails s session courseId items)

/-- Body of PUT /api/courses/:id; an absent field is `undefined`. -/
structure CourseUpdateBody where
  title : JsValue
  description : JsValue
  projected_hours : JsValue
  total_lectures : JsValue
  price : JsValue
  payment_type : JsValue
  monthly_payment_month : JsValue
  is_free : JsValue
  deriving DecidableEq, Repr

/-- The handler of PUT /api/courses/:id.  `toNumber` is the conversion `Number(x)`. -/
def updateCourseHandler (toNumber : JsValue → JsValue) (s : Store)
    (session : Option SessionUser) (id : Nat) (body : CourseUpdateBody) : Response × Store :=
  if ¬ (body.title.truthy = true ∨ body.description ≠ .undefined ∨
      body.projected_hours ≠ .undefined ∨ body.total_lectures ≠ .undefined ∨
      body.price ≠ .undefined ∨ body.payment_type ≠ .undefined ∨
      body.monthly_payment_month ≠ .undefined ∨ body.is_free ≠ .undefined) then
    (⟨400, .error "Nothing to update"⟩, s)
  else
    match session with
    | none => (⟨500, .error "Server error"⟩, s)
    | some user =>
      if user.role = "teacher" ∧ ownsCourse s id user.id = false then
        (⟨403, .error "Forbidden"⟩, s)
      else
        match (s.courses.filter fun c => c.id == id).head? with
        | none => (⟨404, .error "Not found"⟩, s)
        | some current =>
          let newTitle := body.title.nullish current.title
          let newDesc :=
            if body.description ≠ .undefined then body.description else current.description
          let newHours :=
            if body.projected_hours ≠ .undefined then
              (if body.projected_hours ≠ .null then toNumber body.projected_hours else .null)
            else current.projected_hours
          let newTotalLectures :=
            if body.total_lectures ≠ .undefined then
              (if body.total_lectures ≠ .null then toNumber body.total_lectures else .null)
            else current.total_lectures
          let newPrice :=
            if body.price ≠ .undefined then toNumber body.price
            else (if current.price ≠ .undefined then current.price else .num 0)
          let newPaymentType := body.payment_type.nullish (current.payment_type.or (.str "one_time"))
          let newMonthlyMonth :=
            if body.monthly_payment_month ≠ .undefined then body.monthly_payment_month
            else current.monthly_payment_month
          let newIsFree :=
            if body.is_free ≠ .undefined then (if body.is_free.truthy then .num 1 else .num 0)
            else (if current.is_free ≠ .null ∧ current.is_free ≠ .undefined then current.is_free
              else .num 1)
          (⟨200, .ok⟩,
            { s with courses := s.courses.map fun c =>
                if c.id == id then
                  { c with title := newTitle, description := newDesc,
                           projected_hours := newHours, total_lectures := newTotalLectures,
                           price := newPrice, payment_type := newPaymentType,
                           monthly_payment_month := newMonthlyMonth, is_free := newIsFree }
                else c })

/-- The route `app.put('/api/courses/:id', requireRole('teacher', 'admin'), handler)`. -/
def updateCourse (toNumber : JsValue → JsValue) (s : Store) (session : Option SessionUser)
    (id : Nat) (body : CourseUpdateBody) : Response × Store :=
  guarded (requireRole ["teacher", "admin"] session) s
    (updateCourseHandler toNumber s session id body)

/-! ## Lecture authoring routes -/

/-- The ownership query of the lecture routes: `SELECT 1 FROM lectures l JOIN courses c
ON c.id = l.course_id WHERE l.id = ? AND c.teacher_id = ?`, tested for a row. -/
def ownsLecture (s : Store) (lectureId userId : Nat) : Bool :=
  s.lectures.any fun l =>
    l.id == lectureId && s.courses.any fun c => c.id == l.course_id && c.teacher_id == userId

/-- Body of POST /api/lectures/upload.  `course_id` is the id named by a truthy `course_id`
field, `order_index` the number `+order_index` when it is finite. -/
structure LectureUploadBody where
  course_id : Option Nat
  title : JsValue
  description : JsValue
  order_index : Option Int
  lecture_date : JsValue
  resource_name : JsValue
  deriving DecidableEq, Repr

/-- The handler of POST /api/lectures/upload, run after the upload middleware.  The insert
fails, and the handler answers 500, when `course_id` names no course. -/
def uploadLectureHandler (now : Nat) (s : Store) (session : Option SessionUser)
    (body : LectureUploadBody) (file : Option StoredFile) : Response × Store :=
  match body.course_id with
  | none => (⟨400, .error "course_id and title required"⟩, s)
  | some course_id =>
    if body.title.truthy = false then (⟨400, .error "course_id and title required"⟩, s)
    else
      match file with
      | none => (⟨400, .error "Video file required"⟩, s)
      | some f =>
        match session with
        | none => (⟨500, .error "Server error"⟩, s)
        | some user =>
          if user.role = "teacher" ∧ ownsCourse s course_id user.id = false then
            (⟨403, .error "Forbidden"⟩, s)
          else if s.courses.any fun c => c.id == course_id then
            let video_url := "/media/" ++ f.filename
            let id := nextRowId 0 (s.lectures.map fun l => l.id)
            (⟨200, .okVideo id video_url⟩,
              { s with lectures := s.lectures ++
                  [{ id := id, course_id := course_id, title := body.title,
                     description := body.description.or (.str ""), video_url := .str video_url,
                     order_index := body.order_index.getD 0,
                     lecture_date := body.lecture_date.or .null, created_at := now }] })
          else (⟨500, .error "Server error"⟩, s)

/-- The route `app.post('/api/lectures/upload', requireRole('teacher', 'admin'),
upload.single('video'), handler)`, for a request whose upload, if any, the middleware stored
as `file`. -/
def uploadLecture (now : Nat) (s : Store) (session : Option SessionUser)
    (body : LectureUploadBody) (file : Option StoredFile) : Response × Store :=
  guarded (requireRole ["teacher", "admin"] session) s
    (uploadLectureHandler now s session body file)

/-- The handler of POST /api/lectures/upload-with-resource.  `uploadError` is the message of the
error the upload middleware reports, if any; `video` and `resource` are `req.files.video[0]`
and `req.files.resource[0]`; the text fields of a multipart body are strings.  `fails 0` says that the lecture insert throws and `fails 1` that
the resource insert does; a thrown statement is answered 500 after `ROLLBACK`, which restores
the store of before `BEGIN`. -/
def uploadLectureWithResourceHandler (now : Nat) (fails : Nat → Bool) (s : Store)
    (session : Option SessionUser) (uploadError : Option String) (body : LectureUploadBody)
    (video resource : Option StoredFile) : Response × Store :=
  match uploadError with
  | some message => (⟨400, .error message⟩, s)
  | none =>
    match body.course_id with
    | none => (⟨400, .error "course_id and title required"⟩, s)
    | some course_id =>
      if body.title.truthy = false then (⟨400, .error "course_id and title required"⟩, s)
      else
        match video with
        | none => (⟨400, .error "Video file required"⟩, s)
        | some v =>
          match session with
          | none => (⟨500, .error "Database error"⟩, s)
          | some user =>
            if user.role = "teacher" ∧ ownsCourse s course_id user.id = false then
              (⟨403, .error "Forbidden"⟩, s)
            else if (s.courses.any fun c => c.id == course_id) = false ∨ fails 0 = true then
              (⟨500, .error "Database error"⟩, s)
            else
              let video_url := "/media/" ++ v.filename
              let lectureId := nextRowId 0 (s.lectures.map fun l => l.id)
              let s₁ : Store :=
                { s with lectures := s.lectures ++
                    [{ id := lectureId, course_id := course_id, title := body.title,
                       description := body.description.or (.str ""),
                       video_url := .str video_url, order_index := body.order_index.getD 0,
                       lecture_date := body.lecture_date.or .null, created_at := now }] }
              match resource with
              | none => (⟨200, .okVideo lectureId video_url⟩, s₁)
              | some r =>
                if fails 1 = true then (⟨500, .error "Database error"⟩, s)
                else
                  let resourceName :=
                    match body.resource_name with
                    | .str name => if name = "" then r.originalname else name
                    | _ => r.originalname
                  (⟨200, .okVideo lectureId video_url⟩,
                    { s₁ with lecture_resources := s₁.lecture_resources ++
                        [{ id := nextRowId 0 (s₁.lecture_resources.map fun x => x.id),
                           lecture_id := lectureId, name := resourceName,
                           file_url := "/media/" ++ r.filename, text_content := .null,
                           created_at := now }] })

/-- The route `app.post('/api/lectures/upload-with-resource', requireRole('teacher', 'admin'),
handler)`. -/
def uploadLectureWithResource (now : Nat) (fails : Nat → Bool) (s : Store)
    (session : Option SessionUser) (uploadError : Option String) (body : LectureUploadBody)
    (video resource : Option StoredFile) : Response × Store :=
  guarded (requireRole ["teacher", "admin"] session) s
    (uploadLectureWithResourceHandler now fails s session uploadError body video resource)

/-- Body of PUT /api/lectures/:id; an absent field is `undefined`. -/
structure LectureUpdateBody where
  title : JsValue
  description : JsValue
  lecture_date : JsValue
  deriving DecidableEq, Repr

/-- The handler of PUT /api/lectures/:id. -/
def updateLectureHandler (s : Store) (session : Option SessionUser) (lectureId : Nat)
    (body : LectureUpdateBody) : Response × Store :=
  if body.title.truthy = false ∧ body.description.truthy = false ∧
      body.lecture_date.truthy = false then
    (⟨400, .error "Nothing to update"⟩, s)
  else
    match session with
    | none => (⟨500, .error "Server error"⟩, s)
    | some user =>
      if user.role = "teacher" ∧ ownsLecture s lectureId user.id = false then
        (⟨403, .error "Forbidden"⟩, s)
      else
        match (s.lectures.filter fun l => l.id == lectureId).head? with
        | none => (⟨404, .error "Lecture not found"⟩, s)
        | some current =>
          let newTitle := body.title.nullish current.title
          let newDesc := body.description.nullish current.description
          let newDate := body.lecture_date.nullish current.lecture_date
          (⟨200, .ok⟩,
            { s with lectures := s.lectures.map fun l =>
                if l.id == lectureId then
                  { l with title := newTitle, description := newDesc, lecture_date := newDate }
                else l })

/-- The route `app.put('/api/lectures/:id', requireRole('teacher', 'admin'), handler)`. -/
def updateLecture (s : Store) (session : Option SessionUser) (lectureId : Nat)
    (body : LectureUpdateBody) : Response × Store :=
  guarded (requireRole ["teacher", "admin"] session) s
    (updateLectureHandler s session lectureId body)

/-- The handler of DELETE /api/lectures/:id.  `cascade` is what the foreign keys of the schema
file do to the other tables when the lecture row goes. -/
def deleteLectureHandler (cascade : Nat → Store → Store) (s : Store)
    (session : Option SessionUser) (lectureId : Nat) : Response × Store :=
  match session with
  | none => (⟨500, .error "Server error"⟩, s)
  | some user =>
    if user.role = "teacher" ∧ ownsLecture s lectureId user.id = false then
      (⟨403, .error "Forbidden"⟩, s)
    else
      (⟨200, .ok⟩,
        cascade lectureId { s with lectures := s.lectures.filter fun l => !(l.id == lectureId) })

/-- The route `app.delete('/api/lectures/:id', requireRole('teacher', 'admin'), handler)`. -/
def deleteLecture (cascade : Nat → Store → Store) (s : Store) (session : Option SessionUser)
    (lectureId : Nat) : Response × Store :=
  guarded (requireRole ["teacher", "admin"] session) s
    (deleteLectureHandler cascade s session lectureId)

/-- Body of POST /api/lectures/:id/assignment. -/
structure LectureAssignmentBody where
  title : JsValue
  description : JsValue
  file_url : JsValue
  deriving DecidableEq, Repr

/-- The handler of POST /api/lectures/:id/assignment.  Its `catch` appends the message of the
error to 'Server error: '; `errorMessage` is that message.  The insert fails when the lecture
id names no lecture. -/
def createLectureAssignmentHandler (errorMessage : String) (s : Store)
    (session : Option SessionUser) (lectureId : Nat) (body : LectureAssignmentBody) :
    Response × Store :=
  if body.title.truthy = false then (⟨400, .error "title required"⟩, s)
  else
    match session with
    | none => (⟨500, .error ("Server error: " ++ errorMessage)⟩, s)
    | some user =>
      if user.role = "teacher" ∧ ownsLecture s lectureId user.id = false then
        (⟨403, .error "Forbidden"⟩, s)
      else if s.lectures.any fun l => l.id == lectureId then
        let id := nextRowId 0 (s.lecture_assignments.map fun a => a.id)
        (⟨200, .okId id⟩,
          { s with lecture_assignments := s.lecture_assignments ++
              [{ id := id, lecture_id := lectureId, title := body.title,
                 description := body.description.or (.str ""),
                 file_url := body.file_url.or .null }] })
      else (⟨500, .error ("Server error: " ++ errorMessage)⟩, s)

/-- The route `app.post('/api/lectures/:id/assignment', requireRole('admin', 'teacher'),
handler)`. -/
def createLectureAssignment (errorMessage : String) (s : Store) (session : Option SessionUser)
    (lectureId : Nat) (body : LectureAssignmentBody) : Response × Store :=
  guarded (requireRole ["admin", "teacher"] session) s
    (createLectureAssignmentHandler errorMessage s session lectureId body)

/-- Body of POST /api/lectures/:id/quiz. -/
structure LectureQuizBody where
  title : JsValue
  content_json : JsValue
  deriving DecidableEq, Repr

/-- The handler of POST /api/lectures/:id/quiz: update the quiz of the lecture when there is
one, insert it otherwise.  The insert fails when the lecture id names no lecture. -/
def createLectureQuizHandler (s : Store) (session : Option SessionUser) (lectureId : Nat)
    (body : LectureQuizBody) : Response × Store :=
  if body.title.truthy = false ∨ body.content_json.truthy = false then
    (⟨400, .error "title and content_json required"⟩, s)
  else
    match session with
    | none => (⟨500, .error "Server error"⟩, s)
    | some user =>
      if user.role = "teacher" ∧ ownsLecture s lectureId user.id = false then
        (⟨403, .error "Forbidden"⟩, s)
      else
        match (s.lecture_quizzes.filter fun q => q.lecture_id == lectureId).head? with
        | some existing =>
          (⟨200, .okId existing.id⟩,
            { s with lecture_quizzes := s.lecture_quizzes.map fun q =>
                if q.lecture_id == lectureId then
                  { q with title := body.title, content_json := body.content_json }
                else q })
        | none =>
          if s.lectures.any fun l => l.id == lectureId then
            let id := nextRowId 0 (s.lecture_quizzes.map fun q => q.id)
            (⟨200, .okId id⟩,
              { s with lecture_quizzes := s.lecture_quizzes ++
                  [{ id := id, lecture_id := lectureId, title := body.title,
                     content_json := body.content_json, is_live := .num 1 }] })
          else (⟨500, .error "Server error"⟩, s)

/-- The route `app.post('/api/lectures/:id/quiz', requireRole('admin', 'teacher'), handler)`. -/
def createLectureQuiz (s : Store) (session : Option SessionUser) (lectureId : Nat)
    (body : LectureQuizBody) : Response × Store :=
  guarded (requireRole ["admin", "teacher"] session) s
    (createLectureQuizHandler s session lectureId body)

/-- The ownership query of DELETE /api/grand-quizzes/:id: `SELECT 1 FROM grand_quizzes gq
JOIN courses c ON c.id = gq.course_id WHERE gq.id = ? AND c.teacher_id = ?`. -/
def ownsGrandQuiz (s : Store) (quizId userId : Nat) : Bool :=
  s.grand_quizzes.any fun q =>
    q.id == quizId && s.courses.any fun c => c.id == q.course_id && c.teacher_id == userId

/-- The handler of DELETE /api/grand-quizzes/:id; the submissions of the quiz go with it
(`ON DELETE CASCADE` on `grand_quiz_submissions.quiz_id`). -/
def deleteGrandQuizHandler (s : Store) (session : Option SessionUser) (quizId : Nat) :
    Response × Store :=
  match session with
  | none => (⟨500, .error "Server error"⟩, s)
  | some user =>
    if user.role = "teacher" ∧ ownsGrandQuiz s quizId user.id = false then
      (⟨403, .error "Forbidden"⟩, s)
    else
      (⟨200, .ok⟩,
        { s with
          grand_quizzes := s.grand_quizzes.filter fun q => !(q.id == quizId)
          grand_quiz_submissions :=
            s.grand_quiz_submissions.filter fun r => !(r.quiz_id == quizId) })

/-- The route `app.delete('/api/grand-quizzes/:id', requireRole('teacher', 'admin'),
handler)`. -/
def deleteGrandQuiz (s : Store) (session : Option SessionUser) (quizId : Nat) :
    Response × Store :=
  guarded (requireRole ["teacher", "admin"] session) s (deleteGrandQuizHandler s session quizId)

/-! ## Course creation -/

/-- Body of the three course-creation routes; an absent field is `undefined`.  `teacher_id` is
the id named by a truthy `teacher_id` field, `none` when the field is absent or falsy. -/
structure CourseCreateBody where
  title : JsValue
  description : JsValue
  video_url : JsValue
  projected_hours : JsValue
  launch_date : JsValue
  is_published : JsValue
  price : JsValue
  payment_type : JsValue
  monthly_payment_month : JsValue
  is_free : JsValue
  teacher_id : Option Nat
  deriving DecidableEq, Repr

/-- The expression `req.session.user.role === 'teacher' ? req.session.user.id :
(req.body.teacher_id || req.session.user.id)`. -/
def courseTeacherId (user : SessionUser) (body : CourseCreateBody) : Nat :=
  if user.role = "teacher" then user.id else body.teacher_id.getD user.id

/-- The statement `INSERT INTO courses (...)`: the new row gets the next rowid; the insert
fails (`none`) when `teacher_id` names no user, by the foreign key of the column. -/
def insertCourse (s : Store) (row : CourseRow) : Option (Nat × Store) :=
  if s.users.any fun u => u.id == row.teacher_id then
    let id := nextRowId 0 (s.courses.map fun c => c.id)
    some (id, { s with courses := s.courses ++ [{ row with id := id }] })
  else none

/-- The handler of POST /api/courses.  `toNumber` is the conversion `Number(x)`. -/
def createCourseHandler (toNumber : JsValue → JsValue) (now : Nat) (s : Store)
    (session : Option SessionUser) (body : CourseCreateBody) : Response × Store :=
  if body.title.truthy = false then (⟨400, .error "Title required"⟩, s)
  else
    match session with
    | none => (⟨500, .error "Server error"⟩, s)
    | some user =>
      let teacherId := courseTeacherId user body
      match insertCourse s
        { id := 0, teacher_id := teacherId, title := body.title,
          description := body.description.or (.str ""),
          video_url := body.video_url.or (.str ""), thumbnail_url := .null,
          projected_hours :=
            if body.projected_hours.notNullish then toNumber body.projected_hours else .null,
          total_lectures := .num 0,
          price := if body.price.notNullish then toNumber body.price else .num 0,
          payment_type := body.payment_type.or (.str "one_time"),
          monthly_payment_month := body.monthly_payment_month.or .null,
          is_free :=
            if body.is_free.notNullish then (if body.is_free.truthy then .num 1 else .num 0)
            else .num 1,
          launch_date := .null, is_published := .num 0, created_at := now } with
      | some (id, s') => (⟨200, .okId id⟩, s')
      | none => (⟨500, .error "Server error"⟩, s)

/-- The route `app.post('/api/courses', requireRole('teacher', 'admin'), handler)`. -/
def createCourse (toNumber : JsValue → JsValue) (now : Nat) (s : Store)
    (session : Option SessionUser) (body : CourseCreateBody) : Response × Store :=
  guarded (requireRole ["teacher", "admin"] session) s
    (createCourseHandler toNumber now s session body)

/-- The handler of POST /api/courses/basic. -/
def createCourseBasicHandler (toNumber : JsValue → JsValue) (now : Nat) (s : Store)
    (session : Option SessionUser) (body : CourseCreateBody) : Response × Store :=
  if body.title.truthy = false then (⟨400, .error "Title required"⟩, s)
  else
    match session with
    | none => (⟨500, .error "Server error"⟩, s)
    | some user =>
      let teacherId := courseTeacherId user body
      match insertCourse s
        { id := 0, teacher_id := teacherId, title := body.title,
          description := body.description.or (.str ""),
          video_url := .str "", thumbnail_url := .null,
          projected_hours :=
            if body.projected_hours.notNullish then toNumber body.projected_hours else .null,
          total_lectures := .num 0,
          price := if body.price.notNullish then toNumber body.price else .num 0,
          payment_type := body.payment_type.or (.str "one_time"),
          monthly_payment_month := body.monthly_payment_month.or .null,
          is_free :=
            if body.is_free.notNullish then (if body.is_free.truthy then .num 1 else .num 0)
            else .num 1,
          launch_date := body.launch_date.or .null,
          is_published := if body.is_published.truthy then .num 1 else .num 0,
          created_at := now } with
      | some (id, s') => (⟨200, .okId id⟩, s')
      | none => (⟨500, .error "Server error"⟩, s)

/-- The route `app.post('/api/courses/basic', requireRole('teacher', 'admin'), handler)`. -/
def createCourseBasic (toNumber : JsValue → JsValue) (now : Nat) (s : Store)
    (session : Option SessionUser) (body : CourseCreateBody) : Response × Store :=
  guarded (requireRole ["teacher", "admin"] session) s
    (createCourseBasicHandler toNumber now s session body)

/-- The handler of POST /api/courses/upload, run after the upload middleware: the course row,
then its first lecture, with no transaction around the two inserts.  `lectureInsertFails` says
that the second insert throws. -/
def createCourseUploadHandler (toNumber : JsValue → JsValue) (now : Nat)
    (lectureInsertFails : Bool) (s : Store) (session : Option SessionUser)
    (body : CourseCreateBody) (file : Option StoredFile) : Response × Store :=
  if body.title.truthy = false then (⟨400, .error "Title required"⟩, s)
  else
    match file with
    | none => (⟨400, .error "Video file required"⟩, s)
    | some f =>
      let video_url := "/media/" ++ f.filename
      match session with
      | none => (⟨500, .error "Server error"⟩, s)
      | some user =>
        let teacherId := courseTeacherId user body
        match insertCourse s
          { id := 0, teacher_id := teacherId, title := body.title,
            description := body.description.or (.str ""),
            video_url := .str video_url, thumbnail_url := .null,
            projected_hours :=
              if body.projected_hours.notNullish then toNumber body.projected_hours else .null,
            total_lectures := .num 0, price := .num 0, payment_type := .str "one_time",
            monthly_payment_month := .null, is_free := .num 1, launch_date := .null,
            is_published := .num 0, created_at := now } with
        | none => (⟨500, .error "Server error"⟩, s)
        | some (courseId, s₁) =>
          if lectureInsertFails then (⟨500, .error "Server error"⟩, s₁)
          else
            (⟨200, .okVideo courseId video_url⟩,
              { s₁ with lectures := s₁.lectures ++
                  [{ id := nextRowId 0 (s₁.lectures.map fun l => l.id), course_id := courseId,
                     title := body.title, description := body.description.or (.str ""),
                     video_url := .str video_url, order_index := 0, lecture_date := .null,
                     created_at := now }] })

/-- The route `app.post('/api/courses/upload', requireRole('teacher', 'admin'),
upload.single('video'), handler)`, for a request whose upload, if any, the middleware stored
as `file`. -/
def createCourseUpload (toNumber : JsValue → JsValue) (now : Nat) (lectureInsertFails : Bool)
    (s : Store) (session : Option SessionUser) (body : CourseCreateBody)
    (file : Option StoredFile) : Response × Store :=
  guarded (requireRole ["teacher", "admin"] session) s
    (createCourseUploadHandler toNumber now lectureInsertFails s session body file)

/-- A course-creation request: the route, the session of the requester and what was sent. -/
inductive CourseRequest where
  | create (session : Option SessionUser) (body : CourseCreateBody)
  | basic (session : Option SessionUser) (body : CourseCreateBody)
  | upload (session : Option SessionUser) (body : CourseCreateBody) (file : Option StoredFile)
      (lectureInsertFails : Bool)
  deriving DecidableEq, Repr

def CourseRequest.session : CourseRequest → Option SessionUser
  | .create session _ => session
  | .basic session _ => session
  | .upload session _ _ _ => session

def CourseRequest.body : CourseRequest → CourseCreateBody
  | .create _ body => body
  | .basic _ body => body
  | .upload _ body _ _ => body

/-- The store after one course-creation request. -/
def stepCourseRequest (toNumber : JsValue → JsValue) (now : Nat) (s : Store) :
    CourseRequest → Store
  | .create session body => (createCourse toNumber now s session body).2
  | .basic session body => (createCourseBasic toNumber now s session body).2
  | .upload session body file lectureInsertFails =>
    (createCourseUpload toNumber now lectureInsertFails s session body file).2

/-- The store after a sequence of course-creation requests, served one after the other. -/
def runCourseRequests (toNumber : JsValue → JsValue) (now : Nat) (s : Store)
    (requests : List CourseRequest) : Store :=
  requests.foldl (stepCourseRequest toNumber now) s

/-! ## Registration and teacher accounts -/

/-- Body of POST /api/register and POST /api/teachers: the text of the `name`, `email` and
`password` fields, empty when a field is absent, and whatever the client put in `role`. -/
structure AccountBody where
  name : String
  email : String
  password : String
  role : JsValue
  deriving DecidableEq, Repr

/-- The query `SELECT id FROM users WHERE email = ?`, tested for a row: text equality. -/
def emailRegistered (s : Store) (email : String) : Bool :=
  s.users.any fun u => u.email == email

/-- The handler of POST /api/register.  `toLowerCase` is the string method and `hash` is
`bcrypt.hash(password, 12)`.  The third component is `req.session.user` after the request. -/
def register (toLowerCase : String → String) (hash : String → String) (s : Store)
    (session : Option SessionUser) (body : AccountBody) :
    Response × Store × Option SessionUser :=
  if body.name = "" ∨ body.email = "" ∨ body.password = "" then
    (⟨400, .error "Missing fields"⟩, s, session)
  else
    let role := "student"
    if emailRegistered s (toLowerCase body.email) then
      (⟨409, .error "Email already registered"⟩, s, session)
    else
      let lastID := nextRowId 0 (s.users.map fun u => u.id)
      (⟨200, .ok⟩,
        { s with users := s.users ++
            [{ id := lastID, name := body.name, email := toLowerCase body.email,
               password_hash := hash body.password, role := role }] },
        some { id := lastID, name := body.name, email := toLowerCase body.email, role := role })

/-- The handler of POST /api/teachers. -/
def createTeacherHandler (toLowerCase : String → String) (hash : String → String) (s : Store)
    (body : AccountBody) : Response × Store :=
  if body.name = "" ∨ body.email = "" ∨ body.password = "" then
    (⟨400, .error "Name, email, and password are required"⟩, s)
  else if emailRegistered s (toLowerCase body.email) then
    (⟨409, .error "Email already registered"⟩, s)
  else
    let lastID := nextRowId 0 (s.users.map fun u => u.id)
    (⟨200, .okId lastID⟩,
      { s with users := s.users ++
          [{ id := lastID, name := body.name, email := toLowerCase body.email,
             password_hash := hash body.password, role := "teacher" }] })

/-- The route `app.post('/api/teachers', requireRole('admin'), handler)`. -/
def createTeacher (toLowerCase : String → String) (hash : String → String) (s : Store)
    (session : Option SessionUser) (body : AccountBody) : Response × Store :=
  guarded (requireRole ["admin"] session) s (createTeacherHandler toLowerCase hash s body)

/-- A request that can add a user row. -/
inductive AccountRequest where
  | register (session : Option SessionUser) (body : AccountBody)
  | teacher (session : Option SessionUser) (body : AccountBody)
  deriving DecidableEq, Repr

/-- The store after one account request. -/
def stepAccountRequest (toLowerCase : String → String) (hash : String → String) (s : Store) :
    AccountRequest → Store
  | .register session body => (register toLowerCase hash s session body).2.1
  | .teacher session body => (createTeacher toLowerCase hash s session body).2

/-- The store after a sequence of account requests, served one after the other. -/
def runAccountRequests (toLowerCase : String → String) (hash : String → String) (s : Store)
    (requests : List AccountRequest) : Store :=
  requests.foldl (stepAccountRequest toLowerCase hash) s

/-- Lower-casing of the basic Latin letters, a stand-in for `toLowerCase` on the examples. -/
def asciiLower (text : String) : String :=
  String.mk (text.data.map Char.toLower)

/-! ## Stored file names -/

/-- The characters outside the negated class of the pattern `[^a-z0-9.\-_]`. -/
def keptChar (c : Char) : Bool :=
  ('a' ≤ c && c ≤ 'z') || ('0' ≤ c && c ≤ '9') || c == '.' || c == '-' || c == '_'

/-- The call `replace(/[^a-z0-9.\-_]+/g, '-')` on the characters of a string: every maximal run
of characters outside the kept set becomes one '-'.  `inRun` says that the character just
before was outside the set. -/
def replaceRuns (inRun : Bool) : List Char → List Char
  | [] => []
  | c :: rest =>
    if keptChar c then c :: replaceRuns false rest
    else if inRun then replaceRuns true rest
    else '-' :: replaceRuns true rest

/-- The expression `(file.originalname || 'video').toLowerCase().replace(...)`. -/
def sanitizedBase (toLowerCase : String → String) (originalname : Option String) : String :=
  let name :=
    match originalname with
    | none => "video"
    | some n => if n = "" then "video" else n
  String.mk (replaceRuns false (toLowerCase name).data)

/-- The callback `filename` of the disk storage: the template of `ts`, a '-' and the base;
`ts` is `Date.now()`. -/
def storageFilename (toLowerCase : String → String) (ts : Nat) (originalname : Option String) :
    String :=
  toString ts ++ "-" ++ sanitizedBase toLowerCase originalname

/-! ## Upload middleware -/

/-- A file part of a multipart request as the upload middleware sees it; `mimetype` and
`originalname` are `none` when the part declares none. -/
structure IncomingFile where
  fieldname : String
  originalname : Option String
  mimetype : Option String
  size : Nat
  deriving DecidableEq, Repr

/-- The test `(file.mimetype || '').startsWith(start)`. -/
def mimeStartsWith (start : String) (file : IncomingFile) : Bool :=
  start.data.isPrefixOf (file.mimetype.getD "").data

/-- The `fileFilter` of `upload`: `none` is `cb(null, true)`, `some message` is
`cb(new Error(message))`. -/
def videoFileFilter (file : IncomingFile) : Option String :=
  if mimeStartsWith "video/" file then none else some "Only video files are allowed"

/-- The `fileFilter` of `uploadImage`. -/
def imageFileFilter (file : IncomingFile) : Option String :=
  if mimeStartsWith "image/" file then none else some "Only image files are allowed"

/-- The `fileFilter` of `uploadMixed`. -/
def mixedFileFilter (file : IncomingFile) : Option String :=
  if file.fieldname = "video" then
    if mimeStartsWith "video/" file then none
    else some "Only video files are allowed for video field"
  else none

/-- An uploader made by `multer({ storage, limits: { fileSize }, fileFilter })`; an uploader
made without `fileFilter` has `none`. -/
structure Uploader where
  fileSize : Nat
  fileFilter : Option (IncomingFile → Option String)

/-- The uploader `upload` (videos only). -/
def upload : Uploader :=
  { fileSize := 1024 * 1024 * 500, fileFilter := some videoFileFilter }

/-- The uploader `uploadAny` (any resource file type). -/
def uploadAny : Uploader :=
  { fileSize := 1024 * 1024 * 200, fileFilter := none }

/-- The uploader `uploadImage` (thumbnails). -/
def uploadImage : Uploader :=
  { fileSize := 1024 * 1024 * 10, fileFilter := some imageFileFilter }

/-- The uploader `uploadMixed` (video field and resource field of one form). -/
def uploadMixed : Uploader :=
  { fileSize := 1024 * 1024 * 500, fileFilter := some mixedFileFilter }

/-- The verdict of an uploader's filter on a file; without a filter every file passes. -/
def Uploader.filter (u : Uploader) (file : IncomingFile) : Option String :=
  match u.fileFilter with
  | none => none
  | some fileFilter => fileFilter file

/-- Outcome of the middleware: the message of the error it passes on, or what it stored. -/
inductive Received (α : Type) where
  | error (message : String)
  | ok (value : α)
  deriving DecidableEq, Repr

/-- What the middleware does with one file part: the filter first, then the stream to disk,
which is cut with the error 'File too large' once the file exceeds `fileSize` bytes, and
otherwise leaves the file under the name given by the storage. -/
def Uploader.receive (u : Uploader) (toLowerCase : String → String) (ts : Nat)
    (file : IncomingFile) : Received StoredFile :=
  match u.filter file with
  | some message => .error message
  | none =>
    if file.size > u.fileSize then .error "File too large"
    else
      .ok { fieldname := file.fieldname, originalname := file.originalname.getD "",
            mimetype := file.mimetype.getD "", size := file.size,
            filename := storageFilename toLowerCase ts file.originalname }

/-- The middleware on an optional file part: the error it reports, or the file it stored. -/
def Uploader.receiveOptional (u : Uploader) (toLowerCase : String → String) (ts : Nat) :
    Option IncomingFile → Received (Option StoredFile)
  | none => .ok none
  | some file =>
    match u.receive toLowerCase ts file with
    | .error message => .error message
    | .ok stored => .ok (some stored)

/-- POST /api/lectures/upload-with-resource from the file parts of the request: after the role
gate the handler runs `uploadMixed.fields` on the parts of the fields 'video' and 'resource'
and goes on with what it stored or with its error. -/
def uploadLectureWithResourceParts (toLowerCase : String → String) (ts now : Nat)
    (fails : Nat → Bool) (s : Store) (session : Option SessionUser) (body : LectureUploadBody)
    (videoPart resourcePart : Option IncomingFile) : Response × Store :=
  guarded (requireRole ["teacher", "admin"] session) s
    (match uploadMixed.receiveOptional toLowerCase ts videoPart with
    | .error message =>
      uploadLectureWithResourceHandler now fails s session (some message) body none none
    | .ok video =>
      match uploadMixed.receiveOptional toLowerCase ts resourcePart with
      | .error message =>
        uploadLectureWithResourceHandler now fails s session (some message) body none none
      | .ok resource =>
        uploadLectureWithResourceHandler now fails s session none body video resource)

/-- POST /api/courses/:id/grand-assignment/upload from the file part of the request: after the
role gate the part of field 'file' goes through `uploadAny.single('file')`; an error of the
middleware leaves the handler out and is answered with status 500 by the default error handler
(the body is modelled by the message). -/
def uploadGrandAssignmentPart (toLowerCase : String → String) (ts : Nat) (s : Store)
    (session : Option SessionUser) (_courseId : Nat) (filePart : Option IncomingFile) :
    Response × Store :=
  guarded (requireRole ["teacher", "admin"] session) s
    (match uploadAny.receiveOptional toLowerCase ts filePart with
    | .error message => (⟨500, .error message⟩, s)
    | .ok file => uploadGrandAssignmentHandler s file)

/-! ## HTML escaping in the course catalogue page -/

/-- The call `text.replace(/c/g, replacement)` for a pattern of one character. -/
def replaceChar (c : Char) (replacement : String) (text : List Char) : List Char :=
  text.flatMap fun x => if x = c then replacement.data else [x]

/-- The function `escapeHtml` of `centralized-courses.js` on a string argument: the empty
string is falsy and gives '', any other string goes through the five replacements in turn.
`Char.ofNat 34` is the double quote and `Char.ofNat 39` the single quote. -/
def escapeHtml (s : String) : String :=
  if s = "" then ""
  else
    String.mk
      (replaceChar (Char.ofNat 39) "&#039;"
        (replaceChar (Char.ofNat 34) "&quot;"
          (replaceChar '>' "&gt;" (replaceChar '<' "&lt;" (replaceChar '&' "&amp;" s.data)))))

/-- The reading back that the specification speaks of, not part of the program: from left to
right each of the five entities is replaced by its character.  `skip` counts the characters of
an entity that are still to be passed over. -/
def unescapeEntities : Nat → List Char → List Char
  | _, [] => []
  | skip + 1, _ :: rest => unescapeEntities skip rest
  | 0, c :: rest =>
    if "&amp;".data.isPrefixOf (c :: rest) then '&' :: unescapeEntities 4 rest
    else if "&lt;".data.isPrefixOf (c :: rest) then '<' :: unescapeEntities 3 rest
    else if "&gt;".data.isPrefixOf (c :: rest) then '>' :: unescapeEntities 3 rest
    else if "&quot;".data.isPrefixOf (c :: rest) then Char.ofNat 34 :: unescapeEntities 5 rest
    else if "&#039;".data.isPrefixOf (c :: rest) then Char.ofNat 39 :: unescapeEntities 5 rest
    else c :: unescapeEntities 0 rest

/-! ## Enrollment, teacher removal and the API as a whole -/

/-- The handler of POST /api/enroll.  `course_id` is the id named by a truthy `course_id` field.
`INSERT OR IGNORE` adds the pair unless the student is already enrolled in the course; it fails,
and the handler answers 500, when the user or the course has no row. -/
def enrollHandler (s : Store) (session : Option SessionUser) (course_id : Option Nat) :
    Response × Store :=
  match course_id with
  | none => (⟨400, .error "course_id required"⟩, s)
  | some courseId =>
    match session with
    | none => (⟨500, .error "Server error"⟩, s)
    | some user =>
      if (s.users.any fun u => u.id == user.id) ∧ (s.courses.any fun c => c.id == courseId) then
        if enrolled s user.id courseId then (⟨200, .ok⟩, s)
        else (⟨200, .ok⟩, { s with enrollments := s.enrollments ++ [⟨user.id, courseId⟩] })
      else (⟨500, .error "Server error"⟩, s)

/-- The route `app.post('/api/enroll', requireRole('student'), handler)`. -/
def enroll (s : Store) (session : Option SessionUser) (course_id : Option Nat) :
    Response × Store :=
  guarded (requireRole ["student"] session) s (enrollHandler s session course_id)

/-- The handler of DELETE /api/teachers/:id.  `cascade` is what the foreign keys of the schema
file do to the other tables when the user row goes ('courses will be cascade deleted'). -/
def deleteTeacherHandler (cascade : Nat → Store → Store) (s : Store) (teacherId : Nat) :
    Response × Store :=
  match (s.users.filter fun u => u.id == teacherId && u.role == "teacher").head? with
  | none => (⟨404, .error "Teacher not found"⟩, s)
  | some _ =>
    (⟨200, .ok⟩, cascade teacherId { s with users := s.users.filter fun u => !(u.id == teacherId) })

/-- The route `app.delete('/api/teachers/:id', requireRole('admin'), handler)`. -/
def deleteTeacher (cascade : Nat → Store → Store) (s : Store) (session : Option SessionUser)
    (teacherId : Nat) : Response × Store :=
  guarded (requireRole ["admin"] session) s (deleteTeacherHandler cascade s teacherId)

/-- The library functions and the schema effects that the handlers are run with. -/
structure Library where
  toLowerCase : String → String
  hash : String → String
  stringify : JsValue → String
  toNumber : JsValue → JsValue
  cascadeLecture : Nat → Store → Store
  cascadeUser : Nat → Store → Store

/-- A request to the API.  `read` stands for every route whose handler runs SELECT statements
only: the GET routes, and login, logout and `/api/me`, which touch the session alone.  The
other requests carry the session of the requester, what was sent, the clock where a row gets a
timestamp, and the statements that throw where the handler has a transaction. -/
inductive Request where
  | read
  | register (session : Option SessionUser) (body : AccountBody)
  | createTeacher (session : Option SessionUser) (body : AccountBody)
  | deleteTeacher (session : Option SessionUser) (teacherId : Nat)
  | enroll (session : Option SessionUser) (course_id : Option Nat)
  | createCourse (request : CourseRequest) (now : Nat)
  | updateCourse (session : Option SessionUser) (id : Nat) (body : CourseUpdateBody)
  | uploadLecture (session : Option SessionUser) (body : LectureUploadBody)
      (file : Option StoredFile) (now : Nat)
  | uploadLectureWithResource (session : Option SessionUser) (uploadError : Option String)
      (body : LectureUploadBody) (video resource : Option StoredFile) (fails : Nat → Bool)
      (now : Nat)
  | updateLecture (session : Option SessionUser) (lectureId : Nat) (body : LectureUpdateBody)
  | deleteLecture (session : Option SessionUser) (lectureId : Nat)
  | createLectureAssignment (session : Option SessionUser) (lectureId : Nat)
      (body : LectureAssignmentBody) (errorMessage : String)
  | createLectureQuiz (session : Option SessionUser) (lectureId : Nat) (body : LectureQuizBody)
  | createGrandQuiz (session : Option SessionUser) (courseId : Nat) (body : GrandQuizBody)
      (now : Nat)
  | createGrandAssignment (session : Option SessionUser) (courseId : Nat)
      (body : GrandAssignmentBody) (now : Nat)
  | uploadGrandAssignment (session : Option SessionUser) (courseId : Nat)
      (file : Option StoredFile)
  | reorderContent (session : Option SessionUser) (courseId : Nat)
      (items : Option (List ReorderItem)) (fails : Nat → Bool)
  | deleteGrandQuiz (session : Option SessionUser) (quizId : Nat)
  | submitGrandQuiz (session : Option SessionUser) (quizId : Nat) (answers : JsValue)
      (now : Nat)
  | submitGrandAssignment (session : Option SessionUser) (assignmentId : Nat)
      (file : Option StoredFile) (now : Nat)

/-- The store after one request. -/
def stepRequest (lib : Library) (s : Store) : Request → Store
  | .read => s
  | .register session body => (register lib.toLowerCase lib.hash s session body).2.1
  | .createTeacher session body => (createTeacher lib.toLowerCase lib.hash s session body).2
  | .deleteTeacher session teacherId => (deleteTeacher lib.cascadeUser s session teacherId).2
  | .enroll session course_id => (enroll s session course_id).2
  | .createCourse request now => stepCourseRequest lib.toNumber now s request
  | .updateCourse session id body => (updateCourse lib.toNumber s session id body).2
  | .uploadLecture session body file now => (uploadLecture now s session body file).2
  | .uploadLectureWithResource session uploadError body video resource fails now =>
    (uploadLectureWithResource now fails s session uploadError body video resource).2
  | .updateLecture session lectureId body => (updateLecture s session lectureId body).2
  | .deleteLecture session lectureId => (deleteLecture lib.cascadeLecture s session lectureId).2
  | .createLectureAssignment session lectureId body errorMessage =>
    (createLectureAssignment errorMessage s session lectureId body).2
  | .createLectureQuiz session lectureId body => (createLectureQuiz s session lectureId body).2
  | .createGrandQuiz session courseId body now =>
    (createGrandQuiz lib.stringify now s session courseId body).2
  | .createGrandAssignment session courseId body now =>
    (createGrandAssignment now s session courseId body).2
  | .uploadGrandAssignment session courseId file =>
    (uploadGrandAssignment s session courseId file).2
  | .reorderContent session courseId items fails =>
    (reorderContent fails s session courseId items).2
  | .deleteGrandQuiz session quizId => (deleteGrandQuiz s session quizId).2
  | .submitGrandQuiz session quizId answers now =>
    (submitGrandQuiz lib.stringify now s session quizId answers).2
  | .submitGrandAssignment session assignmentId file now =>
    (submitGrandAssignment now s session assignmentId file).2

/-- The store after a sequence of requests, served one after the other. -/
def runRequests (lib : Library) (s : Store) (requests : List Request) : Store :=
  requests.foldl (stepRequest lib) s

/-! ## The objects of GET /api/courses/:id

The handler keeps the rows of its three queries and the spread copies `{ ...row, type }` as
separate objects and writes properties through references to them.  Here the objects live on a
heap and an array is a list of references, so that two arrays sharing an object would show. -/

/-- An object of the handler: a row returned by a query, or a copy `{ ...row, type }` of one,
with the properties the handler may set on it.  A property the object does not carry is
`none`. -/
structure RowObject where
  row : ContentRow
  type : Option ContentType
  progress : Option Progress
  is_locked : Option Bool
  deriving DecidableEq, Repr

/-- A row as it comes out of a query. -/
def RowObject.ofRow (row : ContentRow) : RowObject :=
  { row := row, type := none, progress := none, is_locked := none }

/-- The objects allocated so far; a reference is a position in the list. -/
abbrev Heap := List RowObject

/-- New objects; the array returned holds their references, in order. -/
def Heap.allocate (h : Heap) (objects : List RowObject) : Heap × List Nat :=
  (h ++ objects, List.range' h.length objects.length)

/-- The objects behind the references of an array, as `res.json` reads them. -/
def Heap.read (h : Heap) (array : List Nat) : List RowObject :=
  array.filterMap fun reference => h[reference]?

/-- The call `array.map(x => ({ ...x, type: tag }))`: one new object for each element. -/
def Heap.copyWithType (h : Heap) (tag : ContentType) (array : List Nat) : Heap × List Nat :=
  h.allocate ((h.read array).map fun x => { x with type := some tag })

/-- A write to properties of the object behind a reference. -/
def Heap.update (h : Heap) (reference : Nat) (f : RowObject → RowObject) : Heap :=
  match h[reference]? with
  | some object => h.set reference (f object)
  | none => h

/-- The property `order_index` read through a reference. -/
def Heap.orderIndex (h : Heap) (reference : Nat) : Int :=
  ((h[reference]?).map fun object => object.row.order_index).getD 0

/-- The call `.sort((a, b) => a.order_index - b.order_index)` on an array of references. -/
def sortReferences (h : Heap) (array : List Nat) : List Nat :=
  array.insertionSort fun a b => h.orderIndex a - h.orderIndex b ≤ 0

/-- The read `progressMap[key]` with the key built from the object's type and id; an object
without a type has a key that no entry of the map has. -/
def progressOf (progressMap : ProgressMap) (item : RowObject) : Option Progress :=
  item.type.bind fun type => progressMap.get (type, item.row.id)

/-- The expression `prevProgress && prevProgress.completed` for an object, as a truth value. -/
def completedObject (progressMap : ProgressMap) (prevItem : RowObject) : Bool :=
  match progressOf progressMap prevItem with
  | none => false
  | some prevProgress => prevProgress.completed.truthy

/-- One round of `allContent.forEach((item, index) => ...)`: the two property writes through
the reference at position `index`. -/
def annotateStep (progressMap : ProgressMap) (allContent : List Nat) (h : Heap)
    (entry : Nat × Nat) : Heap :=
  h.update entry.2 fun item =>
    { item with
      progress := some ((progressOf progressMap item).getD ⟨.num 0, .num 0⟩)
      is_locked := some (
        if entry.1 = 0 then false
        else match (allContent[entry.1 - 1]?).bind fun reference => h[reference]? with
          | none => true
          | some prevItem => !completedObject progressMap prevItem) }

/-- The loop `allContent.forEach((item, index) => ...)` of the student branch. -/
def annotateOnHeap (progressMap : ProgressMap) (allContent : List Nat) (h : Heap) : Heap :=
  allContent.enum.foldl (annotateStep progressMap allContent) h

/-- The write `l.resources = value` on a lecture row. -/
def ContentRow.withResources (resources : List LectureResourceRow) : ContentRow → ContentRow
  | .lecture l => .lecture { l with resources := some resources }
  | row => row

/-- The staff branch: `lectures.forEach(l => (l.resources = resMap[l.id] || []))`, with the
resources of the course's lectures, oldest first. -/
def attachResourcesOnHeap (s : Store) (lectures : List Nat) (h : Heap) : Heap :=
  let lectureIds := (h.read lectures).map fun l => l.row.id
  let resources := orderByKey (fun r : LectureResourceRow => r.created_at)
    (s.lecture_resources.filter fun r => lectureIds.contains r.lecture_id)
  lectures.foldl (fun h reference =>
    h.update reference fun l =>
      { l with row := l.row.withResources (resources.filter fun r => r.lecture_id == l.row.id) })
    h

/-- The JSON object of a 200 answer, read off the heap. -/
structure ObjectPayload where
  course : CourseOut
  lectures : List RowObject
  grandQuizzes : List RowObject
  grandAssignments : List RowObject
  allContent : List RowObject
  deriving DecidableEq, Repr

/-- An answer of the handler on the heap: an error with its status, or the course object. -/
inductive ObjectResponse where
  | error (status : Nat) (msg : String)
  | course (payload : ObjectPayload)
  deriving DecidableEq, Repr

/-- The handler of GET /api/courses/:id, statement by statement, on the heap. -/
def getCourseOnHeap (s : Store) (session : Option SessionUser) (id : Nat) : ObjectResponse :=
  match courseQuery s id with
  | none => .error 404 "Not found"
  | some (course, teacher_name) =>
    match session with
    | none => .error 500 "Server error"
    | some user =>
      if user.role = "student" ∧ enrolled s user.id id = false then
        .error 403 "Not enrolled in this course"
      else
        let lectures := Heap.allocate []
          ((lecturesQuery s id).map fun l => RowObject.ofRow (.lecture l))
        let grandQuizzes := lectures.1.allocate
          ((grandQuizzesQuery s id).map fun q => RowObject.ofRow (.grand_quiz q))
        let grandAssignments := grandQuizzes.1.allocate
          ((grandAssignmentsQuery s id).map fun a => RowObject.ofRow (.grand_assignment a))
        let lectureCopies := grandAssignments.1.copyWithType .lecture lectures.2
        let quizCopies := lectureCopies.1.copyWithType .grand_quiz grandQuizzes.2
        let assignmentCopies := quizCopies.1.copyWithType .grand_assignment grandAssignments.2
        let allContent := sortReferences assignmentCopies.1
          (lectureCopies.2 ++ quizCopies.2 ++ assignmentCopies.2)
        let h := assignmentCopies.1
        let h :=
          if user.role = "student" then annotateOnHeap (studentProgressMap s user.id) allContent h
          else h
        let h :=
          if user.role = "admin" ∨ user.role = "teacher" then
            attachResourcesOnHeap s lectures.2 h
          else h
        .course
          { course :=
              { course := course
                teacher_name := teacher_name
                lecture_count := lectures.2.length
                grand_quiz_count := grandQuizzes.2.length
                grand_assignment_count := grandAssignments.2.length
                total_content_count := allContent.length }
            lectures := h.read lectures.2
            grandQuizzes := h.read grandQuizzes.2
            grandAssignments := h.read grandAssignments.2
            allContent := h.read allContent }

/-- An element of `allContent` of the value-level handler, as an object. -/
def ContentItem.toObject (item : ContentItem) : RowObject :=
  { row := item.row, type := some item.type, progress := item.progress,
    is_locked := item.is_locked }

/-- The answer of the value-level handler, as objects. -/
def CoursePayload.toObjects (p : CoursePayload) : ObjectPayload :=
  { course := p.course
    lectures := p.lectures.map fun l => RowObject.ofRow (.lecture l)
    grandQuizzes := p.grandQuizzes.map fun q => RowObject.ofRow (.grand_quiz q)
    grandAssignments := p.grandAssignments.map fun a => RowObject.ofRow (.grand_assignment a)
    allContent := p.allContent.map ContentItem.toObject }

/-! ## Example rows and stores -/

/-- A lecture row with the given id, course, order index and creation time. -/
def exampleLecture (id course : Nat) (order : Int) (created : Nat) : LectureRow :=
  { id := id, course_id := course, title := .str "Lecture", description := .str "",
    video_url := .str "/media/1-v.mp4", order_index := order, lecture_date := .null,
    created_at := created }

/-- A grand-quiz row with the given id, course, order index and creation time. -/
def exampleGrandQuiz (id course : Nat) (order : Int) (created : Nat) : GrandQuizRow :=
  { id := id, course_id := course, title := .str "Quiz", description := .str "",
    content_json := .str "[]", is_live := .num 1, order_index := order, is_required := .num 1,
    created_at := created }

/-- A grand-assignment row with the given id, course, order index and creation time. -/
def exampleGrandAssignment (id course : Nat) (order : Int) (created : Nat) :
    GrandAssignmentRow :=
  { id := id, course_id := course, title := .str "Assignment", description := .str "",
    file_url := .null, order_index := order, is_required := .num 1, created_at := created }

/-- A course row with the given id and owner. -/
def exampleCourse (id teacher : Nat) : CourseRow :=
  { id := id, teacher_id := teacher, title := .str "Course", description := .str "",
    video_url := .str "", thumbnail_url := .null, projected_hours := .null,
    total_lectures := .num 0, price := .num 0, payment_type := .str "one_time",
    monthly_payment_month := .null, is_free := .num 1, launch_date := .null,
    is_published := .num 0, created_at := 0 }

def teacherRow : UserRow := ⟨1, "Tara", "tara@example.com", "$2b$12$tara", "teacher"⟩

def studentRow : UserRow := ⟨2, "Sam", "sam@example.com", "$2b$12$sam", "student"⟩

def adminRow : UserRow := ⟨3, "Ada", "ada@example.com", "$2b$12$ada", "admin"⟩

def teacherUser : SessionUser := ⟨1, "Tara", "tara@example.com", "teacher"⟩

def studentUser : SessionUser := ⟨2, "Sam", "sam@example.com", "student"⟩

def adminUser : SessionUser := ⟨3, "Ada", "ada@example.com", "admin"⟩

/-- Course 1 with lecture L1 (order 0), grand quiz Q1 (order 1) and lecture L2 (order 2); the
student is enrolled and has completed L1 only. -/
def scenarioStore : Store :=
  { Store.empty with
    users := [teacherRow, studentRow, adminRow]
    courses := [exampleCourse 1 1]
    lectures := [exampleLecture 1 1 0 10, exampleLecture 2 1 2 12]
    grand_quizzes := [exampleGrandQuiz 1 1 1 11]
    enrollments := [⟨2, 1⟩]
    student_progress := [⟨2, 1, .num 1, .num 100⟩] }

/-- The element of `allContent` for lecture L1 in the scenario, as sent to the student. -/
def scenarioL1 : ContentItem :=
  { type := .lecture, row := .lecture ⟨exampleLecture 1 1 0 10, 0, 0, 0, none⟩,
    progress := some ⟨.num 1, .num 100⟩, is_locked := some false }

/-- The element of `allContent` for grand quiz Q1 in the scenario, as sent to the student. -/
def scenarioQ1 : ContentItem :=
  { type := .grand_quiz, row := .grand_quiz (exampleGrandQuiz 1 1 1 11),
    progress := some ⟨.num 0, .num 0⟩, is_locked := some false }

/-- The element of `allContent` for lecture L2 in the scenario, as sent to the student. -/
def scenarioL2 : ContentItem :=
  { type := .lecture, row := .lecture ⟨exampleLecture 2 1 2 12, 0, 0, 0, none⟩,
    progress := some ⟨.num 0, .num 0⟩, is_locked := some true }

/-- The body sent to the student in the scenario. -/
def scenarioPayload : CoursePayload :=
  { course :=
      { course := exampleCourse 1 1, teacher_name := "Tara", lecture_count := 2,
        grand_quiz_count := 1, grand_assignment_count := 0, total_content_count := 3 }
    lectures := [⟨exampleLecture 1 1 0 10, 0, 0, 0, none⟩, ⟨exampleLecture 2 1 2 12, 0, 0, 0, none⟩]
    grandQuizzes := [exampleGrandQuiz 1 1 1 11]
    grandAssignments := []
    allContent := [scenarioL1, scenarioQ1, scenarioL2] }

/-- Course 1 with a lecture and a grand quiz that both have order index 0; the grand quiz was
created first. -/
def tieStore : Store :=
  { Store.empty with
    users := [teacherRow, studentRow, adminRow]
    courses := [exampleCourse 1 1]
    lectures := [exampleLecture 1 1 0 20]
    grand_quizzes := [exampleGrandQuiz 1 1 0 10]
    enrollments := [⟨2, 1⟩] }

/-- The body sent to a teacher for course 1 of `tieStore`. -/
def tiePayload : CoursePayload :=
  { course :=
      { course := exampleCourse 1 1, teacher_name := "Tara", lecture_count := 1,
        grand_quiz_count := 1, grand_assignment_count := 0, total_content_count := 2 }
    lectures := [⟨exampleLecture 1 1 0 20, 0, 0, 0, some []⟩]
    grandQuizzes := [exampleGrandQuiz 1 1 0 10]
    grandAssignments := []
    allContent :=
      [lectureItem ⟨exampleLecture 1 1 0 20, 0, 0, 0, none⟩,
        grandQuizItem (exampleGrandQuiz 1 1 0 10)] }

/-- Course 1 with two lectures of order index 0, the later-created one first in the table. -/
def sameTypeTieStore : Store :=
  { Store.empty with
    users := [teacherRow, studentRow, adminRow]
    courses := [exampleCourse 1 1]
    lectures := [exampleLecture 1 1 0 20, exampleLecture 2 1 0 10] }

/-- The body sent to an admin for course 1 of `sameTypeTieStore`. -/
def sameTypeTiePayload : CoursePayload :=
  { course :=
      { course := exampleCourse 1 1, teacher_name := "Tara", lecture_count := 2,
        grand_quiz_count := 0, grand_assignment_count := 0, total_content_count := 2 }
    lectures :=
      [⟨exampleLecture 2 1 0 10, 0, 0, 0, some []⟩, ⟨exampleLecture 1 1 0 20, 0, 0, 0, some []⟩]
    grandQuizzes := []
    grandAssignments := []
    allContent :=
      [lectureItem ⟨exampleLecture 2 1 0 10, 0, 0, 0, none⟩,
        lectureItem ⟨exampleLecture 1 1 0 20, 0, 0, 0, none⟩] }

/-- Course 1 with one lecture, one grand quiz and one grand assignment; nobody is enrolled. -/
def unenrolledStore : Store :=
  { Store.empty with
    users := [teacherRow, studentRow, adminRow]
    courses := [exampleCourse 1 1]
    lectures := [exampleLecture 1 1 0 10]
    grand_quizzes := [exampleGrandQuiz 1 1 1 11]
    grand_assignments := [exampleGrandAssignment 1 1 2 12] }

/-- A stand-in for `JSON.stringify` on the example requests: the JSON text of an array or
object. -/
def exampleStringify : JsValue → String
  | .arr _ text => text
  | .obj text => text
  | _ => "null"

/-- An uploaded answer file as stored by the upload middleware. -/
def exampleFile : StoredFile :=
  { fieldname := "file", originalname := "answer.pdf", mimetype := "application/pdf",
    size := 1024, filename := "1700000000000-answer.pdf" }

/-- The scenario store, except that the student's progress row for lecture L1 is marked completed
at 80 percent. -/
def partialProgressStore : Store :=
  { scenarioStore with student_progress := [⟨2, 1, .num 1, .num 80⟩] }

/-- The scenario store after the student has also submitted grand quiz Q1. -/
def submittedStore : Store :=
  { scenarioStore with
    grand_quiz_submissions := [⟨1, 1, 2, "[0]", 0, 50⟩]
    seq_grand_quiz_submissions := 1 }

/-- A reorder request for course 1 of the scenario: L2 first, then Q1, then L1. -/
def exampleReorder : List ReorderItem :=
  [⟨"lecture", 2, 0⟩, ⟨"grand_quiz", 1, 1⟩, ⟨"lecture", 1, 2⟩]

/-- Course 1 with one lecture, one grand quiz and one grand assignment; the student is
enrolled. -/
def enrolledStore : Store :=
  { unenrolledStore with enrollments := [⟨2, 1⟩] }

/-- A second uploaded answer file. -/
def secondFile : StoredFile :=
  { fieldname := "file", originalname := "answer2.pdf", mimetype := "application/pdf",
    size := 2048, filename := "1700000000500-answer2.pdf" }

/-- A second teacher, who owns no course of the example stores. -/
def otherTeacherRow : UserRow := ⟨4, "Tom", "tom@example.com", "$2b$12$tom", "teacher"⟩

def otherTeacher : SessionUser := ⟨4, "Tom", "tom@example.com", "teacher"⟩

/-- The scenario store with the second teacher among the users. -/
def twoTeacherStore : Store :=
  { scenarioStore with users := [teacherRow, studentRow, adminRow, otherTeacherRow] }

/-- A course update that names no field. -/
def emptyCourseUpdate : CourseUpdateBody :=
  { title := .undefined, description := .undefined, projected_hours := .undefined,
    total_lectures := .undefined, price := .undefined, payment_type := .undefined,
    monthly_payment_month := .undefined, is_free := .undefined }

/-- A course update that sets the title. -/
def titleCourseUpdate : CourseUpdateBody :=
  { emptyCourseUpdate with title := .str "Taken over" }

/-- A stand-in for `Number(x)` on the example requests: numbers are kept, the rest is 0. -/
def exampleToNumber : JsValue → JsValue
  | .num n => .num n
  | _ => .num 0

/-- A stand-in for the password hash on the example requests. -/
def exampleHash (password : String) : String :=
  "$2b$12$" ++ password

/-- A store whose only user has capital letters in the stored email. -/
def mixedCaseStore : Store :=
  { Store.empty with users := [⟨1, "Ada", "Ada@Example.com", "$2b$12$ada", "admin"⟩] }

/-- A registration with the same address in small letters. -/
def sameAddressBody : AccountBody :=
  { name := "Eve", email := "ada@example.com", password := "secret", role := .str "admin" }

/-- A registration with the address of the example admin in capitals. -/
def capitalAddressBody : AccountBody :=
  { name := "Eve", email := "ADA@Example.com", password := "secret", role := .undefined }

/-- A registration with an address nobody has. -/
def freshAddressBody : AccountBody :=
  { name := "Eve", email := "Eve@Example.com", password := "secret", role := .str "admin" }

/-- A course-creation body with a title and nothing else. -/
def titleOnlyCourse : CourseCreateBody :=
  { title := .str "Algebra", description := .undefined, video_url := .undefined,
    projected_hours := .undefined, launch_date := .undefined, is_published := .undefined,
    price := .undefined, payment_type := .undefined, monthly_payment_month := .undefined,
    is_free := .undefined, teacher_id := none }

/-- A lecture video of 50 MB. -/
def videoPart : IncomingFile :=
  { fieldname := "video", originalname := some "intro.mp4", mimetype := some "video/mp4",
    size := 50 * 1024 * 1024 }

/-- A resource file of 300 MB, above the 200 MB of resource uploads and below the 500 MB of
videos. -/
def largeResourcePart : IncomingFile :=
  { fieldname := "resource", originalname := some "slides.zip",
    mimetype := some "application/zip", size := 300 * 1024 * 1024 }

/-- The same 300 MB file sent in the field 'file'. -/
def largeFilePart : IncomingFile :=
  { largeResourcePart with fieldname := "file" }

/-- The text fields of a lecture upload for course 1. -/
def exampleLectureUpload : LectureUploadBody :=
  { course_id := some 1, title := .str "Week 2", description := .undefined,
    order_index := some 3, lecture_date := .undefined, resource_name := .undefined }

/-- A video as stored by the upload middleware. -/
def storedVideo : StoredFile :=
  { fieldname := "video", originalname := "intro.mp4", mimetype := "video/mp4",
    size := 52428800, filename := "1700000000000-intro.mp4" }

/-- A resource as stored by the upload middleware. -/
def storedResource : StoredFile :=
  { fieldname := "resource", originalname := "slides.pdf", mimetype := "application/pdf",
    size := 1048576, filename := "1700000000000-slides.pdf" }

/-- A lecture update that sets the title. -/
def titleLectureUpdate : LectureUpdateBody :=
  { title := .str "Renamed", description := .undefined, lecture_date := .undefined }

/-- Modelled from the spec: a cascade of the schema on the removal of a lecture, which takes the
lecture's resources, quiz, assignment and progress rows with it. -/
def exampleCascadeLecture (lectureId : Nat) (s : Store) : Store :=
  { s with
    lecture_resources := s.lecture_resources.filter fun r => r.lecture_id != lectureId
    lecture_quizzes := s.lecture_quizzes.filter fun q => q.lecture_id != lectureId
    lecture_assignments := s.lecture_assignments.filter fun a => a.lecture_id != lectureId
    student_progress := s.student_progress.filter fun p => p.lecture_id != lectureId }

/-- Modelled from the spec: a cascade of the schema on the removal of a user, which takes the
user's enrollments, progress rows and submissions with it. -/
def exampleCascadeUser (userId : Nat) (s : Store) : Store :=
  { s with
    enrollments := s.enrollments.filter fun e => e.user_id != userId
    student_progress := s.student_progress.filter fun p => p.user_id != userId
    grand_quiz_submissions := s.grand_quiz_submissions.filter fun r => r.student_id != userId
    grand_assignment_submissions :=
      s.grand_assignment_submissions.filter fun r => r.student_id != userId }

/-- The library functions used by the example requests. -/
def exampleLibrary : Library :=
  { toLowerCase := asciiLower, hash := exampleHash, stringify := exampleStringify,
    toNumber := exampleToNumber, cascadeLecture := exampleCascadeLecture,
    cascadeUser := exampleCascadeUser }

/-- A session of requests on the store where nobody is enrolled yet: the student enrolls in
course 1, opens it, submits grand quiz 1, and the teacher uploads a second lecture and removes
it again. -/
def exampleRequests : List Request :=
  [.enroll (some studentUser) (some 1),
   .read,
   .submitGrandQuiz (some studentUser) 1 (.arr 1 "[0]") 100,
   .uploadLecture (some teacherUser) exampleLectureUpload (some storedVideo) 200,
   .deleteLecture (some teacherUser) 2]

/-- The scenario store with a second course, owned by the second teacher, that has one lecture
of its own (lecture 3). -/
def twoCourseStore : Store :=
  { twoTeacherStore with
    courses := [exampleCourse 1 1, exampleCourse 2 4]
    lectures := [exampleLecture 1 1 0 10, exampleLecture 2 1 2 12, exampleLecture 3 2 0 13] }

/-- A reorder request for course 1 that names lecture 3 of course 2, an item of an unknown type
and lecture 1. -/
def strayReorder : List ReorderItem :=
  [⟨"lecture", 3, 5⟩, ⟨"video", 1, 7⟩, ⟨"lecture", 1, 4⟩]

/-- A course body that names the second teacher as the owner. -/
def delegatedCourse : CourseCreateBody :=
  { titleOnlyCourse with teacher_id := some 4 }

/-! ## Lemmas on the lock annotation and on the course endpoint -/

theorem annotate_getElem? (m : ProgressMap) (l : List ContentItem) (i : Nat) :
    (annotate m l)[i]? = (l[i]?).map fun item =>
      { item with
        progress := some ((m.get (progressKey item)).getD ⟨.num 0, .num 0⟩)
        is_locked := some (
          if i = 0 then false
          else match l[i - 1]? with
            | none => true
            | some prevItem => !completedIn m prevItem) } := by
  unfold annotate
  rw [List.getElem?_map, List.getElem?_enum]
  cases l[i]? <;> rfl

theorem length_annotate (m : ProgressMap) (l : List ContentItem) :
    (annotate m l).length = l.length := by
  simp [annotate]

theorem completedIn_congr (m : ProgressMap) (a b : ContentItem) (ht : a.type = b.type)
    (hr : a.row = b.row) : completedIn m a = completedIn m b := by
  simp [completedIn, progressKey, ContentItem.id, ht, hr]

/-- What a 200 answer of GET /api/courses/:id is made of. -/
theorem getCourse_ok (s : Store) (user : SessionUser) (id : Nat) (p : CoursePayload)
    (hresp : (getCourse s (some user) id).1 = ⟨200, .course p⟩) :
    (courseQuery s id).isSome ∧
    ¬ (user.role = "student" ∧ enrolled s user.id id = false) ∧
    p.allContent =
      (if user.role = "student" then
        annotate (studentProgressMap s user.id)
          (mergeContent (lecturesQuery s id) (grandQuizzesQuery s id) (grandAssignmentsQuery s id))
      else mergeContent (lecturesQuery s id) (grandQuizzesQuery s id)
        (grandAssignmentsQuery s id)) ∧
    p.lectures =
      (if user.role = "admin" ∨ user.role = "teacher" then attachResources s (lecturesQuery s id)
      else lecturesQuery s id) ∧
    p.grandQuizzes = grandQuizzesQuery s id ∧
    p.grandAssignments = grandAssignmentsQuery s id := by
  simp only [getCourse, guarded, requireAuth, getCourseHandler] at hresp
  cases hq : courseQuery s id with
  | none => simp [hq] at hresp
  | some ct =>
    obtain ⟨course, teacher_name⟩ := ct
    simp only [hq] at hresp
    by_cases hgate : user.role = "student" ∧ enrolled s user.id id = false
    · rw [if_pos hgate] at hresp
      simp at hresp
    · rw [if_neg hgate] at hresp
      simp only [Response.mk.injEq, Body.course.injEq, true_and] at hresp
      subst hresp
      exact ⟨rfl, hgate, rfl, rfl, rfl, rfl⟩

/-- The annotated element at position `i` of a student's `allContent`, in terms of the merged
list `base` it was computed from. -/
theorem annotate_item (m : ProgressMap) (base : List ContentItem) (i : Nat) (item : ContentItem)
    (h : (annotate m base)[i]? = some item) :
    ∃ b, base[i]? = some b ∧ item.type = b.type ∧ item.row = b.row ∧
      item.progress = some ((m.get (progressKey b)).getD ⟨.num 0, .num 0⟩) ∧
      item.is_locked = some (
        if i = 0 then false
        else match base[i - 1]? with
          | none => true
          | some prevItem => !completedIn m prevItem) := by
  rw [annotate_getElem?] at h
  cases hb : base[i]? with
  | none => simp [hb] at h
  | some b =>
    simp only [hb, Option.map_some', Option.some.injEq] at h
    subst h
    exact ⟨b, rfl, rfl, rfl, rfl, rfl⟩

/-! ## Properties of the course endpoint, the gates and the routes -/

/-- C1: in the answer of GET /api/courses/:id to a student, the first element of `allContent` is
unlocked, and every later element is locked exactly when the element just before it has no
completed entry in the student's progress map; any other progress map that agrees with it on
that one predecessor yields the same flag, whatever it says about earlier elements. -/
theorem lock_vector_single_predecessor (s : Store) (user : SessionUser) (id : Nat)
    (p : CoursePayload) (hrole : user.role = "student")
    (hresp : (getCourse s (some user) id).1 = ⟨200, .course p⟩) :
    (∀ item, p.allContent[0]? = some item → item.is_locked = some false) ∧
    (∀ i prev item, 0 < i → p.allContent[i - 1]? = some prev → p.allContent[i]? = some item →
      item.is_locked = some (!completedIn (studentProgressMap s user.id) prev)) ∧
    (∀ (m : ProgressMap) (i : Nat) (prev : ContentItem), 0 < i →
      p.allContent[i - 1]? = some prev →
      completedIn m prev = completedIn (studentProgressMap s user.id) prev →
      ((annotate m (mergeContent (lecturesQuery s id) (grandQuizzesQuery s id)
          (grandAssignmentsQuery s id)))[i]?).map ContentItem.is_locked =
        (p.allContent[i]?).map ContentItem.is_locked) := by
  obtain ⟨-, -, hall, -, -, -⟩ := getCourse_ok s user id p hresp
  rw [if_pos hrole] at hall
  refine ⟨?_, ?_, ?_⟩
  · intro item h0
    rw [hall] at h0
    obtain ⟨b, -, -, -, -, hl⟩ := annotate_item _ _ 0 item h0
    simpa using hl
  · intro i prev item hi hprev hitem
    rw [hall] at hprev hitem
    obtain ⟨b, -, -, -, -, hl⟩ := annotate_item _ _ i item hitem
    obtain ⟨pb, hpb, hpt, hpr, -, -⟩ := annotate_item _ _ (i - 1) prev hprev
    rw [hl, if_neg (by omega), hpb]
    simp only [Option.some.injEq]
    rw [completedIn_congr _ prev pb hpt hpr]
  · intro m i prev hi hprev hagree
    rw [hall] at hprev ⊢
    obtain ⟨pb, hpb, hpt, hpr, -, -⟩ := annotate_item _ _ (i - 1) prev hprev
    rw [completedIn_congr m prev pb hpt hpr, completedIn_congr _ prev pb hpt hpr] at hagree
    rw [annotate_getElem?, annotate_getElem?]
    cases hb : (mergeContent (lecturesQuery s id) (grandQuizzesQuery s id)
        (grandAssignmentsQuery s id))[i]? with
    | none => rfl
    | some b =>
      simp only [Option.map_some', if_neg (show ¬ i = 0 by omega), hpb, hagree]

/-- The spec scenario for C1: L1 completed, Q1 not, so the flags are false, false, true. -/
theorem lock_vector_single_predecessor_witness :
    studentUser.role = "student" ∧
    (getCourse scenarioStore (some studentUser) 1).1 = ⟨200, .course scenarioPayload⟩ ∧
    scenarioPayload.allContent.map ContentItem.is_locked = [some false, some false, some true] ∧
    scenarioL1.is_locked = some false ∧
    scenarioQ1.is_locked = some (!completedIn (studentProgressMap scenarioStore 2) scenarioL1) ∧
    scenarioL2.is_locked = some (!completedIn (studentProgressMap scenarioStore 2) scenarioQ1) :=
  have h := lock_vector_single_predecessor scenarioStore studentUser 1 scenarioPayload rfl
    (by decide)
  ⟨rfl, by decide, by decide, h.1 scenarioL1 rfl,
    h.2.1 1 scenarioL1 scenarioQ1 (by decide) rfl rfl,
    h.2.1 2 scenarioQ1 scenarioL2 (by decide) rfl rfl⟩



theorem annotate_map_type_row (m : ProgressMap) (l : List ContentItem) :
    (annotate m l).map (fun it => (it.type, it.row)) = l.map fun it => (it.type, it.row) := by
  have h : (annotate m l).map (fun it => (it.type, it.row)) =
      (l.enum.map Prod.snd).map fun it => (it.type, it.row) := by
    simp only [annotate, List.map_map]
    rfl
  rw [h, List.enum_map_snd]

theorem annotate_map_order_index (m : ProgressMap) (l : List ContentItem) :
    (annotate m l).map ContentItem.order_index = l.map ContentItem.order_index := by
  have h := congrArg (List.map fun tr : ContentType × ContentRow => tr.2.order_index)
    (annotate_map_type_row m l)
  simpa [List.map_map, Function.comp_def, ContentItem.order_index] using h

theorem sortByOrderIndex_perm (l : List ContentItem) : (sortByOrderIndex l).Perm l :=
  List.perm_insertionSort _ l

theorem sortByOrderIndex_sorted (l : List ContentItem) :
    ((sortByOrderIndex l).map ContentItem.order_index).Sorted (· ≤ ·) := by
  haveI : IsTotal ContentItem (fun a b => compareOrderIndex a b ≤ 0) :=
    ⟨fun a b => by unfold compareOrderIndex; omega⟩
  haveI : IsTrans ContentItem (fun a b => compareOrderIndex a b ≤ 0) :=
    ⟨fun a b c => by unfold compareOrderIndex; omega⟩
  have h := List.sorted_insertionSort (fun a b => compareOrderIndex a b ≤ 0) l
  unfold List.Sorted at h ⊢
  rw [List.pairwise_map]
  exact h.imp fun {a b} hab => by unfold compareOrderIndex at hab; omega

theorem lecturesQuery_perm (s : Store) (id : Nat) :
    (lecturesQuery s id).Perm
      ((s.lectures.filter fun l => l.course_id == id).map (lectureWithCounts s)) :=
  (List.perm_insertionSort _ _).map _

theorem grandQuizzesQuery_perm (s : Store) (id : Nat) :
    (grandQuizzesQuery s id).Perm (s.grand_quizzes.filter fun q => q.course_id == id) :=
  List.perm_insertionSort _ _

theorem grandAssignmentsQuery_perm (s : Store) (id : Nat) :
    (grandAssignmentsQuery s id).Perm (s.grand_assignments.filter fun a => a.course_id == id) :=
  List.perm_insertionSort _ _

/-- C2: the `allContent` list of every successful answer of GET /api/courses/:id holds, up to
order, exactly the lectures of the course tagged 'lecture', its grand quizzes tagged 'grand_quiz'
and its grand assignments tagged 'grand_assignment', each as often as its row occurs in its
table (once, ids being primary keys), and its order_index values are non-decreasing. -/
theorem allContent_tagged_and_sorted (s : Store) (user : SessionUser) (id : Nat)
    (p : CoursePayload) (hresp : (getCourse s (some user) id).1 = ⟨200, .course p⟩) :
    (p.allContent.map fun item => (item.type, item.row)).Perm
      (((s.lectures.filter fun l => l.course_id == id).map fun l =>
          (ContentType.lecture, ContentRow.lecture (lectureWithCounts s l))) ++
        ((s.grand_quizzes.filter fun q => q.course_id == id).map fun q =>
          (ContentType.grand_quiz, ContentRow.grand_quiz q)) ++
        ((s.grand_assignments.filter fun a => a.course_id == id).map fun a =>
          (ContentType.grand_assignment, ContentRow.grand_assignment a))) ∧
    (p.allContent.map ContentItem.order_index).Sorted (· ≤ ·) := by
  obtain ⟨-, -, hall, -, -, -⟩ := getCourse_ok s user id p hresp
  have hfields : (p.allContent.map fun item => (item.type, item.row)) =
      (mergeContent (lecturesQuery s id) (grandQuizzesQuery s id)
        (grandAssignmentsQuery s id)).map fun item => (item.type, item.row) := by
    rw [hall]; split
    · exact annotate_map_type_row _ _
    · rfl
  have horder : p.allContent.map ContentItem.order_index =
      (mergeContent (lecturesQuery s id) (grandQuizzesQuery s id)
        (grandAssignmentsQuery s id)).map ContentItem.order_index := by
    rw [hall]; split
    · exact annotate_map_order_index _ _
    · rfl
  constructor
  · rw [hfields]
    refine ((sortByOrderIndex_perm _).map _).trans ?_
    simp only [taggedContent, List.map_append, List.map_map]
    refine List.Perm.append (List.Perm.append ?_ ?_) ?_
    · exact ((lecturesQuery_perm s id).map _).trans (by simp [List.map_map, Function.comp_def, lectureItem])
    · exact ((grandQuizzesQuery_perm s id).map _).trans (by simp [Function.comp_def, grandQuizItem])
    · exact ((grandAssignmentsQuery_perm s id).map _).trans
        (by simp [Function.comp_def, grandAssignmentItem])
  · rw [horder]
    exact sortByOrderIndex_sorted _


/-- Inserting into a list keeps a pairwise relation that holds from the new element to every
element of the list and that holds backwards whenever the sort relation fails. -/
theorem pairwise_orderedInsert {α : Type} (r : α → α → Prop) [DecidableRel r]
    (S : α → α → Prop) (hS : ∀ a b, ¬ r a b → S b a) (a : α) :
    ∀ t : List α, t.Pairwise S → (∀ b ∈ t, S a b) → (t.orderedInsert r a).Pairwise S
  | [], _, _ => by simp
  | b :: t, ht, ha => by
    rw [List.orderedInsert]
    split
    · exact List.pairwise_cons.2 ⟨ha, ht⟩
    · rename_i hab
      rw [List.pairwise_cons] at ht ⊢
      refine ⟨?_, pairwise_orderedInsert r S hS a t ht.2 fun x hx => ha x (List.mem_cons_of_mem _ hx)⟩
      intro x hx
      rcases (List.mem_orderedInsert r).1 hx with rfl | hx
      · exact hS _ _ hab
      · exact ht.1 x hx

/-- Stability of the sort: a pairwise relation of the input that holds backwards whenever the
sort relation fails also holds of the output. -/
theorem pairwise_insertionSort {α : Type} (r : α → α → Prop) [DecidableRel r]
    (S : α → α → Prop) (hS : ∀ a b, ¬ r a b → S b a) :
    ∀ l : List α, l.Pairwise S → (l.insertionSort r).Pairwise S
  | [], _ => by simp
  | a :: l, h => by
    rw [List.pairwise_cons] at h
    rw [List.insertionSort]
    exact pairwise_orderedInsert r S hS a _ (pairwise_insertionSort r S hS l h.2)
      fun b hb => h.1 b ((List.mem_insertionSort r).1 hb)

theorem orderByIndexThenCreated_sorted {α : Type} (key : α → Int × Nat) (rows : List α) :
    (orderByIndexThenCreated key rows).Pairwise fun a b => sqlBefore (key a) (key b) := by
  haveI : IsTotal α (fun a b => sqlBefore (key a) (key b)) :=
    ⟨fun a b => by unfold sqlBefore; omega⟩
  haveI : IsTrans α (fun a b => sqlBefore (key a) (key b)) :=
    ⟨fun a b c => by unfold sqlBefore; omega⟩
  exact List.sorted_insertionSort (fun a b => sqlBefore (key a) (key b)) rows

/-- Order of two elements of the merged list that have the same order_index: by position of
their type in the concatenation, then by creation time. -/
theorem mergeContent_ties (s : Store) (id : Nat) :
    (mergeContent (lecturesQuery s id) (grandQuizzesQuery s id)
      (grandAssignmentsQuery s id)).Pairwise fun a b =>
        a.order_index = b.order_index →
          (a.type = .lecture ∧ b.type ≠ .lecture) ∨
          (a.type = .grand_quiz ∧ b.type = .grand_assignment) ∨
          (a.type = b.type ∧ a.created_at ≤ b.created_at) := by
  unfold mergeContent sortByOrderIndex
  apply pairwise_insertionSort
  · intro a b hab heq
    unfold compareOrderIndex at hab
    omega
  · unfold taggedContent
    rw [List.pairwise_append, List.pairwise_append]
    refine ⟨⟨?_, ?_, ?_⟩, ?_, ?_⟩
    · unfold lecturesQuery
      rw [List.pairwise_map, List.pairwise_map]
      refine (orderByIndexThenCreated_sorted _ _).imp ?_
      intro a b hab heq
      refine Or.inr (Or.inr ⟨rfl, ?_⟩)
      simp only [lectureItem, ContentItem.order_index, ContentRow.order_index,
        lectureWithCounts, ContentItem.created_at, ContentRow.created_at, sqlBefore] at *
      omega
    · unfold grandQuizzesQuery
      rw [List.pairwise_map]
      refine (orderByIndexThenCreated_sorted _ _).imp ?_
      intro a b hab heq
      refine Or.inr (Or.inr ⟨rfl, ?_⟩)
      simp only [grandQuizItem, ContentItem.order_index, ContentRow.order_index,
        ContentItem.created_at, ContentRow.created_at, sqlBefore] at *
      omega
    · intro a ha b hb _
      obtain ⟨l, -, rfl⟩ := List.mem_map.1 ha
      obtain ⟨q, -, rfl⟩ := List.mem_map.1 hb
      exact Or.inl ⟨rfl, by simp [grandQuizItem]⟩
    · unfold grandAssignmentsQuery
      rw [List.pairwise_map]
      refine (orderByIndexThenCreated_sorted _ _).imp ?_
      intro a b hab heq
      refine Or.inr (Or.inr ⟨rfl, ?_⟩)
      simp only [grandAssignmentItem, ContentItem.order_index, ContentRow.order_index,
        ContentItem.created_at, ContentRow.created_at, sqlBefore] at *
      omega
    · intro a ha b hb _
      obtain ⟨x, -, rfl⟩ := List.mem_map.1 hb
      rcases List.mem_append.1 ha with ha | ha
      · obtain ⟨l, -, rfl⟩ := List.mem_map.1 ha
        exact Or.inl ⟨rfl, by simp [grandAssignmentItem]⟩
      · obtain ⟨q, -, rfl⟩ := List.mem_map.1 ha
        exact Or.inr (Or.inl ⟨rfl, rfl⟩)


/-- Witness for C2 on the scenario store, where the sort moves the grand quiz between the two
lectures. -/
theorem allContent_tagged_and_sorted_witness :
    (getCourse scenarioStore (some studentUser) 1).1 = ⟨200, .course scenarioPayload⟩ ∧
    (scenarioPayload.allContent.map fun item => (item.type, item.row)).Perm
      (((scenarioStore.lectures.filter fun l => l.course_id == 1).map fun l =>
          (ContentType.lecture, ContentRow.lecture (lectureWithCounts scenarioStore l))) ++
        ((scenarioStore.grand_quizzes.filter fun q => q.course_id == 1).map fun q =>
          (ContentType.grand_quiz, ContentRow.grand_quiz q)) ++
        ((scenarioStore.grand_assignments.filter fun a => a.course_id == 1).map fun a =>
          (ContentType.grand_assignment, ContentRow.grand_assignment a))) ∧
    (scenarioPayload.allContent.map ContentItem.order_index).Sorted (· ≤ ·) :=
  ⟨by decide,
    allContent_tagged_and_sorted scenarioStore studentUser 1 scenarioPayload (by decide)⟩

/-- Counterexample to C3 as stated: a lecture and a grand quiz share order index 0, the grand
quiz was created earlier (time 10 against 20), and the lecture still comes first. -/
theorem tie_break_across_types_counterexample :
    (getCourse tieStore (some teacherUser) 1).1 = ⟨200, .course tiePayload⟩ ∧
    tiePayload.allContent[0]? = some (lectureItem ⟨exampleLecture 1 1 0 20, 0, 0, 0, none⟩) ∧
    tiePayload.allContent[1]? = some (grandQuizItem (exampleGrandQuiz 1 1 0 10)) ∧
    (grandQuizItem (exampleGrandQuiz 1 1 0 10)).order_index =
      (lectureItem ⟨exampleLecture 1 1 0 20, 0, 0, 0, none⟩).order_index ∧
    (grandQuizItem (exampleGrandQuiz 1 1 0 10)).created_at <
      (lectureItem ⟨exampleLecture 1 1 0 20, 0, 0, 0, none⟩).created_at := by
  decide

/-- C3, amended: of two elements of `allContent` with the same order_index, one of the same
type created earlier comes first; across types a lecture comes before a grand quiz or a grand
assignment and a grand quiz before a grand assignment, whatever the creation times. -/
theorem ties_by_type_then_creation (s : Store) (user : SessionUser) (id : Nat)
    (p : CoursePayload) (hresp : (getCourse s (some user) id).1 = ⟨200, .course p⟩)
    (i j : Nat) (a b : ContentItem) (ha : p.allContent[i]? = some a)
    (hb : p.allContent[j]? = some b) (heq : a.order_index = b.order_index) :
    (a.type = b.type → a.created_at < b.created_at → i < j) ∧
    (a.type = .lecture → b.type ≠ .lecture → i < j) ∧
    (a.type = .grand_quiz → b.type = .grand_assignment → i < j) := by
  obtain ⟨-, -, hall, -, -, -⟩ := getCourse_ok s user id p hresp
  have hpw : p.allContent.Pairwise fun a b =>
      a.order_index = b.order_index →
        (a.type = .lecture ∧ b.type ≠ .lecture) ∨
        (a.type = .grand_quiz ∧ b.type = .grand_assignment) ∨
        (a.type = b.type ∧ a.created_at ≤ b.created_at) := by
    have hbase := mergeContent_ties s id
    have hmap : (p.allContent.map fun it => (it.type, it.row)) =
        (mergeContent (lecturesQuery s id) (grandQuizzesQuery s id)
          (grandAssignmentsQuery s id)).map fun it => (it.type, it.row) := by
      rw [hall]; split
      · exact annotate_map_type_row _ _
      · rfl
    have hpairs : ((mergeContent (lecturesQuery s id) (grandQuizzesQuery s id)
        (grandAssignmentsQuery s id)).map fun it => (it.type, it.row)).Pairwise
        fun (x y : ContentType × ContentRow) =>
          x.2.order_index = y.2.order_index →
            (x.1 = .lecture ∧ y.1 ≠ .lecture) ∨
            (x.1 = .grand_quiz ∧ y.1 = .grand_assignment) ∨
            (x.1 = y.1 ∧ x.2.created_at ≤ y.2.created_at) :=
      List.pairwise_map.2 hbase
    rw [← hmap] at hpairs
    exact List.pairwise_map.1 hpairs
  rw [List.pairwise_iff_getElem] at hpw
  obtain ⟨hi, rfl⟩ := List.getElem?_eq_some_iff.1 ha
  obtain ⟨hj, rfl⟩ := List.getElem?_eq_some_iff.1 hb
  rcases Nat.lt_trichotomy i j with hlt | rfl | hgt
  · exact ⟨fun _ _ => hlt, fun _ _ => hlt, fun _ _ => hlt⟩
  · refine ⟨fun _ h => absurd h (lt_irrefl _), fun h₁ h₂ => absurd h₁ h₂, fun h₁ h₂ => ?_⟩
    rw [h₁] at h₂; cases h₂
  · have h := hpw j i hj hi hgt heq.symm
    refine ⟨fun ht hc => ?_, fun h₁ h₂ => ?_, fun h₁ h₂ => ?_⟩
    · rcases h with ⟨h₁, h₂⟩ | ⟨h₁, h₂⟩ | ⟨-, h₂⟩
      · exact absurd (ht.trans h₁) h₂
      · rw [ht, h₁] at h₂; cases h₂
      · omega
    · rcases h with ⟨h₃, h₄⟩ | ⟨h₃, h₄⟩ | ⟨h₃, -⟩
      · exact absurd h₁ h₄
      · rw [h₁] at h₄; cases h₄
      · exact absurd (h₃.trans h₁) h₂
    · rcases h with ⟨h₃, h₄⟩ | ⟨h₃, h₄⟩ | ⟨h₃, -⟩
      · rw [h₂] at h₃; cases h₃
      · rw [h₂] at h₃; cases h₃
      · rw [h₁, h₂] at h₃; cases h₃

/-- Witness for the amended C3: two lectures of order index 0; the one created at time 10 is
second in the table and first in `allContent`. -/
theorem ties_by_type_then_creation_witness :
    (getCourse sameTypeTieStore (some adminUser) 1).1 = ⟨200, .course sameTypeTiePayload⟩ ∧
    sameTypeTiePayload.allContent[0]? =
      some (lectureItem ⟨exampleLecture 2 1 0 10, 0, 0, 0, none⟩) ∧
    sameTypeTiePayload.allContent[1]? =
      some (lectureItem ⟨exampleLecture 1 1 0 20, 0, 0, 0, none⟩) ∧
    (lectureItem ⟨exampleLecture 2 1 0 10, 0, 0, 0, none⟩).order_index =
      (lectureItem ⟨exampleLecture 1 1 0 20, 0, 0, 0, none⟩).order_index ∧
    (0 : Nat) < 1 :=
  ⟨by decide, by decide, by decide, by decide,
    (ties_by_type_then_creation sameTypeTieStore adminUser 1 sameTypeTiePayload (by decide) 0 1
      (lectureItem ⟨exampleLecture 2 1 0 10, 0, 0, 0, none⟩)
      (lectureItem ⟨exampleLecture 1 1 0 20, 0, 0, 0, none⟩) (by decide) (by decide)
      (by decide)).1 (by decide) (by decide)⟩


theorem courseQuery_eq_none (s : Store) (id : Nat) (h : ∀ c ∈ s.courses, c.id ≠ id) :
    courseQuery s id = none := by
  have hf : (s.courses.filter fun c => c.id == id) = [] := by
    rw [List.filter_eq_nil_iff]
    intro c hc
    simpa using h c hc
  simp [courseQuery, hf]

theorem courseQuery_isSome (s : Store) (id : Nat)
    (h : ∃ c ∈ s.courses, c.id = id ∧ ∃ u ∈ s.users, u.id = c.teacher_id) :
    ∃ ct, courseQuery s id = some ct := by
  obtain ⟨c, hc, hid, u, hu, hut⟩ := h
  have hmem : (c, u.name) ∈ ((s.courses.filter fun c => c.id == id).flatMap fun c =>
      (s.users.filter fun u => u.id == c.teacher_id).map fun u => (c, u.name)) := by
    rw [List.mem_flatMap]
    refine ⟨c, ?_, ?_⟩
    · rw [List.mem_filter]; exact ⟨hc, by simpa using hid⟩
    · rw [List.mem_map]
      exact ⟨u, by rw [List.mem_filter]; exact ⟨hu, by simpa using hut⟩, rfl⟩
  unfold courseQuery
  cases hl : ((s.courses.filter fun c => c.id == id).flatMap fun c =>
      (s.users.filter fun u => u.id == c.teacher_id).map fun u => (c, u.name)) with
  | nil => rw [hl] at hmem; cases hmem
  | cons x xs => exact ⟨x, rfl⟩

theorem enrolled_eq_false (s : Store) (userId courseId : Nat)
    (h : ∀ e ∈ s.enrollments, ¬ (e.user_id = userId ∧ e.course_id = courseId)) :
    enrolled s userId courseId = false := by
  unfold enrolled
  rw [List.any_eq_false]
  intro e he
  simpa using h e he

/-- C4: for a course whose row exists (with the user row of its teacher, which the lookup joins
and the foreign key of `courses.teacher_id` keeps present), a student with no enrollment row for
it is answered 403 with an error body only; the store is untouched. -/
theorem unenrolled_student_forbidden (s : Store) (user : SessionUser) (id : Nat)
    (hrole : user.role = "student")
    (hcourse : ∃ c ∈ s.courses, c.id = id ∧ ∃ u ∈ s.users, u.id = c.teacher_id)
    (hnone : ∀ e ∈ s.enrollments, ¬ (e.user_id = user.id ∧ e.course_id = id)) :
    getCourse s (some user) id = (⟨403, .error "Not enrolled in this course"⟩, s) := by
  obtain ⟨⟨course, teacher_name⟩, hq⟩ := courseQuery_isSome s id hcourse
  have he := enrolled_eq_false s user.id id hnone
  simp [getCourse, guarded, requireAuth, getCourseHandler, hq, hrole, he]

/-- Witness for C4: the student of `unenrolledStore` asks for course 1. -/
theorem unenrolled_student_forbidden_witness :
    studentUser.role = "student" ∧
    (∃ c ∈ unenrolledStore.courses, c.id = 1 ∧ ∃ u ∈ unenrolledStore.users, u.id = c.teacher_id) ∧
    (∀ e ∈ unenrolledStore.enrollments, ¬ (e.user_id = studentUser.id ∧ e.course_id = 1)) ∧
    getCourse unenrolledStore (some studentUser) 1 =
      (⟨403, .error "Not enrolled in this course"⟩, unenrolledStore) :=
  have hc : ∃ c ∈ unenrolledStore.courses, c.id = 1 ∧
      ∃ u ∈ unenrolledStore.users, u.id = c.teacher_id :=
    ⟨exampleCourse 1 1, by decide, rfl, teacherRow, by decide, rfl⟩
  have hn : ∀ e ∈ unenrolledStore.enrollments, ¬ (e.user_id = studentUser.id ∧ e.course_id = 1) :=
    fun e he => by cases he
  ⟨rfl, hc, hn, unenrolled_student_forbidden unenrolledStore studentUser 1 rfl hc hn⟩


theorem lectureQuery_some (s : Store) (lectureId : Nat) (d : LectureDetail)
    (h : lectureQuery s lectureId = some d) :
    d.row ∈ s.lectures ∧ d.row.id = lectureId ∧ d.course_id = d.row.course_id := by
  unfold lectureQuery at h
  have hmem := List.mem_of_mem_head? h
  rw [List.mem_flatMap] at hmem
  obtain ⟨l, hl, hd⟩ := hmem
  rw [List.mem_filter] at hl
  rw [List.mem_map] at hd
  obtain ⟨c, hc, rfl⟩ := hd
  rw [List.mem_filter] at hc
  exact ⟨hl.1, by simpa using hl.2, by simpa using hc.2⟩

theorem lectureQuery_isSome (s : Store) (lectureId : Nat)
    (h : ∃ l ∈ s.lectures, l.id = lectureId ∧ ∃ c ∈ s.courses, c.id = l.course_id) :
    ∃ d, lectureQuery s lectureId = some d := by
  obtain ⟨l, hl, hid, c, hc, hcl⟩ := h
  have hmem : LectureDetail.mk l c.id c.title c.teacher_id ∈
      ((s.lectures.filter fun l => l.id == lectureId).flatMap fun l =>
        (s.courses.filter fun c => c.id == l.course_id).map fun c =>
          LectureDetail.mk l c.id c.title c.teacher_id) := by
    rw [List.mem_flatMap]
    refine ⟨l, ?_, ?_⟩
    · rw [List.mem_filter]; exact ⟨hl, by simpa using hid⟩
    · rw [List.mem_map]
      exact ⟨c, by rw [List.mem_filter]; exact ⟨hc, by simpa using hcl⟩, rfl⟩
  unfold lectureQuery
  cases hq : ((s.lectures.filter fun l => l.id == lectureId).flatMap fun l =>
      (s.courses.filter fun c => c.id == l.course_id).map fun c =>
        LectureDetail.mk l c.id c.title c.teacher_id) with
  | nil => rw [hq] at hmem; cases hmem
  | cons x xs => exact ⟨x, rfl⟩

/-- The five read endpoints scoped to a course answer 403 to a student who has no enrollment
row for it: the course itself, and a lecture of the course with its resources, quiz and
assignment. -/
theorem read_endpoints_forbid_unenrolled_student (s : Store) (user : SessionUser)
    (courseId lectureId : Nat) (hrole : user.role = "student")
    (hnone : ∀ e ∈ s.enrollments, ¬ (e.user_id = user.id ∧ e.course_id = courseId)) :
    ((∃ c ∈ s.courses, c.id = courseId ∧ ∃ u ∈ s.users, u.id = c.teacher_id) →
      (getCourse s (some user) courseId).1.status = 403) ∧
    ((∃ l ∈ s.lectures, l.id = lectureId ∧ ∃ c ∈ s.courses, c.id = l.course_id) →
      (∀ l ∈ s.lectures, l.id = lectureId → l.course_id = courseId) →
      (getLecture s (some user) lectureId).1.status = 403 ∧
      (getLectureResources s (some user) lectureId).1.status = 403 ∧
      (getLectureQuiz s (some user) lectureId).1.status = 403 ∧
      (getLectureAssignment s (some user) lectureId).1.status = 403) := by
  have he := enrolled_eq_false s user.id courseId hnone
  constructor
  · intro hc
    obtain ⟨⟨course, teacher_name⟩, hq⟩ := courseQuery_isSome s courseId hc
    simp [getCourse, guarded, requireAuth, getCourseHandler, hq, hrole, he]
  · intro hl hall
    obtain ⟨d, hd⟩ := lectureQuery_isSome s lectureId hl
    obtain ⟨hmem, hid, hcid⟩ := lectureQuery_some s lectureId d hd
    have hdc : d.course_id = courseId := by rw [hcid]; exact hall d.row hmem hid
    have hacc : lectureAccess s (some user) lectureId = some ⟨403, .error "Not enrolled"⟩ := by
      simp [lectureAccess, hd, hrole, hdc, he]
    refine ⟨?_, ?_, ?_, ?_⟩
    · simp [getLecture, guarded, requireAuth, getLectureHandler, hd, hrole, hdc, he]
    · simp [getLectureResources, guarded, requireAuth, getLectureResourcesHandler, hacc]
    · simp [getLectureQuiz, guarded, requireAuth, getLectureQuizHandler, hacc]
    · simp [getLectureAssignment, guarded, requireAuth, getLectureAssignmentHandler, hacc]

/-- C5, the code at the failing input: the student has no enrollment row at all, grand quiz 1
and grand assignment 1 belong to course 1, and both submit routes answer 200 and insert the
submission row, where the claim says Forbidden. -/
theorem submit_routes_ignore_enrollment :
    unenrolledStore.enrollments = [] ∧
    (unenrolledStore.grand_quizzes.map fun q => (q.id, q.course_id)) = [(1, 1)] ∧
    (unenrolledStore.grand_assignments.map fun a => (a.id, a.course_id)) = [(1, 1)] ∧
    (getCourse unenrolledStore (some studentUser) 1).1.status = 403 ∧
    submitGrandQuiz exampleStringify 100 unenrolledStore (some studentUser) 1 (.arr 1 "[0]") =
      (⟨200, .ok⟩,
        { unenrolledStore with
          grand_quiz_submissions := [⟨1, 1, 2, "[0]", 0, 100⟩]
          seq_grand_quiz_submissions := 1 }) ∧
    submitGrandAssignment 100 unenrolledStore (some studentUser) 1 (some exampleFile) =
      (⟨200, .ok⟩,
        { unenrolledStore with
          grand_assignment_submissions := [⟨1, 1, 2, "/media/1700000000000-answer.pdf", 100⟩]
          seq_grand_assignment_submissions := 1 }) := by
  decide


/-- C6: when no course row has the requested id, GET /api/courses/:id answers 404 to every
authenticated requester, whatever the role and the enrollments: the lookup comes first. -/
theorem missing_course_not_found (s : Store) (user : SessionUser) (id : Nat)
    (h : ∀ c ∈ s.courses, c.id ≠ id) :
    getCourse s (some user) id = (⟨404, .error "Not found"⟩, s) := by
  simp [getCourse, guarded, requireAuth, getCourseHandler, courseQuery_eq_none s id h]

/-- Witness for C6: a student without any enrollment asks for course 7, which has no row. -/
theorem missing_course_not_found_witness :
    (∀ c ∈ unenrolledStore.courses, c.id ≠ 7) ∧
    unenrolledStore.enrollments = [] ∧
    getCourse unenrolledStore (some studentUser) 7 = (⟨404, .error "Not found"⟩, unenrolledStore) :=
  have h : ∀ c ∈ unenrolledStore.courses, c.id ≠ 7 := by decide
  ⟨h, rfl, missing_course_not_found unenrolledStore studentUser 7 h⟩

/-- C7: each of the six routes under /api/courses/:id answers a request without a session user
with status 401 and body `{error: 'Unauthorized'}`, and hands back the store it was given: the
handler after the gate is not run. -/
theorem course_routes_reject_anonymous (s : Store) (id now : Nat)
    (toNumber : JsValue → JsValue) (stringify : JsValue → String) (fails : Nat → Bool)
    (update : CourseUpdateBody) (quiz : GrandQuizBody) (assignment : GrandAssignmentBody)
    (file : Option StoredFile) (items : Option (List ReorderItem)) :
    getCourse s none id = (⟨401, .error "Unauthorized"⟩, s) ∧
    updateCourse toNumber s none id update = (⟨401, .error "Unauthorized"⟩, s) ∧
    createGrandQuiz stringify now s none id quiz = (⟨401, .error "Unauthorized"⟩, s) ∧
    createGrandAssignment now s none id assignment = (⟨401, .error "Unauthorized"⟩, s) ∧
    uploadGrandAssignment s none id file = (⟨401, .error "Unauthorized"⟩, s) ∧
    reorderContent fails s none id items = (⟨401, .error "Unauthorized"⟩, s) :=
  ⟨rfl, rfl, rfl, rfl, rfl, rfl⟩

/-- C8: `requireRole(roles)` answers 401 Unauthorized exactly when the session has no user, 403
Forbidden exactly when it has a user whose role is not among `roles`, and calls `next()` exactly
when it has a user whose role is among `roles`; without a user the answer is 401 whatever
`roles` is. -/
theorem requireRole_three_way (roles : List String) (session : Option SessionUser) :
    (requireRole roles session = some ⟨401, .error "Unauthorized"⟩ ↔ session = none) ∧
    (requireRole roles session = some ⟨403, .error "Forbidden"⟩ ↔
      ∃ user, session = some user ∧ user.role ∉ roles) ∧
    (requireRole roles session = none ↔ ∃ user, session = some user ∧ user.role ∈ roles) := by
  cases session with
  | none => simp [requireRole]
  | some user =>
    by_cases h : user.role ∈ roles <;> simp [requireRole, h]


theorem mem_orderByIndexThenCreated {α : Type} (key : α → Int × Nat) (rows : List α) (x : α) :
    x ∈ orderByIndexThenCreated key rows ↔ x ∈ rows :=
  List.mem_insertionSort _

/-- Every element of the merged list is a tagged row of the course, without annotations. -/
theorem mem_mergeContent (s : Store) (id : Nat) (item : ContentItem)
    (h : item ∈ mergeContent (lecturesQuery s id) (grandQuizzesQuery s id)
      (grandAssignmentsQuery s id)) :
    (∃ l ∈ s.lectures, l.course_id = id ∧ item = lectureItem (lectureWithCounts s l)) ∨
    (∃ q ∈ s.grand_quizzes, q.course_id = id ∧ item = grandQuizItem q) ∨
    (∃ a ∈ s.grand_assignments, a.course_id = id ∧ item = grandAssignmentItem a) := by
  unfold mergeContent sortByOrderIndex at h
  rw [List.mem_insertionSort] at h
  unfold taggedContent at h
  rw [List.mem_append, List.mem_append] at h
  rcases h with (h | h) | h
  · left
    obtain ⟨v, hv, rfl⟩ := List.mem_map.1 h
    unfold lecturesQuery at hv
    obtain ⟨l, hl, rfl⟩ := List.mem_map.1 hv
    rw [mem_orderByIndexThenCreated, List.mem_filter] at hl
    exact ⟨l, hl.1, by simpa using hl.2, rfl⟩
  · right; left
    obtain ⟨q, hq, rfl⟩ := List.mem_map.1 h
    unfold grandQuizzesQuery at hq
    rw [mem_orderByIndexThenCreated, List.mem_filter] at hq
    exact ⟨q, hq.1, by simpa using hq.2, rfl⟩
  · right; right
    obtain ⟨a, ha, rfl⟩ := List.mem_map.1 h
    unfold grandAssignmentsQuery at ha
    rw [mem_orderByIndexThenCreated, List.mem_filter] at ha
    exact ⟨a, ha.1, by simpa using ha.2, rfl⟩

/-- C9: in the answer of GET /api/courses/:id to an admin or a teacher no element of
`allContent` has a `progress` or an `is_locked` field, and every element tagged 'lecture' is
a lecture row of the course together with the numbers of its resource, quiz and assignment
rows. -/
theorem staff_view_unannotated (s : Store) (user : SessionUser) (id : Nat) (p : CoursePayload)
    (hrole : user.role = "admin" ∨ user.role = "teacher")
    (hresp : (getCourse s (some user) id).1 = ⟨200, .course p⟩) :
    (∀ item ∈ p.allContent, item.progress = none ∧ item.is_locked = none) ∧
    (∀ item ∈ p.allContent, item.type = .lecture →
      ∃ l ∈ s.lectures, l.course_id = id ∧
        item.row = .lecture
          { row := l
            resource_count := (s.lecture_resources.filter fun r => r.lecture_id == l.id).length
            quiz_count := (s.lecture_quizzes.filter fun q => q.lecture_id == l.id).length
            assignment_count :=
              (s.lecture_assignments.filter fun a => a.lecture_id == l.id).length
            resources := none }) := by
  obtain ⟨-, -, hall, -, -, -⟩ := getCourse_ok s user id p hresp
  have hns : ¬ user.role = "student" := by
    rcases hrole with h | h <;> rw [h] <;> decide
  rw [if_neg hns] at hall
  constructor
  · intro item hitem
    rw [hall] at hitem
    rcases mem_mergeContent s id item hitem with ⟨l, -, -, rfl⟩ | ⟨q, -, -, rfl⟩ | ⟨a, -, -, rfl⟩ <;>
      exact ⟨rfl, rfl⟩
  · intro item hitem htype
    rw [hall] at hitem
    rcases mem_mergeContent s id item hitem with ⟨l, hl, hc, rfl⟩ | ⟨q, -, -, rfl⟩ | ⟨a, -, -, rfl⟩
    · exact ⟨l, hl, hc, rfl⟩
    · simp [grandQuizItem] at htype
    · simp [grandAssignmentItem] at htype

/-- Witness for C9: the teacher of `tieStore` fetches course 1. -/
theorem staff_view_unannotated_witness :
    (teacherUser.role = "admin" ∨ teacherUser.role = "teacher") ∧
    (getCourse tieStore (some teacherUser) 1).1 = ⟨200, .course tiePayload⟩ ∧
    (lectureItem ⟨exampleLecture 1 1 0 20, 0, 0, 0, none⟩).progress = none ∧
    (lectureItem ⟨exampleLecture 1 1 0 20, 0, 0, 0, none⟩).is_locked = none :=
  ⟨Or.inr rfl, by decide,
    (staff_view_unannotated tieStore teacherUser 1 tiePayload (Or.inr rfl) (by decide)).1
      (lectureItem ⟨exampleLecture 1 1 0 20, 0, 0, 0, none⟩) (by decide)⟩

theorem lookup_foldl_of_not_mem {α κ β : Type} [BEq κ] [LawfulBEq κ] (f : α → κ) (g : α → β)
    (k : κ) : ∀ (xs : List α) (m : List (κ × β)), (∀ x ∈ xs, f x ≠ k) →
      List.lookup k (xs.foldl (fun m x => (f x, g x) :: m) m) = List.lookup k m
  | [], _, _ => rfl
  | x :: xs, m, h => by
    rw [List.foldl_cons, lookup_foldl_of_not_mem f g k xs _
      fun y hy => h y (List.mem_cons_of_mem _ hy)]
    have hx : (k == f x) = false := by
      rw [beq_eq_false_iff_ne]
      exact fun e => h x (List.mem_cons_self _ _) e.symm
    rw [List.lookup_cons, hx]

/-- The student's progress map has no entry for an item for which the student has no row in
the table of the item's type. -/
theorem studentProgressMap_get_none (s : Store) (userId : Nat) (item : ContentItem)
    (hnorow : match item.type with
      | .lecture => ∀ r ∈ s.student_progress, ¬ (r.user_id = userId ∧ r.lecture_id = item.id)
      | .grand_quiz =>
        ∀ r ∈ s.grand_quiz_submissions, ¬ (r.student_id = userId ∧ r.quiz_id = item.id)
      | .grand_assignment =>
        ∀ r ∈ s.grand_assignment_submissions,
          ¬ (r.student_id = userId ∧ r.assignment_id = item.id)) :
    (studentProgressMap s userId).get (progressKey item) = none := by
  unfold studentProgressMap buildProgressMap ProgressMap.get ProgressMap.set progressKey
  have hL : item.type = .lecture →
      ∀ p ∈ lectureProgressQuery s userId, (ContentType.lecture, p.lecture_id) ≠
        (item.type, item.id) := by
    intro ht p hp e
    rw [ht] at hnorow
    unfold lectureProgressQuery at hp
    rw [List.mem_filter] at hp
    simp only [Prod.mk.injEq] at e
    exact hnorow p hp.1 ⟨by simpa using hp.2, e.2⟩
  have hQ : item.type = .grand_quiz →
      ∀ q ∈ quizSubmissionsQuery s userId, (ContentType.grand_quiz, q) ≠
        (item.type, item.id) := by
    intro ht q hq e
    rw [ht] at hnorow
    unfold quizSubmissionsQuery at hq
    obtain ⟨r, hr, rfl⟩ := List.mem_map.1 hq
    rw [List.mem_filter] at hr
    simp only [Prod.mk.injEq] at e
    exact hnorow r hr.1 ⟨by simpa using hr.2, e.2⟩
  have hA : item.type = .grand_assignment →
      ∀ a ∈ assignmentSubmissionsQuery s userId, (ContentType.grand_assignment, a) ≠
        (item.type, item.id) := by
    intro ht a ha e
    rw [ht] at hnorow
    unfold assignmentSubmissionsQuery at ha
    obtain ⟨r, hr, rfl⟩ := List.mem_map.1 ha
    rw [List.mem_filter] at hr
    simp only [Prod.mk.injEq] at e
    exact hnorow r hr.1 ⟨by simpa using hr.2, e.2⟩
  have hL' : ∀ p ∈ lectureProgressQuery s userId, (ContentType.lecture, p.lecture_id) ≠
      (item.type, item.id) := by
    intro p hp e
    exact hL (by simp only [Prod.mk.injEq] at e; exact e.1.symm) p hp e
  have hQ' : ∀ q ∈ quizSubmissionsQuery s userId, (ContentType.grand_quiz, q) ≠
      (item.type, item.id) := by
    intro q hq e
    exact hQ (by simp only [Prod.mk.injEq] at e; exact e.1.symm) q hq e
  have hA' : ∀ a ∈ assignmentSubmissionsQuery s userId, (ContentType.grand_assignment, a) ≠
      (item.type, item.id) := by
    intro a ha e
    exact hA (by simp only [Prod.mk.injEq] at e; exact e.1.symm) a ha e
  rw [lookup_foldl_of_not_mem (fun a : Nat => (ContentType.grand_assignment, a))
      (fun _ => (⟨.num 1, .num 100⟩ : Progress)) _ _ _ hA',
    lookup_foldl_of_not_mem (fun q : Nat => (ContentType.grand_quiz, q))
      (fun _ => (⟨.num 1, .num 100⟩ : Progress)) _ _ _ hQ',
    lookup_foldl_of_not_mem (fun p : StudentProgressRow => (ContentType.lecture, p.lecture_id))
      (fun p => (⟨p.completed, p.completion_percentage⟩ : Progress)) _ _ _ hL']
  rfl


/-- C10: in the answer to a student, a content item for which the student has no row in the
table of its type (`student_progress` for a lecture, `grand_quiz_submissions` for a grand quiz,
`grand_assignment_submissions` for a grand assignment) carries the progress
`{completed: 0, percentage: 0}`, and the item after it, if any, is locked. -/
theorem missing_rows_default_and_lock (s : Store) (user : SessionUser) (id : Nat)
    (p : CoursePayload) (hrole : user.role = "student")
    (hresp : (getCourse s (some user) id).1 = ⟨200, .course p⟩)
    (i : Nat) (item : ContentItem) (hitem : p.allContent[i]? = some item)
    (hnorow : match item.type with
      | .lecture => ∀ r ∈ s.student_progress, ¬ (r.user_id = user.id ∧ r.lecture_id = item.id)
      | .grand_quiz =>
        ∀ r ∈ s.grand_quiz_submissions, ¬ (r.student_id = user.id ∧ r.quiz_id = item.id)
      | .grand_assignment =>
        ∀ r ∈ s.grand_assignment_submissions,
          ¬ (r.student_id = user.id ∧ r.assignment_id = item.id)) :
    item.progress = some ⟨.num 0, .num 0⟩ ∧
    ∀ next, p.allContent[i + 1]? = some next → next.is_locked = some true := by
  obtain ⟨-, -, hall, -, -, -⟩ := getCourse_ok s user id p hresp
  rw [if_pos hrole] at hall
  rw [hall] at hitem
  obtain ⟨b, hb, hbt, hbr, hprog, -⟩ := annotate_item _ _ i item hitem
  have hkey : progressKey b = progressKey item := by
    simp [progressKey, ContentItem.id, hbt, hbr]
  have hget := studentProgressMap_get_none s user.id item hnorow
  constructor
  · rw [hprog, hkey, hget]; rfl
  · intro next hnext
    rw [hall] at hnext
    obtain ⟨-, -, -, -, -, hlock⟩ := annotate_item _ _ (i + 1) next hnext
    rw [hlock, if_neg (Nat.succ_ne_zero i), Nat.add_sub_cancel, hb]
    simp [completedIn, hkey, hget]

/-- Witness for C10 on the scenario: the student has no submission for grand quiz Q1, which
therefore shows 0 percent and keeps lecture L2 locked. -/
theorem missing_rows_default_and_lock_witness :
    studentUser.role = "student" ∧
    (getCourse scenarioStore (some studentUser) 1).1 = ⟨200, .course scenarioPayload⟩ ∧
    scenarioPayload.allContent[1]? = some scenarioQ1 ∧
    scenarioStore.grand_quiz_submissions = [] ∧
    scenarioQ1.progress = some ⟨.num 0, .num 0⟩ ∧
    scenarioL2.is_locked = some true :=
  have h := missing_rows_default_and_lock scenarioStore studentUser 1 scenarioPayload rfl
    (by decide) 1 scenarioQ1 (by decide) (fun r hr => by cases hr)
  ⟨rfl, by decide, by decide, rfl, h.1, h.2 scenarioL2 (by decide)⟩


/-- The read of a key that some element of the list writes, all writers of the key writing the
same value. -/
theorem lookup_foldl_of_mem {α κ β : Type} [BEq κ] [LawfulBEq κ] (f : α → κ) (g : α → β)
    (k : κ) (v : β) : ∀ (xs : List α) (m : List (κ × β)), (∃ x ∈ xs, f x = k) →
      (∀ x ∈ xs, f x = k → g x = v) →
      List.lookup k (xs.foldl (fun m x => (f x, g x) :: m) m) = some v
  | [], _, h, _ => by obtain ⟨x, hx, -⟩ := h; cases hx
  | x :: xs, m, h, hv => by
    rw [List.foldl_cons]
    by_cases hrest : ∃ y ∈ xs, f y = k
    · exact lookup_foldl_of_mem f g k v xs _ hrest
        fun y hy => hv y (List.mem_cons_of_mem _ hy)
    · have hnone : ∀ y ∈ xs, f y ≠ k := fun y hy e => hrest ⟨y, hy, e⟩
      rw [lookup_foldl_of_not_mem f g k xs _ hnone]
      obtain ⟨y, hy, hyk⟩ := h
      rcases List.mem_cons.1 hy with rfl | hy'
      · rw [List.lookup_cons, hyk, beq_self_eq_true]
        exact congrArg some (hv y (List.mem_cons_self _ _) hyk)
      · exact absurd hyk (hnone y hy')

/-- Counterexample to C11 as stated: the student's row for lecture 1 is completed with
completion_percentage 80, and the entry of the map for that lecture has percentage 80. -/
theorem completed_lecture_entry_counterexample :
    partialProgressStore.student_progress = [⟨2, 1, .num 1, .num 80⟩] ∧
    (JsValue.num 1).truthy = true ∧
    (studentProgressMap partialProgressStore 2).get (.lecture, 1) =
      some ⟨.num 1, .num 80⟩ := by
  decide

/-- C11, amended: in the progress map of a student every grand-quiz submission and every
grand-assignment submission of the student yields the entry `{completed: 1, percentage: 100}`,
and a lecture-progress row that is the student's only row for its lecture yields the entry
made of the row's own `completed` and `completion_percentage`. -/
theorem completion_entries (s : Store) (userId : Nat) :
    (∀ r ∈ s.grand_quiz_submissions, r.student_id = userId →
      (studentProgressMap s userId).get (.grand_quiz, r.quiz_id) =
        some ⟨.num 1, .num 100⟩) ∧
    (∀ r ∈ s.grand_assignment_submissions, r.student_id = userId →
      (studentProgressMap s userId).get (.grand_assignment, r.assignment_id) =
        some ⟨.num 1, .num 100⟩) ∧
    (∀ r ∈ s.student_progress, r.user_id = userId →
      (∀ r' ∈ s.student_progress, r'.user_id = userId → r'.lecture_id = r.lecture_id →
        r' = r) →
      (studentProgressMap s userId).get (.lecture, r.lecture_id) =
        some ⟨r.completed, r.completion_percentage⟩) := by
  refine ⟨?_, ?_, ?_⟩
  · intro r hr hu
    unfold studentProgressMap buildProgressMap ProgressMap.get ProgressMap.set
    rw [lookup_foldl_of_not_mem (fun a : Nat => (ContentType.grand_assignment, a))
      (fun _ => (⟨.num 1, .num 100⟩ : Progress)) _ _ _ (fun a _ e => by cases e)]
    refine lookup_foldl_of_mem (fun q : Nat => (ContentType.grand_quiz, q))
      (fun _ => (⟨.num 1, .num 100⟩ : Progress)) _ _ _ _ ⟨r.quiz_id, ?_, rfl⟩ (fun _ _ _ => rfl)
    unfold quizSubmissionsQuery
    exact List.mem_map.2 ⟨r, List.mem_filter.2 ⟨hr, by simpa using hu⟩, rfl⟩
  · intro r hr hu
    unfold studentProgressMap buildProgressMap ProgressMap.get ProgressMap.set
    refine lookup_foldl_of_mem (fun a : Nat => (ContentType.grand_assignment, a))
      (fun _ => (⟨.num 1, .num 100⟩ : Progress)) _ _ _ _ ⟨r.assignment_id, ?_, rfl⟩
      (fun _ _ _ => rfl)
    unfold assignmentSubmissionsQuery
    exact List.mem_map.2 ⟨r, List.mem_filter.2 ⟨hr, by simpa using hu⟩, rfl⟩
  · intro r hr hu honly
    unfold studentProgressMap buildProgressMap ProgressMap.get ProgressMap.set
    rw [lookup_foldl_of_not_mem (fun a : Nat => (ContentType.grand_assignment, a))
        (fun _ => (⟨.num 1, .num 100⟩ : Progress)) _ _ _ (fun a _ e => by cases e),
      lookup_foldl_of_not_mem (fun q : Nat => (ContentType.grand_quiz, q))
        (fun _ => (⟨.num 1, .num 100⟩ : Progress)) _ _ _ (fun a _ e => by cases e)]
    refine lookup_foldl_of_mem
      (fun p : StudentProgressRow => (ContentType.lecture, p.lecture_id))
      (fun p => (⟨p.completed, p.completion_percentage⟩ : Progress)) _ _ _ _
      ⟨r, ?_, rfl⟩ ?_
    · unfold lectureProgressQuery
      exact List.mem_filter.2 ⟨hr, by simpa using hu⟩
    · intro p hp hk
      unfold lectureProgressQuery at hp
      rw [List.mem_filter] at hp
      have hl : p.lecture_id = r.lecture_id := by
        simp only [Prod.mk.injEq, true_and] at hk; exact hk
      rw [honly p hp.1 (by simpa using hp.2) hl]

/-- Witness for the amended C11: in `submittedStore` the student's grand-quiz submission yields
percentage 100, and in `partialProgressStore` the only progress row yields its own 80. -/
theorem completion_entries_witness :
    (⟨1, 1, 2, "[0]", 0, 50⟩ : GrandQuizSubmissionRow) ∈ submittedStore.grand_quiz_submissions ∧
    (studentProgressMap submittedStore 2).get (.grand_quiz, 1) = some ⟨.num 1, .num 100⟩ ∧
    (⟨2, 1, .num 1, .num 80⟩ : StudentProgressRow) ∈ partialProgressStore.student_progress ∧
    (studentProgressMap partialProgressStore 2).get (.lecture, 1) = some ⟨.num 1, .num 80⟩ :=
  ⟨by decide,
    (completion_entries submittedStore 2).1 ⟨1, 1, 2, "[0]", 0, 50⟩ (by decide) rfl,
    by decide,
    (completion_entries partialProgressStore 2).2.2 ⟨2, 1, .num 1, .num 80⟩ (by decide) rfl
      (by decide)⟩


/-- Without a failing statement the loop applies every item in turn. -/
theorem runReorder_ok (courseId : Nat) (fails : Nat → Bool) :
    ∀ (items : List ReorderItem) (k : Nat) (s : Store),
      (∀ j item, items[j]? = some item →
        (item.type = "lecture" ∨ item.type = "grand_quiz" ∨ item.type = "grand_assignment") →
        fails (k + j) = false) →
      runReorder courseId fails k items s = some (items.foldl (applyReorderItem courseId) s)
  | [], _, _, _ => rfl
  | item :: rest, k, s, h => by
    rw [runReorder, List.foldl_cons]
    have h0 : ¬ ((item.type = "lecture" ∨ item.type = "grand_quiz" ∨
        item.type = "grand_assignment") ∧ fails k = true) := by
      rintro ⟨ht, hf⟩
      have := h 0 item (by simp) ht
      rw [Nat.add_zero, hf] at this
      cases this
    rw [if_neg h0]
    apply runReorder_ok courseId fails rest (k + 1)
    intro j it hj ht
    have := h (j + 1) it (by simpa using hj) ht
    rwa [show k + 1 + j = k + (j + 1) by omega]

/-- A failing statement makes the loop throw. -/
theorem runReorder_fail (courseId : Nat) (fails : Nat → Bool) :
    ∀ (items : List ReorderItem) (k : Nat) (s : Store),
      (∃ j item, items[j]? = some item ∧
        (item.type = "lecture" ∨ item.type = "grand_quiz" ∨ item.type = "grand_assignment") ∧
        fails (k + j) = true) →
      runReorder courseId fails k items s = none
  | [], _, _, h => by obtain ⟨j, item, hj, -, -⟩ := h; simp at hj
  | item :: rest, k, s, h => by
    rw [runReorder]
    split
    · rfl
    · rename_i h0
      apply runReorder_fail courseId fails rest (k + 1)
      obtain ⟨j, it, hj, ht, hf⟩ := h
      cases j with
      | zero =>
        simp only [List.getElem?_cons_zero, Option.some.injEq] at hj
        subst hj
        exact absurd ⟨ht, by simpa using hf⟩ h0
      | succ j =>
        refine ⟨j, it, by simpa using hj, ht, ?_⟩
        rwa [show k + 1 + j = k + (j + 1) by omega]

/-- A row through a list of updates of which exactly one, `item`, applies to it. -/
theorem foldl_single_update {α : Type} (applies : ReorderItem → α → Bool)
    (update : ReorderItem → α → α)
    (hkeep : ∀ i j a, applies j (update i a) = applies j a) (a : α) (item : ReorderItem)
    (pre post : List ReorderItem) (hitem : applies item a = true)
    (hpre : ∀ j ∈ pre, applies j a = false) (hpost : ∀ j ∈ post, applies j a = false) :
    (pre ++ item :: post).foldl (fun a i => if applies i a then update i a else a) a =
      update item a := by
  have hskip : ∀ (l : List ReorderItem) (b : α), (∀ j ∈ l, applies j b = false) →
      l.foldl (fun a i => if applies i a then update i a else a) b = b := by
    intro l
    induction l with
    | nil => intro b _; rfl
    | cons j l ih =>
      intro b hb
      rw [List.foldl_cons, hb j (List.mem_cons_self _ _)]
      exact ih b fun x hx => hb x (List.mem_cons_of_mem _ hx)
  rw [List.foldl_append, hskip pre a hpre, List.foldl_cons, hitem, if_pos rfl]
  exact hskip post _ fun j hj => by rw [hkeep]; exact hpost j hj


theorem applyReorderItem_lectures (courseId : Nat) (s : Store) (item : ReorderItem) :
    (applyReorderItem courseId s item).lectures = s.lectures.map fun l =>
      if (decide (item.type = "lecture") && (l.id == item.id && l.course_id == courseId)) then
        { l with order_index := item.order }
      else l := by
  unfold applyReorderItem
  by_cases h₁ : item.type = "lecture"
  · simp [h₁]
  · by_cases h₂ : item.type = "grand_quiz"
    · simp [h₁, h₂]
    · by_cases h₃ : item.type = "grand_assignment" <;> simp [h₁, h₂, h₃]

theorem applyReorderItem_grand_quizzes (courseId : Nat) (s : Store) (item : ReorderItem) :
    (applyReorderItem courseId s item).grand_quizzes = s.grand_quizzes.map fun q =>
      if (decide (item.type = "grand_quiz") && (q.id == item.id && q.course_id == courseId)) then
        { q with order_index := item.order }
      else q := by
  unfold applyReorderItem
  by_cases h₁ : item.type = "lecture"
  · have h₂ : ¬ item.type = "grand_quiz" := by rw [h₁]; decide
    simp [h₁, h₂]
  · by_cases h₂ : item.type = "grand_quiz"
    · simp [h₁, h₂]
    · by_cases h₃ : item.type = "grand_assignment" <;> simp [h₁, h₂, h₃]

theorem applyReorderItem_grand_assignments (courseId : Nat) (s : Store) (item : ReorderItem) :
    (applyReorderItem courseId s item).grand_assignments = s.grand_assignments.map fun a =>
      if (decide (item.type = "grand_assignment") &&
          (a.id == item.id && a.course_id == courseId)) then
        { a with order_index := item.order }
      else a := by
  unfold applyReorderItem
  by_cases h₁ : item.type = "lecture"
  · have h₃ : ¬ item.type = "grand_assignment" := by rw [h₁]; decide
    simp [h₁, h₃]
  · by_cases h₂ : item.type = "grand_quiz"
    · have h₃ : ¬ item.type = "grand_assignment" := by rw [h₂]; decide
      simp [h₁, h₂, h₃]
    · by_cases h₃ : item.type = "grand_assignment" <;> simp [h₁, h₂, h₃]

/-- A table through the loop is each of its rows through the loop. -/
theorem foldl_table {α : Type} (courseId : Nat) (table : Store → List α)
    (step : ReorderItem → α → α)
    (hstep : ∀ s item, table (applyReorderItem courseId s item) = (table s).map (step item)) :
    ∀ (items : List ReorderItem) (s : Store),
      table (items.foldl (applyReorderItem courseId) s) =
        (table s).map fun a => items.foldl (fun a i => step i a) a
  | [], s => by simp
  | item :: rest, s => by
    rw [List.foldl_cons, foldl_table courseId table step hstep rest, hstep, List.map_map]
    rfl

/-- In a list without two items of the same type and id, the items around one of them have
another type or another id. -/
theorem others_differ (pre post : List ReorderItem) (item : ReorderItem)
    (h : ((pre ++ item :: post).map fun i => (i.type, i.id)).Nodup) :
    (∀ j ∈ pre, (j.type, j.id) ≠ (item.type, item.id)) ∧
    (∀ j ∈ post, (j.type, j.id) ≠ (item.type, item.id)) := by
  rw [List.map_append, List.map_cons, List.nodup_append] at h
  obtain ⟨-, hcons, hdisj⟩ := h
  rw [List.nodup_cons] at hcons
  constructor
  · intro j hj e
    exact hdisj (List.mem_map.2 ⟨j, hj, rfl⟩) (by rw [e]; exact List.mem_cons_self _ _)
  · intro j hj e
    exact hcons.1 (by rw [← e]; exact List.mem_map.2 ⟨j, hj, rfl⟩)


/-- The row a committed reorder leaves for a listed row of the course, when no two items of the
list name the same type and id. -/
theorem reordered_row {α : Type} (courseId : Nat) (table : Store → List α) (tag : String)
    (rowId rowCourse : α → Nat) (setOrder : Int → α → α)
    (hid : ∀ n a, rowId (setOrder n a) = rowId a)
    (hcourse : ∀ n a, rowCourse (setOrder n a) = rowCourse a)
    (hstep : ∀ s item, table (applyReorderItem courseId s item) = (table s).map fun a =>
      if (decide (item.type = tag) && (rowId a == item.id && rowCourse a == courseId)) then
        setOrder item.order a
      else a)
    (s : Store) (items : List ReorderItem)
    (hnodup : (items.map fun i => (i.type, i.id)).Nodup)
    (item : ReorderItem) (hitem : item ∈ items) (htype : item.type = tag)
    (a : α) (ha : a ∈ table s) (haid : rowId a = item.id) (hac : rowCourse a = courseId) :
    setOrder item.order a ∈ table (items.foldl (applyReorderItem courseId) s) := by
  rw [foldl_table courseId table _ hstep items s]
  refine List.mem_map.2 ⟨a, ha, ?_⟩
  obtain ⟨pre, post, rfl⟩ := List.append_of_mem hitem
  obtain ⟨hpre, hpost⟩ := others_differ pre post item hnodup
  have hother : ∀ j : ReorderItem, (j.type, j.id) ≠ (item.type, item.id) →
      (decide (j.type = tag) && (rowId a == j.id && rowCourse a == courseId)) = false := by
    intro j hj
    by_contra hne
    simp only [Bool.not_eq_false, Bool.and_eq_true, decide_eq_true_eq, beq_iff_eq] at hne
    exact hj (by rw [hne.1, htype, ← hne.2.1, haid])
  exact foldl_single_update
    (fun i a => decide (i.type = tag) && (rowId a == i.id && rowCourse a == courseId))
    (fun i a => setOrder i.order a)
    (fun i j a => by simp only [hid, hcourse]) a item pre post
    (by simp [htype, haid, hac])
    (fun j hj => hother j (hpre j hj)) (fun j hj => hother j (hpost j hj))

/-- C12: a reorder request of the owning teacher either runs every UPDATE and commits, leaving
the store in which the listed rows of the course carry their new order_index (each row being
listed once), or, when one UPDATE throws, is answered 500 and leaves the store, hence every
order_index, as it was before the request. -/
theorem reorder_content_atomic (fails : Nat → Bool) (s : Store) (user : SessionUser)
    (courseId : Nat) (items : List ReorderItem) (hrole : user.role = "teacher")
    (howns : ownsCourse s courseId user.id = true) (hne : items ≠ []) :
    ((∀ k item, items[k]? = some item →
        (item.type = "lecture" ∨ item.type = "grand_quiz" ∨ item.type = "grand_assignment") →
        fails k = false) →
      reorderContent fails s (some user) courseId (some items) =
        (⟨200, .ok⟩, items.foldl (applyReorderItem courseId) s) ∧
      ((items.map fun i => (i.type, i.id)).Nodup → ∀ item ∈ items,
        (item.type = "lecture" → ∀ l ∈ s.lectures, l.id = item.id → l.course_id = courseId →
          { l with order_index := item.order } ∈
            (items.foldl (applyReorderItem courseId) s).lectures) ∧
        (item.type = "grand_quiz" → ∀ q ∈ s.grand_quizzes, q.id = item.id →
          q.course_id = courseId →
          { q with order_index := item.order } ∈
            (items.foldl (applyReorderItem courseId) s).grand_quizzes) ∧
        (item.type = "grand_assignment" → ∀ a ∈ s.grand_assignments, a.id = item.id →
          a.course_id = courseId →
          { a with order_index := item.order } ∈
            (items.foldl (applyReorderItem courseId) s).grand_assignments))) ∧
    ((∃ k item, items[k]? = some item ∧
        (item.type = "lecture" ∨ item.type = "grand_quiz" ∨ item.type = "grand_assignment") ∧
        fails k = true) →
      reorderContent fails s (some user) courseId (some items) =
        (⟨500, .error "Server error"⟩, s)) := by
  have hgate : requireRole ["teacher"] (some user) = none := by
    simp [requireRole, hrole]
  have hrun : reorderContent fails s (some user) courseId (some items) =
      match runReorder courseId fails 0 items s with
      | some s' => (⟨200, .ok⟩, s')
      | none => (⟨500, .error "Server error"⟩, s) := by
    cases items with
    | nil => exact absurd rfl hne
    | cons item rest =>
      simp [reorderContent, guarded, hgate, reorderContentHandler, howns]
  constructor
  · intro hok
    constructor
    · rw [hrun, runReorder_ok courseId fails items 0 s
        (fun j item hj ht => by rw [Nat.zero_add]; exact hok j item hj ht)]
    · intro hnodup item hitem
      refine ⟨fun ht l hl hid hc => ?_, fun ht q hq hid hc => ?_, fun ht a ha hid hc => ?_⟩
      · exact reordered_row courseId Store.lectures "lecture" (fun l => l.id)
          (fun l => l.course_id) (fun n l => { l with order_index := n }) (fun _ _ => rfl)
          (fun _ _ => rfl) (applyReorderItem_lectures courseId) s items hnodup item hitem ht
          l hl hid hc
      · exact reordered_row courseId Store.grand_quizzes "grand_quiz" (fun q => q.id)
          (fun q => q.course_id) (fun n q => { q with order_index := n }) (fun _ _ => rfl)
          (fun _ _ => rfl) (applyReorderItem_grand_quizzes courseId) s items hnodup item hitem
          ht q hq hid hc
      · exact reordered_row courseId Store.grand_assignments "grand_assignment"
          (fun a => a.id) (fun a => a.course_id) (fun n a => { a with order_index := n })
          (fun _ _ => rfl) (fun _ _ => rfl) (applyReorderItem_grand_assignments courseId) s
          items hnodup item hitem ht a ha hid hc
  · intro hfail
    rw [hrun, runReorder_fail courseId fails items 0 s
      (by obtain ⟨k, item, hk, ht, hf⟩ := hfail
          exact ⟨k, item, hk, ht, by rw [Nat.zero_add]; exact hf⟩)]

/-- Witness for C12 on the scenario: the teacher reorders course 1; without a failure lecture
L2 gets order 0, and with the second UPDATE failing the store is the one of before. -/
theorem reorder_content_atomic_witness :
    teacherUser.role = "teacher" ∧
    ownsCourse scenarioStore 1 teacherUser.id = true ∧
    exampleReorder ≠ [] ∧
    reorderContent (fun _ => false) scenarioStore (some teacherUser) 1 (some exampleReorder) =
      (⟨200, .ok⟩, exampleReorder.foldl (applyReorderItem 1) scenarioStore) ∧
    { exampleLecture 2 1 2 12 with order_index := 0 } ∈
      (exampleReorder.foldl (applyReorderItem 1) scenarioStore).lectures ∧
    reorderContent (fun k => k == 1) scenarioStore (some teacherUser) 1 (some exampleReorder) =
      (⟨500, .error "Server error"⟩, scenarioStore) :=
  have hok := (reorder_content_atomic (fun _ => false) scenarioStore teacherUser 1
    exampleReorder rfl (by decide) (by decide)).1 (fun _ _ _ _ => rfl)
  ⟨rfl, by decide, by decide, hok.1,
    (hok.2 (by decide) ⟨"lecture", 2, 0⟩ (by decide)).1 rfl (exampleLecture 2 1 2 12)
      (by decide) rfl rfl,
    (reorder_content_atomic (fun k => k == 1) scenarioStore teacherUser 1 exampleReorder rfl
      (by decide) (by decide)).2 ⟨1, ⟨"grand_quiz", 1, 1⟩, by decide, by decide, by decide⟩⟩


/-- C13, the code at the failing input: the enrolled student submits grand quiz 1 twice, then
grand assignment 1 twice.  The tables have no key on (student, item), so each second submission
is a second row next to the first, where the claim says one row with the second payload. -/
theorem resubmission_keeps_both_rows :
    (submitGrandQuiz exampleStringify 200
      (submitGrandQuiz exampleStringify 100 enrolledStore (some studentUser) 1
        (.arr 1 "[0]")).2
      (some studentUser) 1 (.arr 1 "[1]")).1 = ⟨200, .ok⟩ ∧
    (submitGrandQuiz exampleStringify 200
      (submitGrandQuiz exampleStringify 100 enrolledStore (some studentUser) 1
        (.arr 1 "[0]")).2
      (some studentUser) 1 (.arr 1 "[1]")).2.grand_quiz_submissions =
      [⟨1, 1, 2, "[0]", 0, 100⟩, ⟨2, 1, 2, "[1]", 0, 200⟩] ∧
    (submitGrandAssignment 200
      (submitGrandAssignment 100 enrolledStore (some studentUser) 1 (some exampleFile)).2
      (some studentUser) 1 (some secondFile)).2.grand_assignment_submissions =
      [⟨1, 1, 2, "/media/1700000000000-answer.pdf", 100⟩,
        ⟨2, 1, 2, "/media/1700000000500-answer2.pdf", 200⟩] := by
  decide

/-- C15, the code at the failing input: an admin asks to reorder course 1.  The gate of the
route lists 'teacher' only and answers 403, although the handler behind it, run for the same
admin, would skip the ownership test and commit; the gates of the other authoring routes list
'teacher' and 'admin' and let the admin through. -/
theorem reorder_gate_rejects_admin :
    adminUser.role = "admin" ∧
    reorderContent (fun _ => false) scenarioStore (some adminUser) 1 (some exampleReorder) =
      (⟨403, .error "Forbidden"⟩, scenarioStore) ∧
    reorderContent (fun _ => false) scenarioStore (some teacherUser) 1 (some exampleReorder) =
      (⟨200, .ok⟩, exampleReorder.foldl (applyReorderItem 1) scenarioStore) ∧
    reorderContentHandler (fun _ => false) scenarioStore (some adminUser) 1
        (some exampleReorder) =
      (⟨200, .ok⟩, exampleReorder.foldl (applyReorderItem 1) scenarioStore) ∧
    requireRole ["teacher", "admin"] (some adminUser) = none ∧
    requireRole ["admin", "teacher"] (some adminUser) = none := by
  decide

/-- C16, the code at the failing input: in the scenario the student has completed lecture L1
and has not submitted grand quiz Q1, which is ordered between L1 and L2.  The course endpoint
reports L2 locked; the lecture endpoint looks at the lecture before L2, which is L1, and serves
L2 with status 200. -/
theorem lecture_endpoint_ignores_grand_items :
    enrolled scenarioStore studentUser.id 1 = true ∧
    (getCourse scenarioStore (some studentUser) 1).1 = ⟨200, .course scenarioPayload⟩ ∧
    scenarioPayload.allContent[2]? = some scenarioL2 ∧
    scenarioL2.type = .lecture ∧ scenarioL2.id = 2 ∧
    scenarioL2.is_locked = some true ∧
    (getLecture scenarioStore (some studentUser) 2).1 =
      ⟨200, .lecture ⟨exampleLecture 2 1 2 12, 1, .str "Course", 1⟩⟩ := by
  decide


theorem ownsCourse_eq_false (s : Store) (courseId userId : Nat)
    (h : ∀ c ∈ s.courses, c.id = courseId → c.teacher_id ≠ userId) :
    ownsCourse s courseId userId = false := by
  unfold ownsCourse
  rw [List.any_eq_false]
  intro c hc
  simpa using h c hc

theorem ownsLecture_eq_false (s : Store) (lectureId userId : Nat)
    (h : ∀ l ∈ s.lectures, l.id = lectureId → ∀ c ∈ s.courses, c.id = l.course_id →
      c.teacher_id ≠ userId) :
    ownsLecture s lectureId userId = false := by
  unfold ownsLecture
  rw [List.any_eq_false]
  intro l hl
  simp only [Bool.and_eq_true, beq_iff_eq, List.any_eq_true, not_and, not_exists]
  intro hid c hc hcl
  exact h l hl hid c hc hcl

theorem ownsGrandQuiz_eq_false (s : Store) (quizId userId : Nat)
    (h : ∀ q ∈ s.grand_quizzes, q.id = quizId → ∀ c ∈ s.courses, c.id = q.course_id →
      c.teacher_id ≠ userId) :
    ownsGrandQuiz s quizId userId = false := by
  unfold ownsGrandQuiz
  rw [List.any_eq_false]
  intro q hq
  simp only [Bool.and_eq_true, beq_iff_eq, List.any_eq_true, not_and, not_exists]
  intro hid c hc hcl
  exact h q hq hid c hc hcl

/-- Counterexample to C14 as stated: a teacher who does not own course 1 sends an update of
the course that names no field and is answered 400, not Forbidden; the same teacher uploads a
grand-assignment file for course 1 and is answered 200. -/
theorem non_owner_not_always_forbidden_counterexample :
    otherTeacher.role = "teacher" ∧
    (twoTeacherStore.courses.map fun c => (c.id, c.teacher_id)) = [(1, 1)] ∧
    updateCourse exampleToNumber twoTeacherStore (some otherTeacher) 1 emptyCourseUpdate =
      (⟨400, .error "Nothing to update"⟩, twoTeacherStore) ∧
    uploadGrandAssignment twoTeacherStore (some otherTeacher) 1 (some exampleFile) =
      (⟨200, .okFile "/media/1700000000000-answer.pdf"⟩, twoTeacherStore) := by
  decide


/-- C14, amended: on the mutation routes that test ownership (update course; upload lecture,
with or without resource; update and delete lecture; create lecture quiz and lecture
assignment; create and delete grand quiz; create grand assignment; reorder content) a teacher
who does not own the course concerned never changes a row, and is answered Forbidden whenever
the request passes the required-field checks that the handler makes first. -/
theorem non_owner_teacher_forbidden (s : Store) (user : SessionUser)
    (courseId lectureId quizId now : Nat) (toNumber : JsValue → JsValue)
    (stringify : JsValue → String) (fails : Nat → Bool) (cascade : Nat → Store → Store)
    (errorMessage : String) (uploadError : Option String)
    (courseUpdate : CourseUpdateBody) (lectureUpload : LectureUploadBody)
    (video resource : Option StoredFile) (lectureUpdate : LectureUpdateBody)
    (lectureQuiz : LectureQuizBody) (lectureAssignment : LectureAssignmentBody)
    (grandQuiz : GrandQuizBody) (grandAssignment : GrandAssignmentBody)
    (items : Option (List ReorderItem))
    (hrole : user.role = "teacher")
    (hcourse : ∀ c ∈ s.courses, c.id = courseId → c.teacher_id ≠ user.id)
    (hupload : lectureUpload.course_id = none ∨ lectureUpload.course_id = some courseId)
    (hlecture : ∀ l ∈ s.lectures, l.id = lectureId → ∀ c ∈ s.courses, c.id = l.course_id →
      c.teacher_id ≠ user.id)
    (hquiz : ∀ q ∈ s.grand_quizzes, q.id = quizId → ∀ c ∈ s.courses, c.id = q.course_id →
      c.teacher_id ≠ user.id) :
    ((updateCourse toNumber s (some user) courseId courseUpdate).2 = s ∧
      ((courseUpdate.title.truthy = true ∨ courseUpdate.description ≠ .undefined ∨
          courseUpdate.projected_hours ≠ .undefined ∨
          courseUpdate.total_lectures ≠ .undefined ∨ courseUpdate.price ≠ .undefined ∨
          courseUpdate.payment_type ≠ .undefined ∨
          courseUpdate.monthly_payment_month ≠ .undefined ∨
          courseUpdate.is_free ≠ .undefined) →
        (updateCourse toNumber s (some user) courseId courseUpdate).1 =
          ⟨403, .error "Forbidden"⟩)) ∧
    ((uploadLecture now s (some user) lectureUpload video).2 = s ∧
      (lectureUpload.course_id = some courseId → lectureUpload.title.truthy = true →
        video.isSome = true →
        (uploadLecture now s (some user) lectureUpload video).1 =
          ⟨403, .error "Forbidden"⟩)) ∧
    ((uploadLectureWithResource now fails s (some user) uploadError lectureUpload video
        resource).2 = s ∧
      (uploadError = none → lectureUpload.course_id = some courseId →
        lectureUpload.title.truthy = true → video.isSome = true →
        (uploadLectureWithResource now fails s (some user) uploadError lectureUpload video
          resource).1 = ⟨403, .error "Forbidden"⟩)) ∧
    ((updateLecture s (some user) lectureId lectureUpdate).2 = s ∧
      ((lectureUpdate.title.truthy = true ∨ lectureUpdate.description.truthy = true ∨
          lectureUpdate.lecture_date.truthy = true) →
        (updateLecture s (some user) lectureId lectureUpdate).1 =
          ⟨403, .error "Forbidden"⟩)) ∧
    deleteLecture cascade s (some user) lectureId = (⟨403, .error "Forbidden"⟩, s) ∧
    ((createLectureQuiz s (some user) lectureId lectureQuiz).2 = s ∧
      (lectureQuiz.title.truthy = true → lectureQuiz.content_json.truthy = true →
        (createLectureQuiz s (some user) lectureId lectureQuiz).1 =
          ⟨403, .error "Forbidden"⟩)) ∧
    ((createLectureAssignment errorMessage s (some user) lectureId lectureAssignment).2 = s ∧
      (lectureAssignment.title.truthy = true →
        (createLectureAssignment errorMessage s (some user) lectureId lectureAssignment).1 =
          ⟨403, .error "Forbidden"⟩)) ∧
    ((createGrandQuiz stringify now s (some user) courseId grandQuiz).2 = s ∧
      (grandQuiz.title.truthy = true → grandQuiz.questions.isNonEmptyArray = true →
        (createGrandQuiz stringify now s (some user) courseId grandQuiz).1 =
          ⟨403, .error "Forbidden"⟩)) ∧
    deleteGrandQuiz s (some user) quizId = (⟨403, .error "Forbidden"⟩, s) ∧
    ((createGrandAssignment now s (some user) courseId grandAssignment).2 = s ∧
      (grandAssignment.title.truthy = true →
        (createGrandAssignment now s (some user) courseId grandAssignment).1 =
          ⟨403, .error "Forbidden"⟩)) ∧
    ((reorderContent fails s (some user) courseId items).2 = s ∧
      (∀ item rest, items = some (item :: rest) →
        (reorderContent fails s (some user) courseId items).1 =
          ⟨403, .error "Forbidden"⟩)) := by
  have hc := ownsCourse_eq_false s courseId user.id hcourse
  have hl := ownsLecture_eq_false s lectureId user.id hlecture
  have hq := ownsGrandQuiz_eq_false s quizId user.id hquiz
  have hg₁ : requireRole ["teacher", "admin"] (some user) = none := by
    simp [requireRole, hrole]
  have hg₂ : requireRole ["admin", "teacher"] (some user) = none := by
    simp [requireRole, hrole]
  have hg₃ : requireRole ["teacher"] (some user) = none := by
    simp [requireRole, hrole]
  refine ⟨?_, ?_, ?_, ?_, ?_, ?_, ?_, ?_, ?_, ?_, ?_⟩
  · simp only [updateCourse, guarded, hg₁, updateCourseHandler, hrole, hc, and_self, if_true]
    constructor
    · split <;> rfl
    · intro hv
      rw [if_neg (not_not.2 hv)]
  · simp only [uploadLecture, guarded, hg₁, uploadLectureHandler]
    constructor
    · rcases hupload with h | h
      · simp [h]
      · simp only [h, hrole, hc, and_self, if_true]
        split
        · rfl
        · cases video <;> rfl
    · intro h ht hv
      obtain ⟨f, rfl⟩ := Option.isSome_iff_exists.1 hv
      simp [h, ht, hrole, hc]
  · simp only [uploadLectureWithResource, guarded, hg₁, uploadLectureWithResourceHandler]
    constructor
    · cases uploadError with
      | some m => rfl
      | none =>
        rcases hupload with h | h
        · simp [h]
        · simp only [h, hrole, hc, and_self, if_true]
          split
          · rfl
          · cases video <;> rfl
    · intro he h ht hv
      obtain ⟨f, rfl⟩ := Option.isSome_iff_exists.1 hv
      simp [he, h, ht, hrole, hc]
  · simp only [updateLecture, guarded, hg₁, updateLectureHandler, hrole, hl, and_self, if_true]
    constructor
    · split <;> rfl
    · intro hv
      rw [if_neg]
      rintro ⟨h₁, h₂, h₃⟩
      rcases hv with h | h | h
      · rw [h₁] at h; cases h
      · rw [h₂] at h; cases h
      · rw [h₃] at h; cases h
  · simp [deleteLecture, guarded, hg₁, deleteLectureHandler, hrole, hl]
  · simp only [createLectureQuiz, guarded, hg₂, createLectureQuizHandler, hrole, hl, and_self,
      if_true]
    constructor
    · split <;> rfl
    · intro h₁ h₂
      simp [h₁, h₂]
  · simp only [createLectureAssignment, guarded, hg₂, createLectureAssignmentHandler, hrole, hl,
      and_self, if_true]
    constructor
    · split <;> rfl
    · intro h₁
      simp [h₁]
  · simp only [createGrandQuiz, guarded, hg₁, createGrandQuizHandler, hrole, hc, and_self,
      if_true]
    constructor
    · split <;> rfl
    · intro h₁ h₂
      simp [h₁, h₂]
  · simp [deleteGrandQuiz, guarded, hg₁, deleteGrandQuizHandler, hrole, hq]
  · simp only [createGrandAssignment, guarded, hg₁, createGrandAssignmentHandler, hrole, hc,
      and_self, if_true]
    constructor
    · split <;> rfl
    · intro h₁
      simp [h₁]
  · simp only [reorderContent, guarded, hg₃, reorderContentHandler]
    constructor
    · rcases items with _ | _ | ⟨item, rest⟩
      · rfl
      · rfl
      · simp [hrole, hc]
    · intro item rest he
      subst he
      simp [hrole, hc]


/-- Witness for the amended C14: the second teacher, who does not own course 1, tries to retitle
the course and to delete its lecture 1; both requests are answered Forbidden and the store is
the one of before. -/
theorem non_owner_teacher_forbidden_witness :
    otherTeacher.role = "teacher" ∧
    (∀ c ∈ twoTeacherStore.courses, c.id = 1 → c.teacher_id ≠ otherTeacher.id) ∧
    (∀ l ∈ twoTeacherStore.lectures, l.id = 1 → ∀ c ∈ twoTeacherStore.courses,
      c.id = l.course_id → c.teacher_id ≠ otherTeacher.id) ∧
    (∀ q ∈ twoTeacherStore.grand_quizzes, q.id = 1 → ∀ c ∈ twoTeacherStore.courses,
      c.id = q.course_id → c.teacher_id ≠ otherTeacher.id) ∧
    (updateCourse exampleToNumber twoTeacherStore (some otherTeacher) 1 titleCourseUpdate).2 =
      twoTeacherStore ∧
    (updateCourse exampleToNumber twoTeacherStore (some otherTeacher) 1 titleCourseUpdate).1 =
      ⟨403, .error "Forbidden"⟩ ∧
    deleteLecture (fun _ store => store) twoTeacherStore (some otherTeacher) 1 =
      (⟨403, .error "Forbidden"⟩, twoTeacherStore) :=
  have hc : ∀ c ∈ twoTeacherStore.courses, c.id = 1 → c.teacher_id ≠ otherTeacher.id := by
    decide
  have hl : ∀ l ∈ twoTeacherStore.lectures, l.id = 1 → ∀ c ∈ twoTeacherStore.courses,
      c.id = l.course_id → c.teacher_id ≠ otherTeacher.id := by decide
  have hq : ∀ q ∈ twoTeacherStore.grand_quizzes, q.id = 1 → ∀ c ∈ twoTeacherStore.courses,
      c.id = q.course_id → c.teacher_id ≠ otherTeacher.id := by decide
  have h := non_owner_teacher_forbidden twoTeacherStore otherTeacher 1 1 1 100 exampleToNumber
    exampleStringify (fun _ => false) (fun _ store => store) "constraint failed" none
    titleCourseUpdate ⟨some 1, .str "Intro", .undefined, none, .undefined, .undefined⟩
    (some exampleFile) none ⟨.str "Intro", .undefined, .undefined⟩
    ⟨.str "Quiz", .str "[]"⟩ ⟨.str "Homework", .undefined, .undefined⟩
    ⟨.str "Final", .undefined, .arr 1 "[0]", none⟩ ⟨.str "Project", .undefined, .undefined, none⟩
    (some exampleReorder) rfl hc (Or.inr rfl) hl hq
  ⟨rfl, hc, hl, hq, h.1.1, h.1.2 (Or.inl (by decide)), h.2.2.2.2.1⟩


theorem char_toLower_toLower (c : Char) : c.toLower.toLower = c.toLower := by
  by_cases h : c.toNat ≥ 65 ∧ c.toNat ≤ 90
  · have hc : c = Char.ofNat c.toNat := (Char.ofNat_toNat c).symm
    obtain ⟨h₁, h₂⟩ := h
    generalize c.toNat = n at hc h₁ h₂
    subst hc
    interval_cases n <;> rfl
  · have : c.toLower = c := by
      unfold Char.toLower
      simp only [h, if_false]
    rw [this, this]

theorem asciiLower_idempotent (text : String) :
    asciiLower (asciiLower text) = asciiLower text := by
  unfold asciiLower
  simp only [List.map_map]
  congr 1
  apply List.map_congr_left
  intro c _
  exact char_toLower_toLower c

/-- C17: the answer of POST /api/register, the store it leaves and the session it leaves are
the same whatever the client puts in `role`; a request either adds no user, or adds exactly one
user row whose role is 'student' and stores that user with role 'student' in the session. -/
theorem register_role_is_student (toLowerCase : String → String) (hash : String → String)
    (s : Store) (session : Option SessionUser) (body : AccountBody) (role : JsValue) :
    register toLowerCase hash s session { body with role := role } =
      register toLowerCase hash s session body ∧
    ((register toLowerCase hash s session body).2.1 = s ∨
      ∃ row, (register toLowerCase hash s session body).2.1 =
          { s with users := s.users ++ [row] } ∧
        row.role = "student" ∧
        (register toLowerCase hash s session body).1 = ⟨200, .ok⟩ ∧
        (register toLowerCase hash s session body).2.2 =
          some ⟨row.id, row.name, row.email, "student"⟩) := by
  constructor
  · rfl
  · unfold register
    split
    · exact Or.inl rfl
    · split
      · exact Or.inl rfl
      · exact Or.inr ⟨_, rfl, rfl, rfl, rfl⟩

theorem emailRegistered_eq_true (s : Store) (email : String)
    (h : ∃ u ∈ s.users, u.email = email) : emailRegistered s email = true := by
  unfold emailRegistered
  rw [List.any_eq_true]
  obtain ⟨u, hu, he⟩ := h
  exact ⟨u, hu, by simpa using he⟩

theorem not_mem_emails_of_not_registered (s : Store) (email : String)
    (h : ¬ emailRegistered s email = true) : email ∉ s.users.map fun u => u.email := by
  intro hm
  obtain ⟨u, hu, he⟩ := List.mem_map.1 hm
  exact h (emailRegistered_eq_true s email ⟨u, hu, he⟩)

/-- One account request keeps the stored emails lower-case and pairwise different. -/
theorem stepAccountRequest_invariant (toLowerCase : String → String)
    (hidem : ∀ t, toLowerCase (toLowerCase t) = toLowerCase t) (hash : String → String)
    (s : Store) (request : AccountRequest)
    (hlower : ∀ u ∈ s.users, toLowerCase u.email = u.email)
    (hnodup : (s.users.map fun u => u.email).Nodup) :
    (∀ u ∈ (stepAccountRequest toLowerCase hash s request).users,
      toLowerCase u.email = u.email) ∧
    ((stepAccountRequest toLowerCase hash s request).users.map fun u => u.email).Nodup := by
  have hadd : ∀ (name password role : String) (id : Nat) (email : String),
      ¬ emailRegistered s (toLowerCase email) = true →
      (∀ u ∈ s.users ++ [UserRow.mk id name (toLowerCase email) password role],
        toLowerCase u.email = u.email) ∧
      ((s.users ++ [UserRow.mk id name (toLowerCase email) password role]).map
        fun u => u.email).Nodup := by
    intro name password role id email hreg
    constructor
    · intro u hu
      rcases List.mem_append.1 hu with h | h
      · exact hlower u h
      · rw [List.mem_singleton] at h
        subst h
        exact hidem email
    · rw [List.map_append, List.nodup_append]
      refine ⟨hnodup, by simp, ?_⟩
      intro e he₁ he₂
      simp only [List.map_cons, List.map_nil, List.mem_singleton] at he₂
      subst he₂
      exact not_mem_emails_of_not_registered s _ hreg he₁
  cases request with
  | register session body =>
    simp only [stepAccountRequest, register]
    split
    · exact ⟨hlower, hnodup⟩
    · split
      · exact ⟨hlower, hnodup⟩
      · rename_i hreg
        exact hadd _ _ _ _ _ hreg
  | teacher session body =>
    simp only [stepAccountRequest, createTeacher, guarded]
    split
    · exact ⟨hlower, hnodup⟩
    · simp only [createTeacherHandler]
      split
      · exact ⟨hlower, hnodup⟩
      · split
        · exact ⟨hlower, hnodup⟩
        · rename_i hreg
          exact hadd _ _ _ _ _ hreg


theorem runAccountRequests_invariant (toLowerCase : String → String)
    (hidem : ∀ t, toLowerCase (toLowerCase t) = toLowerCase t) (hash : String → String) :
    ∀ (requests : List AccountRequest) (s : Store),
      (∀ u ∈ s.users, toLowerCase u.email = u.email) →
      (s.users.map fun u => u.email).Nodup →
      (∀ u ∈ (runAccountRequests toLowerCase hash s requests).users,
        toLowerCase u.email = u.email) ∧
      ((runAccountRequests toLowerCase hash s requests).users.map fun u => u.email).Nodup
  | [], _, hlower, hnodup => ⟨hlower, hnodup⟩
  | request :: rest, s, hlower, hnodup => by
    obtain ⟨h₁, h₂⟩ := stepAccountRequest_invariant toLowerCase hidem hash s request hlower hnodup
    exact runAccountRequests_invariant toLowerCase hidem hash rest _ h₁ h₂

/-- Counterexample to C18 as stated: the only user of the store has the email
'Ada@Example.com', so no two users share a lower-cased email; a registration with
'ada@example.com' finds no row with that exact text, is answered 200 and adds a second user
with the same lower-cased email, while the first stored email is still not lower-case. -/
theorem mixed_case_store_counterexample :
    (mixedCaseStore.users.map fun u => asciiLower u.email).Nodup ∧
    (register asciiLower exampleHash mixedCaseStore none sameAddressBody).1 = ⟨200, .ok⟩ ∧
    ((register asciiLower exampleHash mixedCaseStore none sameAddressBody).2.1.users.map
      fun u => asciiLower u.email) = ["ada@example.com", "ada@example.com"] ∧
    ((register asciiLower exampleHash mixedCaseStore none sameAddressBody).2.1.users.map
      fun u => u.email) = ["Ada@Example.com", "ada@example.com"] := by
  decide

/-- C18, amended: starting from a store in which every stored email is lower-case and no two
users have the same email, after any sequence of POST /api/register and POST /api/teachers
requests every stored email is lower-case and no two users share a lower-cased email; in such
a store a complete request whose email equals a stored one ignoring case is answered 409 and
leaves the store and the session as they were. -/
theorem emails_stay_unique (toLowerCase : String → String)
    (hidem : ∀ t, toLowerCase (toLowerCase t) = toLowerCase t) (hash : String → String)
    (s : Store) (requests : List AccountRequest)
    (hlower : ∀ u ∈ s.users, toLowerCase u.email = u.email)
    (hnodup : (s.users.map fun u => u.email).Nodup) :
    (∀ u ∈ (runAccountRequests toLowerCase hash s requests).users,
      toLowerCase u.email = u.email) ∧
    ((runAccountRequests toLowerCase hash s requests).users.map
      fun u => toLowerCase u.email).Nodup ∧
    (∀ (session : Option SessionUser) (body : AccountBody),
      body.name ≠ "" → body.email ≠ "" → body.password ≠ "" →
      (∃ u ∈ s.users, toLowerCase u.email = toLowerCase body.email) →
      register toLowerCase hash s session body =
        (⟨409, .error "Email already registered"⟩, s, session) ∧
      (∀ admin : SessionUser, admin.role = "admin" →
        createTeacher toLowerCase hash s (some admin) body =
          (⟨409, .error "Email already registered"⟩, s))) := by
  obtain ⟨h₁, h₂⟩ := runAccountRequests_invariant toLowerCase hidem hash requests s hlower hnodup
  refine ⟨h₁, ?_, ?_⟩
  · have hmap : ((runAccountRequests toLowerCase hash s requests).users.map
        fun u => toLowerCase u.email) =
        (runAccountRequests toLowerCase hash s requests).users.map fun u => u.email :=
      List.map_congr_left h₁
    rw [hmap]
    exact h₂
  · intro session body hn he hp hex
    obtain ⟨u, hu, hue⟩ := hex
    have hreg : emailRegistered s (toLowerCase body.email) = true :=
      emailRegistered_eq_true s _ ⟨u, hu, by rw [← hue, hlower u hu]⟩
    constructor
    · simp [register, hn, he, hp, hreg]
    · intro admin hadmin
      simp [createTeacher, guarded, requireRole, hadmin, createTeacherHandler, hn, he, hp, hreg]

/-- Witness for the amended C18 on the scenario store, whose three emails are lower-case: a
registration with a fresh address followed by one with the admin's address in capitals leaves
four users, and the second is answered 409. -/
theorem emails_stay_unique_witness :
    (∀ t, asciiLower (asciiLower t) = asciiLower t) ∧
    (∀ u ∈ scenarioStore.users, asciiLower u.email = u.email) ∧
    (scenarioStore.users.map fun u => u.email).Nodup ∧
    ((runAccountRequests asciiLower exampleHash scenarioStore
      [.register none freshAddressBody, .register none capitalAddressBody]).users.map
        fun u => asciiLower u.email).Nodup ∧
    register asciiLower exampleHash scenarioStore none capitalAddressBody =
      (⟨409, .error "Email already registered"⟩, scenarioStore, none) :=
  have hl : ∀ u ∈ scenarioStore.users, asciiLower u.email = u.email := by decide
  have hn : (scenarioStore.users.map fun u => u.email).Nodup := by decide
  have h := emails_stay_unique asciiLower asciiLower_idempotent exampleHash scenarioStore
    [.register none freshAddressBody, .register none capitalAddressBody] hl hn
  ⟨asciiLower_idempotent, hl, hn, h.2.1,
    (h.2.2 none capitalAddressBody (by decide) (by decide) (by decide)
      ⟨adminRow, by decide, by decide⟩).1⟩


theorem insertCourse_some (s s' : Store) (row : CourseRow) (id : Nat)
    (h : insertCourse s row = some (id, s')) :
    s'.users = s.users ∧ s'.courses = s.courses ++ [{ row with id := id }] ∧
      ∃ u ∈ s.users, u.id = row.teacher_id := by
  unfold insertCourse at h
  split at h
  · rename_i hfk
    simp only [Option.some.injEq, Prod.mk.injEq] at h
    obtain ⟨rfl, rfl⟩ := h
    refine ⟨rfl, rfl, ?_⟩
    rw [List.any_eq_true] at hfk
    obtain ⟨u, hu, he⟩ := hfk
    exact ⟨u, hu, by simpa using he⟩
  · cases h

/-- One course-creation request leaves the users alone and adds at most course rows whose
teacher_id is the one computed from the session user and the body. -/
theorem stepCourseRequest_courses (toNumber : JsValue → JsValue) (now : Nat) (s : Store)
    (request : CourseRequest) :
    (stepCourseRequest toNumber now s request).users = s.users ∧
    ∀ c ∈ (stepCourseRequest toNumber now s request).courses,
      c ∈ s.courses ∨ ∃ user, request.session = some user ∧
        (user.role = "teacher" ∨ user.role = "admin") ∧
        c.teacher_id = courseTeacherId user request.body := by
  have hgate : ∀ session : Option SessionUser,
      requireRole ["teacher", "admin"] session = none →
      ∃ user, session = some user ∧ (user.role = "teacher" ∨ user.role = "admin") := by
    intro session h
    cases session with
    | none => simp [requireRole] at h
    | some user =>
      refine ⟨user, rfl, ?_⟩
      by_contra hr
      simp only [not_or] at hr
      simp [requireRole, hr.1, hr.2] at h
  have hkeep : s.users = s.users ∧ ∀ c ∈ s.courses,
      c ∈ s.courses ∨ ∃ user, request.session = some user ∧
        (user.role = "teacher" ∨ user.role = "admin") ∧
        c.teacher_id = courseTeacherId user request.body :=
    ⟨rfl, fun c hc => Or.inl hc⟩
  have hins : ∀ (user : SessionUser) (row : CourseRow) (id : Nat) (s' : Store),
      request.session = some user → (user.role = "teacher" ∨ user.role = "admin") →
      row.teacher_id = courseTeacherId user request.body →
      insertCourse s row = some (id, s') →
      s'.users = s.users ∧ ∀ c ∈ s'.courses,
        c ∈ s.courses ∨ ∃ user, request.session = some user ∧
          (user.role = "teacher" ∨ user.role = "admin") ∧
          c.teacher_id = courseTeacherId user request.body := by
    intro user row id s' hs hr ht hi
    obtain ⟨hu, hc, -⟩ := insertCourse_some s s' row id hi
    refine ⟨hu, fun c hcm => ?_⟩
    rw [hc, List.mem_append, List.mem_singleton] at hcm
    rcases hcm with h | h
    · exact Or.inl h
    · exact Or.inr ⟨user, hs, hr, by rw [h]; exact ht⟩
  cases request with
  | create session body =>
    simp only [stepCourseRequest, createCourse, guarded]
    cases hg : requireRole ["teacher", "admin"] session with
    | some r => exact hkeep
    | none =>
      obtain ⟨user, rfl, hr⟩ := hgate session hg
      simp only [createCourseHandler]
      split
      · exact hkeep
      · split
        · rename_i id s' hi
          exact hins user _ id s' rfl hr rfl hi
        · exact hkeep
  | basic session body =>
    simp only [stepCourseRequest, createCourseBasic, guarded]
    cases hg : requireRole ["teacher", "admin"] session with
    | some r => exact hkeep
    | none =>
      obtain ⟨user, rfl, hr⟩ := hgate session hg
      simp only [createCourseBasicHandler]
      split
      · exact hkeep
      · split
        · rename_i id s' hi
          exact hins user _ id s' rfl hr rfl hi
        · exact hkeep
  | upload session body file lectureInsertFails =>
    simp only [stepCourseRequest, createCourseUpload, guarded]
    cases hg : requireRole ["teacher", "admin"] session with
    | some r => exact hkeep
    | none =>
      obtain ⟨user, rfl, hr⟩ := hgate session hg
      simp only [createCourseUploadHandler]
      split
      · exact hkeep
      · cases file with
        | none => exact hkeep
        | some f =>
          simp only
          split
          · exact hkeep
          · rename_i id s' hi
            have h := hins user _ id s' rfl hr rfl hi
            split
            · exact h
            · exact h


theorem runCourseRequests_teachers (toNumber : JsValue → JsValue) (now : Nat) :
    ∀ (requests : List CourseRequest) (s : Store),
      (∀ c ∈ s.courses, ∃ u ∈ s.users, u.id = c.teacher_id ∧ u.role = "teacher") →
      (∀ r ∈ requests, ∀ user, r.session = some user →
        user.role = "teacher" ∧ ∃ u ∈ s.users, u.id = user.id ∧ u.role = "teacher") →
      (runCourseRequests toNumber now s requests).users = s.users ∧
      ∀ c ∈ (runCourseRequests toNumber now s requests).courses,
        ∃ u ∈ s.users, u.id = c.teacher_id ∧ u.role = "teacher"
  | [], _, hinv, _ => ⟨rfl, hinv⟩
  | r :: rest, s, hinv, hreq => by
    obtain ⟨hu, hc⟩ := stepCourseRequest_courses toNumber now s r
    have hinv' : ∀ c ∈ (stepCourseRequest toNumber now s r).courses,
        ∃ u ∈ (stepCourseRequest toNumber now s r).users,
          u.id = c.teacher_id ∧ u.role = "teacher" := by
      intro c hcm
      rw [hu]
      rcases hc c hcm with h | ⟨user, hs, -, ht⟩
      · exact hinv c h
      · obtain ⟨hrole, u, hum, hid, hur⟩ := hreq r (List.mem_cons_self _ _) user hs
        refine ⟨u, hum, ?_, hur⟩
        rw [ht, courseTeacherId, if_pos hrole, hid]
    have hreq' : ∀ r' ∈ rest, ∀ user, r'.session = some user →
        user.role = "teacher" ∧ ∃ u ∈ (stepCourseRequest toNumber now s r).users,
          u.id = user.id ∧ u.role = "teacher" := by
      intro r' hr' user hs
      rw [hu]
      exact hreq r' (List.mem_cons_of_mem _ hr') user hs
    obtain ⟨h₁, h₂⟩ := runCourseRequests_teachers toNumber now rest _ hinv' hreq'
    refine ⟨h₁.trans hu, fun c hcm => ?_⟩
    have := h₂ c hcm
    rwa [hu] at this

/-- Counterexample to C19 as stated: course 1 of the scenario is owned by a teacher; the admin
creates a course without naming a teacher_id, the request is answered 200, and the new course
has the admin's id 3 as teacher_id, the id of a user whose role is 'admin'. -/
theorem admin_owned_course_counterexample :
    (scenarioStore.courses.map fun c => (c.id, c.teacher_id)) = [(1, 1)] ∧
    (scenarioStore.users.map fun u => (u.id, u.role)) =
      [(1, "teacher"), (2, "student"), (3, "admin")] ∧
    (createCourse exampleToNumber 100 scenarioStore (some adminUser) titleOnlyCourse).1 =
      ⟨200, .okId 2⟩ ∧
    ((runCourseRequests exampleToNumber 100 scenarioStore
      [.create (some adminUser) titleOnlyCourse]).courses.map
        fun c => (c.id, c.teacher_id)) = [(1, 1), (2, 3)] ∧
    ((runCourseRequests exampleToNumber 100 scenarioStore
      [.create (some adminUser) titleOnlyCourse]).users.map fun u => (u.id, u.role)) =
      [(1, "teacher"), (2, "student"), (3, "admin")] := by
  decide

/-- C19, amended: when every course is owned by a user whose role is 'teacher', it is still so
after any sequence of course-creation requests (POST /api/courses, /api/courses/basic,
/api/courses/upload) whose requesters are teachers with a user row of role 'teacher'; a course
created by an admin is owned by the user named in the body's teacher_id or, when the body names
none, by the admin. -/
theorem courses_owned_after_creation (toNumber : JsValue → JsValue) (now : Nat) (s : Store)
    (requests : List CourseRequest)
    (hinv : ∀ c ∈ s.courses, ∃ u ∈ s.users, u.id = c.teacher_id ∧ u.role = "teacher")
    (hreq : ∀ r ∈ requests, ∀ user, r.session = some user →
      user.role = "teacher" ∧ ∃ u ∈ s.users, u.id = user.id ∧ u.role = "teacher") :
    (∀ c ∈ (runCourseRequests toNumber now s requests).courses,
      ∃ u ∈ (runCourseRequests toNumber now s requests).users,
        u.id = c.teacher_id ∧ u.role = "teacher") ∧
    (∀ (r : CourseRequest) (admin : SessionUser), r.session = some admin →
      admin.role = "admin" →
      ∀ c ∈ (stepCourseRequest toNumber now s r).courses,
        c ∈ s.courses ∨ c.teacher_id = r.body.teacher_id.getD admin.id) := by
  obtain ⟨hu, hc⟩ := runCourseRequests_teachers toNumber now requests s hinv hreq
  constructor
  · intro c hcm
    rw [hu]
    exact hc c hcm
  · intro r admin hs hrole c hcm
    rcases (stepCourseRequest_courses toNumber now s r).2 c hcm with h | ⟨user, hs', -, ht⟩
    · exact Or.inl h
    · rw [hs] at hs'
      cases hs'
      right
      rw [ht, courseTeacherId, if_neg (by rw [hrole]; decide)]

/-- Witness for the amended C19: the teacher of the scenario creates two courses, one through
each JSON route, and then owns all three courses. -/
theorem courses_owned_after_creation_witness :
    (∀ c ∈ scenarioStore.courses,
      ∃ u ∈ scenarioStore.users, u.id = c.teacher_id ∧ u.role = "teacher") ∧
    ((runCourseRequests exampleToNumber 100 scenarioStore
      [.create (some teacherUser) titleOnlyCourse,
        .basic (some teacherUser) titleOnlyCourse]).courses.map
          fun c => (c.id, c.teacher_id)) = [(1, 1), (2, 1), (3, 1)] ∧
    (∃ u ∈ (runCourseRequests exampleToNumber 100 scenarioStore
        [.create (some teacherUser) titleOnlyCourse,
          .basic (some teacherUser) titleOnlyCourse]).users,
      u.id = 1 ∧ u.role = "teacher") :=
  have hinv : ∀ c ∈ scenarioStore.courses,
      ∃ u ∈ scenarioStore.users, u.id = c.teacher_id ∧ u.role = "teacher" := by decide
  have h := courses_owned_after_creation exampleToNumber 100 scenarioStore
    [.create (some teacherUser) titleOnlyCourse, .basic (some teacherUser) titleOnlyCourse]
    hinv (by decide)
  ⟨hinv, by decide,
    h.1 { exampleCourse 3 1 with
          title := .str "Algebra", total_lectures := .num 0, created_at := 100 } (by decide)⟩


theorem digitChar_isDigit (n : Nat) (h : n < 10) :
    '0' ≤ Nat.digitChar n ∧ Nat.digitChar n ≤ '9' := by
  interval_cases n <;> decide

theorem toDigitsCore_digits : ∀ (fuel n : Nat) (ds : List Char),
    (∀ c ∈ ds, '0' ≤ c ∧ c ≤ '9') →
    ∀ c ∈ Nat.toDigitsCore 10 fuel n ds, '0' ≤ c ∧ c ≤ '9'
  | 0, _, ds, h => h
  | fuel + 1, n, ds, h => by
    have hd : ∀ c ∈ Nat.digitChar (n % 10) :: ds, '0' ≤ c ∧ c ≤ '9' := by
      intro c hc
      rcases List.mem_cons.1 hc with rfl | hc
      · exact digitChar_isDigit _ (Nat.mod_lt _ (by decide))
      · exact h c hc
    rw [Nat.toDigitsCore]
    split
    · exact hd
    · exact toDigitsCore_digits fuel _ _ hd

/-- The template of a number is made of decimal digits. -/
theorem toString_digits (n : Nat) : ∀ c ∈ (toString n).data, '0' ≤ c ∧ c ≤ '9' := by
  show ∀ c ∈ (Nat.toDigits 10 n), '0' ≤ c ∧ c ≤ '9'
  exact toDigitsCore_digits _ _ [] (fun c hc => by cases hc)

theorem replaceRuns_kept : ∀ (inRun : Bool) (l : List Char),
    ∀ c ∈ replaceRuns inRun l, keptChar c = true
  | _, [], c, hc => by cases hc
  | inRun, x :: rest, c, hc => by
    rw [replaceRuns] at hc
    split at hc
    · rename_i hx
      rcases List.mem_cons.1 hc with rfl | hc
      · exact hx
      · exact replaceRuns_kept false rest c hc
    · split at hc
      · exact replaceRuns_kept true rest c hc
      · rcases List.mem_cons.1 hc with rfl | hc
        · decide
        · exact replaceRuns_kept true rest c hc

theorem replaceRuns_ne_nil (l : List Char) (h : l ≠ []) : replaceRuns false l ≠ [] := by
  cases l with
  | nil => exact absurd rfl h
  | cons x rest =>
    rw [replaceRuns]
    split
    · simp
    · simp

/-- Inside a run the characters outside the kept set leave nothing. -/
theorem replaceRuns_skip : ∀ (bad rest : List Char), (∀ c ∈ bad, keptChar c = false) →
    replaceRuns true (bad ++ rest) = replaceRuns true rest
  | [], _, _ => rfl
  | x :: bad, rest, h => by
    rw [List.cons_append, replaceRuns, if_neg (by simp [h x (List.mem_cons_self _ _)]),
      if_pos rfl]
    exact replaceRuns_skip bad rest fun c hc => h c (List.mem_cons_of_mem _ hc)

/-- A run of characters outside the kept set, between kept characters, becomes one '-'. -/
theorem replaceRuns_run : ∀ (kept bad rest : List Char), (∀ c ∈ kept, keptChar c = true) →
    bad ≠ [] → (∀ c ∈ bad, keptChar c = false) →
    (rest = [] ∨ ∃ c tail, rest = c :: tail ∧ keptChar c = true) →
    replaceRuns false (kept ++ bad ++ rest) = kept ++ '-' :: replaceRuns false rest
  | x :: kept, bad, rest, hk, hb, hbad, hrest => by
    rw [List.cons_append, List.cons_append, replaceRuns, if_pos (hk x (List.mem_cons_self _ _))]
    rw [replaceRuns_run kept bad rest (fun c hc => hk c (List.mem_cons_of_mem _ hc)) hb hbad
      hrest]
    rfl
  | [], bad, rest, _, hb, hbad, hrest => by
    cases bad with
    | nil => exact absurd rfl hb
    | cons x bad =>
      rw [List.nil_append, List.cons_append, replaceRuns,
        if_neg (by simp [hbad x (List.mem_cons_self _ _)]), if_neg (by simp),
        replaceRuns_skip bad rest fun c hc => hbad c (List.mem_cons_of_mem _ hc)]
      rcases hrest with rfl | ⟨c, tail, rfl, hc⟩
      · rfl
      · rw [replaceRuns, if_pos hc, replaceRuns, if_pos hc, List.nil_append]

theorem keptChar_iff (c : Char) : keptChar c = true ↔
    ('a' ≤ c ∧ c ≤ 'z') ∨ ('0' ≤ c ∧ c ≤ '9') ∨ c = '.' ∨ c = '-' ∨ c = '_' := by
  simp [keptChar, or_assoc]


theorem not_separator_of_kept (c : Char) (h : keptChar c = true) :
    c ≠ '/' ∧ c ≠ Char.ofNat 92 := by
  constructor
  · rintro rfl; revert h; decide
  · rintro rfl; revert h; decide

theorem not_separator_of_digit (c : Char) (h : '0' ≤ c ∧ c ≤ '9') :
    c ≠ '/' ∧ c ≠ Char.ofNat 92 := by
  constructor
  · rintro rfl; revert h; decide
  · rintro rfl; revert h; decide

/-- C20: the stored file name is the decimal digits of `ts`, a '-', and a base that is never
empty and is made only of the characters a-z, 0-9, '.', '-' and '_': the lower-cased original
name, or 'video' when there is none or it is empty, in which every run of other characters
has become one '-'.  No character of the name is a slash or a backslash. -/
theorem stored_filename_shape (toLowerCase : String → String)
    (hne : ∀ t, t ≠ "" → toLowerCase t ≠ "") (ts : Nat) (originalname : Option String) :
    storageFilename toLowerCase ts originalname =
      toString ts ++ "-" ++ sanitizedBase toLowerCase originalname ∧
    (∀ c ∈ (toString ts).data, '0' ≤ c ∧ c ≤ '9') ∧
    sanitizedBase toLowerCase originalname ≠ "" ∧
    (∀ c ∈ (sanitizedBase toLowerCase originalname).data,
      ('a' ≤ c ∧ c ≤ 'z') ∨ ('0' ≤ c ∧ c ≤ '9') ∨ c = '.' ∨ c = '-' ∨ c = '_') ∧
    (∀ c ∈ (storageFilename toLowerCase ts originalname).data,
      c ≠ '/' ∧ c ≠ Char.ofNat 92) ∧
    ((originalname = none ∨ originalname = some "") →
      sanitizedBase toLowerCase originalname =
        String.mk (replaceRuns false (toLowerCase "video").data)) ∧
    (∀ name, originalname = some name → name ≠ "" →
      sanitizedBase toLowerCase originalname =
        String.mk (replaceRuns false (toLowerCase name).data)) ∧
    (∀ name kept bad rest, originalname = some name → name ≠ "" →
      (toLowerCase name).data = kept ++ bad ++ rest →
      (∀ c ∈ kept, keptChar c = true) → bad ≠ [] → (∀ c ∈ bad, keptChar c = false) →
      (rest = [] ∨ ∃ c tail, rest = c :: tail ∧ keptChar c = true) →
      (sanitizedBase toLowerCase originalname).data =
        kept ++ '-' :: replaceRuns false rest) := by
  have hbase : ∃ name, name ≠ "" ∧ sanitizedBase toLowerCase originalname =
      String.mk (replaceRuns false (toLowerCase name).data) := by
    unfold sanitizedBase
    cases originalname with
    | none => exact ⟨"video", by decide, rfl⟩
    | some n =>
      by_cases hn : n = ""
      · exact ⟨"video", by decide, by simp [hn]⟩
      · exact ⟨n, hn, by simp [hn]⟩
  obtain ⟨name, hname, hb⟩ := hbase
  have hkept : ∀ c ∈ (sanitizedBase toLowerCase originalname).data, keptChar c = true := by
    rw [hb]
    exact replaceRuns_kept false _
  have hsome : ∀ n, originalname = some n → n ≠ "" →
      sanitizedBase toLowerCase originalname =
        String.mk (replaceRuns false (toLowerCase n).data) := by
    intro n hn hne'
    subst hn
    simp [sanitizedBase, hne']
  refine ⟨rfl, toString_digits ts, ?_, ?_, ?_, ?_, hsome, ?_⟩
  · rw [hb]
    intro he
    have hdata : (toLowerCase name).data ≠ [] := by
      intro hd
      exact hne name hname (String.ext_iff.2 hd)
    exact replaceRuns_ne_nil _ hdata (congrArg String.data he)
  · intro c hc
    exact (keptChar_iff c).1 (hkept c hc)
  · intro c hc
    unfold storageFilename at hc
    rw [String.data_append, String.data_append, List.mem_append, List.mem_append] at hc
    rcases hc with (hc | hc) | hc
    · exact not_separator_of_digit c (toString_digits ts c hc)
    · have : c = '-' := by simpa using hc
      subst this
      decide
    · exact not_separator_of_kept c (hkept c hc)
  · rintro (h | h) <;> subst h <;> rfl
  · intro n kept bad rest hn hne' hdata hk hbne hbad hrest
    rw [hsome n hn hne']
    show replaceRuns false (toLowerCase n).data = _
    rw [hdata]
    exact replaceRuns_run kept bad rest hk hbne hbad hrest

theorem asciiLower_ne_empty (t : String) (h : t ≠ "") : asciiLower t ≠ "" := by
  intro he
  apply h
  have hd : (asciiLower t).data = [] := congrArg String.data he
  unfold asciiLower at hd
  exact String.ext_iff.2 (List.map_eq_nil_iff.1 hd)

/-- Witness for C20: a name with capitals, blanks, a slash and an accent, uploaded at time
1700000000000. -/
theorem stored_filename_shape_witness :
    (∀ t, t ≠ "" → asciiLower t ≠ "") ∧
    storageFilename asciiLower 1700000000000 (some "My Talk/Part 1 (é).MP4") =
      "1700000000000-my-talk-part-1-.mp4" ∧
    storageFilename asciiLower 1700000000000 (some "") = "1700000000000-video" ∧
    sanitizedBase asciiLower (some "My Talk/Part 1 (é).MP4") ≠ "" :=
  ⟨asciiLower_ne_empty, by decide, by decide,
    (stored_filename_shape asciiLower asciiLower_ne_empty 1700000000000
      (some "My Talk/Part 1 (é).MP4")).2.2.1⟩


theorem mimeStartsWith_iff (start : String) (file : IncomingFile) :
    mimeStartsWith start file = true ↔
      ∃ rest : List Char, (file.mimetype.getD "").data = start.data ++ rest := by
  unfold mimeStartsWith
  rw [List.isPrefixOf_iff_prefix]
  constructor
  · rintro ⟨rest, h⟩
    exact ⟨rest, h.symm⟩
  · rintro ⟨rest, h⟩
    exact ⟨rest, h.symm⟩

/-- C21: the filter of the video uploader passes a file exactly when its MIME type is 'video/'
followed by anything, the filter of the image uploader exactly when it is 'image/' followed by
anything, the resource uploader has no filter and passes every file, and the filter of the
mixed uploader passes a file of the field 'video' exactly when its MIME type starts with
'video/' and every file of another field; a file without MIME type is tested as the empty
string and is turned down by the video filter, by the image filter and by the mixed filter in
the field 'video'. -/
theorem uploaders_filter_by_kind (file : IncomingFile) :
    (upload.filter file = none ↔
      ∃ rest : List Char, (file.mimetype.getD "").data = "video/".data ++ rest) ∧
    (uploadImage.filter file = none ↔
      ∃ rest : List Char, (file.mimetype.getD "").data = "image/".data ++ rest) ∧
    uploadAny.filter file = none ∧
    (file.fieldname = "video" →
      (uploadMixed.filter file = none ↔
        ∃ rest : List Char, (file.mimetype.getD "").data = "video/".data ++ rest)) ∧
    (file.fieldname ≠ "video" → uploadMixed.filter file = none) ∧
    (file.mimetype = none →
      upload.filter file = some "Only video files are allowed" ∧
      uploadImage.filter file = some "Only image files are allowed" ∧
      (file.fieldname = "video" →
        uploadMixed.filter file = some "Only video files are allowed for video field")) := by
  refine ⟨?_, ?_, rfl, ?_, ?_, ?_⟩
  · rw [← mimeStartsWith_iff]
    simp only [Uploader.filter, upload, videoFileFilter]
    split <;> simp_all
  · rw [← mimeStartsWith_iff]
    simp only [Uploader.filter, uploadImage, imageFileFilter]
    split <;> simp_all
  · intro hf
    rw [← mimeStartsWith_iff]
    simp only [Uploader.filter, uploadMixed, mixedFileFilter, hf, if_true]
    split <;> simp_all
  · intro hf
    simp [Uploader.filter, uploadMixed, mixedFileFilter, hf]
  · intro hm
    have hv : mimeStartsWith "video/" file = false := by
      simp only [mimeStartsWith, hm]; decide
    have hi : mimeStartsWith "image/" file = false := by
      simp only [mimeStartsWith, hm]; decide
    refine ⟨?_, ?_, ?_⟩
    · simp [Uploader.filter, upload, videoFileFilter, hv]
    · simp [Uploader.filter, uploadImage, imageFileFilter, hi]
    · intro hf
      simp [Uploader.filter, uploadMixed, mixedFileFilter, hf, hv]

/-- Witness for C21: an MP4 video and a PDF sent in the field 'video', a file without MIME
type sent there, and a ZIP sent in the field 'resource'. -/
theorem uploaders_filter_by_kind_witness :
    upload.filter videoPart = none ∧
    uploadMixed.filter videoPart = none ∧
    uploadMixed.filter { videoPart with mimetype := some "application/pdf" } =
      some "Only video files are allowed for video field" ∧
    uploadMixed.filter { videoPart with mimetype := none } =
      some "Only video files are allowed for video field" ∧
    uploadMixed.filter largeResourcePart = none :=
  ⟨((uploaders_filter_by_kind videoPart).1).2 ⟨"mp4".data, by decide⟩,
    ((uploaders_filter_by_kind videoPart).2.2.2.1 rfl).2 ⟨"mp4".data, by decide⟩,
    by decide,
    ((uploaders_filter_by_kind { videoPart with mimetype := none }).2.2.2.2.2 rfl).2.2 rfl,
    (uploaders_filter_by_kind largeResourcePart).2.2.2.2.1 (by decide)⟩

/-- C22, the code at the failing input: a 300 MB file in the field 'resource' of
POST /api/lectures/upload-with-resource.  The mixed uploader has the single limit of 500 MB, so
the file is stored and the resource row is inserted; the resource uploader, with its limit of
200 MB, turns the same file down in the field 'file'. -/
theorem mixed_uploader_resource_limit :
    largeResourcePart.size = 300 * 1024 * 1024 ∧
    uploadAny.fileSize = 200 * 1024 * 1024 ∧
    uploadMixed.fileSize = 500 * 1024 * 1024 ∧
    uploadAny.receive asciiLower 1700000000000 largeFilePart = .error "File too large" ∧
    (uploadGrandAssignmentPart asciiLower 1700000000000 scenarioStore (some teacherUser) 1
      (some largeFilePart)).1 = ⟨500, .error "File too large"⟩ ∧
    (uploadLectureWithResourceParts asciiLower 1700000000000 100 (fun _ => false) scenarioStore
      (some teacherUser) exampleLectureUpload (some videoPart) (some largeResourcePart)).1 =
      ⟨200, .okVideo 3 "/media/1700000000000-intro.mp4"⟩ ∧
    (uploadLectureWithResourceParts asciiLower 1700000000000 100 (fun _ => false) scenarioStore
      (some teacherUser) exampleLectureUpload (some videoPart)
      (some largeResourcePart)).2.lecture_resources =
      [⟨1, 3, "slides.zip", "/media/1700000000000-slides.zip", .null, 100⟩] := by
  decide


/-- C23, the code at the failing input: the teacher of the scenario creates a course through
POST /api/courses/upload and the insert of its first lecture throws.  No transaction wraps the
two inserts: the answer is 500 and the new course row, id 2, stays in the store without any
lecture.  The same failure of the second insert of POST /api/lectures/upload-with-resource is
rolled back and leaves the store as it was. -/
theorem course_upload_leaves_course_row :
    (createCourseUpload exampleToNumber 100 true scenarioStore (some teacherUser)
      titleOnlyCourse (some storedVideo)).1 = ⟨500, .error "Server error"⟩ ∧
    ((createCourseUpload exampleToNumber 100 true scenarioStore (some teacherUser)
      titleOnlyCourse (some storedVideo)).2.courses.map fun c => (c.id, c.title)) =
      [(1, .str "Course"), (2, .str "Algebra")] ∧
    (createCourseUpload exampleToNumber 100 true scenarioStore (some teacherUser)
      titleOnlyCourse (some storedVideo)).2.lectures = scenarioStore.lectures ∧
    uploadLectureWithResource 100 (fun k => k == 1) scenarioStore (some teacherUser) none
        exampleLectureUpload (some storedVideo) (some storedResource) =
      (⟨500, .error "Database error"⟩, scenarioStore) := by
  decide

/-- Counterexample to C24 as stated: the teacher of the scenario, who passes the role gate,
sends a title to PUT /api/courses/7 and to PUT /api/lectures/9; neither row exists, and both
requests are answered 403 Forbidden, not 404. -/
theorem teacher_missing_row_counterexample :
    requireRole ["teacher", "admin"] (some teacherUser) = none ∧
    (∀ c ∈ scenarioStore.courses, c.id ≠ 7) ∧
    (∀ l ∈ scenarioStore.lectures, l.id ≠ 9) ∧
    updateCourse exampleToNumber scenarioStore (some teacherUser) 7 titleCourseUpdate =
      (⟨403, .error "Forbidden"⟩, scenarioStore) ∧
    updateLecture scenarioStore (some teacherUser) 9 titleLectureUpdate =
      (⟨403, .error "Forbidden"⟩, scenarioStore) := by
  decide

/-- C24, amended: when the course or lecture row named in the path is absent and the body
passes the 'Nothing to update' check, PUT /api/courses/:id and PUT /api/lectures/:id answer
404 to an admin and 403 Forbidden to a teacher, whose ownership test comes first and finds no
owned row; the store is left as it was. -/
theorem update_missing_row (toNumber : JsValue → JsValue) (s : Store) (user : SessionUser)
    (id lectureId : Nat) (courseUpdate : CourseUpdateBody) (lectureUpdate : LectureUpdateBody)
    (hcourse : ∀ c ∈ s.courses, c.id ≠ id)
    (hlecture : ∀ l ∈ s.lectures, l.id ≠ lectureId)
    (hvalid : courseUpdate.title.truthy = true ∨ courseUpdate.description ≠ .undefined ∨
      courseUpdate.projected_hours ≠ .undefined ∨ courseUpdate.total_lectures ≠ .undefined ∨
      courseUpdate.price ≠ .undefined ∨ courseUpdate.payment_type ≠ .undefined ∨
      courseUpdate.monthly_payment_month ≠ .undefined ∨ courseUpdate.is_free ≠ .undefined)
    (hvalid' : lectureUpdate.title.truthy = true ∨ lectureUpdate.description.truthy = true ∨
      lectureUpdate.lecture_date.truthy = true) :
    (user.role = "admin" →
      updateCourse toNumber s (some user) id courseUpdate = (⟨404, .error "Not found"⟩, s) ∧
      updateLecture s (some user) lectureId lectureUpdate =
        (⟨404, .error "Lecture not found"⟩, s)) ∧
    (user.role = "teacher" →
      updateCourse toNumber s (some user) id courseUpdate = (⟨403, .error "Forbidden"⟩, s) ∧
      updateLecture s (some user) lectureId lectureUpdate = (⟨403, .error "Forbidden"⟩, s)) := by
  have hnoCourse : (s.courses.filter fun c => c.id == id) = [] := by
    rw [List.filter_eq_nil_iff]
    intro c hc
    simpa using hcourse c hc
  have hnoLecture : (s.lectures.filter fun l => l.id == lectureId) = [] := by
    rw [List.filter_eq_nil_iff]
    intro l hl
    simpa using hlecture l hl
  have hv' : ¬ (lectureUpdate.title.truthy = false ∧ lectureUpdate.description.truthy = false ∧
      lectureUpdate.lecture_date.truthy = false) := by
    rintro ⟨h₁, h₂, h₃⟩
    rcases hvalid' with h | h | h
    · rw [h₁] at h; cases h
    · rw [h₂] at h; cases h
    · rw [h₃] at h; cases h
  constructor
  · intro hrole
    have hnt : ¬ user.role = "teacher" := by rw [hrole]; decide
    have hg : requireRole ["teacher", "admin"] (some user) = none := by
      simp [requireRole, hrole]
    constructor
    · simp only [updateCourse, guarded, hg, updateCourseHandler, if_neg (not_not.2 hvalid), hnt,
        false_and, if_false, hnoCourse, List.head?_nil]
    · simp only [updateLecture, guarded, hg, updateLectureHandler, if_neg hv', hnt, false_and,
        if_false, hnoLecture, List.head?_nil]
  · intro hrole
    have hg : requireRole ["teacher", "admin"] (some user) = none := by
      simp [requireRole, hrole]
    have hc := ownsCourse_eq_false s id user.id fun c hc hid => absurd hid (hcourse c hc)
    have hl := ownsLecture_eq_false s lectureId user.id
      fun l hl hid => absurd hid (hlecture l hl)
    constructor
    · simp only [updateCourse, guarded, hg, updateCourseHandler, if_neg (not_not.2 hvalid),
        hrole, hc, and_self, if_true]
    · simp only [updateLecture, guarded, hg, updateLectureHandler, if_neg hv', hrole, hl,
        and_self, if_true]

/-- Witness for the amended C24: the admin sends a title to PUT /api/courses/7 and to
PUT /api/lectures/9 on the scenario store and is answered 404 twice. -/
theorem update_missing_row_witness :
    (∀ c ∈ scenarioStore.courses, c.id ≠ 7) ∧
    (∀ l ∈ scenarioStore.lectures, l.id ≠ 9) ∧
    adminUser.role = "admin" ∧
    updateCourse exampleToNumber scenarioStore (some adminUser) 7 titleCourseUpdate =
      (⟨404, .error "Not found"⟩, scenarioStore) ∧
    updateLecture scenarioStore (some adminUser) 9 titleLectureUpdate =
      (⟨404, .error "Lecture not found"⟩, scenarioStore) :=
  have hc : ∀ c ∈ scenarioStore.courses, c.id ≠ 7 := by decide
  have hl : ∀ l ∈ scenarioStore.lectures, l.id ≠ 9 := by decide
  have h := (update_missing_row exampleToNumber scenarioStore adminUser 7 9 titleCourseUpdate
    titleLectureUpdate hc hl (Or.inl (by decide)) (Or.inl (by decide))).1 rfl
  ⟨hc, hl, rfl, h.1, h.2⟩


/-- What the five replacements make of one character. -/
theorem escape_char (x : Char) :
    replaceChar (Char.ofNat 39) "&#039;"
      (replaceChar (Char.ofNat 34) "&quot;"
        (replaceChar '>' "&gt;" (replaceChar '<' "&lt;" (replaceChar '&' "&amp;" [x])))) =
      if x = '&' then "&amp;".data
      else if x = '<' then "&lt;".data
      else if x = '>' then "&gt;".data
      else if x = Char.ofNat 34 then "&quot;".data
      else if x = Char.ofNat 39 then "&#039;".data
      else [x] := by
  by_cases h₁ : x = '&'
  · subst h₁; decide
  · by_cases h₂ : x = '<'
    · subst h₂; decide
    · by_cases h₃ : x = '>'
      · subst h₃; decide
      · by_cases h₄ : x = Char.ofNat 34
        · subst h₄; decide
        · by_cases h₅ : x = Char.ofNat 39
          · subst h₅; decide
          · simp [replaceChar, h₁, h₂, h₃, h₄, h₅]

theorem replaceChar_append (c : Char) (r : String) (a b : List Char) :
    replaceChar c r (a ++ b) = replaceChar c r a ++ replaceChar c r b := by
  simp [replaceChar]

/-- The five replacements in turn rewrite each character on its own. -/
theorem escape_cons (x : Char) (l : List Char) :
    replaceChar (Char.ofNat 39) "&#039;"
      (replaceChar (Char.ofNat 34) "&quot;"
        (replaceChar '>' "&gt;" (replaceChar '<' "&lt;" (replaceChar '&' "&amp;" (x :: l))))) =
      (if x = '&' then "&amp;".data
        else if x = '<' then "&lt;".data
        else if x = '>' then "&gt;".data
        else if x = Char.ofNat 34 then "&quot;".data
        else if x = Char.ofNat 39 then "&#039;".data
        else [x]) ++
      replaceChar (Char.ofNat 39) "&#039;"
        (replaceChar (Char.ofNat 34) "&quot;"
          (replaceChar '>' "&gt;" (replaceChar '<' "&lt;" (replaceChar '&' "&amp;" l)))) := by
  rw [← escape_char x]
  have h : x :: l = [x] ++ l := rfl
  rw [h]
  simp only [replaceChar_append]

theorem escapeHtml_data (s : String) :
    (escapeHtml s).data =
      replaceChar (Char.ofNat 39) "&#039;"
        (replaceChar (Char.ofNat 34) "&quot;"
          (replaceChar '>' "&gt;" (replaceChar '<' "&lt;" (replaceChar '&' "&amp;" s.data)))) := by
  unfold escapeHtml
  split
  · rename_i h
    subst h
    rfl
  · rfl


theorem escaped_chars : ∀ (l : List Char),
    ∀ c ∈ replaceChar (Char.ofNat 39) "&#039;"
      (replaceChar (Char.ofNat 34) "&quot;"
        (replaceChar '>' "&gt;" (replaceChar '<' "&lt;" (replaceChar '&' "&amp;" l)))),
      c ≠ '<' ∧ c ≠ '>' ∧ c ≠ Char.ofNat 34 ∧ c ≠ Char.ofNat 39
  | [], c, hc => by cases hc
  | x :: l, c, hc => by
    rw [escape_cons, List.mem_append] at hc
    rcases hc with hc | hc
    · split at hc
      · have h : ∀ d ∈ "&amp;".data,
            d ≠ '<' ∧ d ≠ '>' ∧ d ≠ Char.ofNat 34 ∧ d ≠ Char.ofNat 39 := by decide
        exact h c hc
      · split at hc
        · have h : ∀ d ∈ "&lt;".data,
              d ≠ '<' ∧ d ≠ '>' ∧ d ≠ Char.ofNat 34 ∧ d ≠ Char.ofNat 39 := by decide
          exact h c hc
        · split at hc
          · have h : ∀ d ∈ "&gt;".data,
                d ≠ '<' ∧ d ≠ '>' ∧ d ≠ Char.ofNat 34 ∧ d ≠ Char.ofNat 39 := by decide
            exact h c hc
          · split at hc
            · have h : ∀ d ∈ "&quot;".data,
                  d ≠ '<' ∧ d ≠ '>' ∧ d ≠ Char.ofNat 34 ∧ d ≠ Char.ofNat 39 := by decide
              exact h c hc
            · split at hc
              · have h : ∀ d ∈ "&#039;".data,
                    d ≠ '<' ∧ d ≠ '>' ∧ d ≠ Char.ofNat 34 ∧ d ≠ Char.ofNat 39 := by decide
                exact h c hc
              · rename_i h₁ h₂ h₃ h₄ h₅
                rw [List.mem_singleton] at hc
                subst hc
                exact ⟨h₂, h₃, h₄, h₅⟩
    · exact escaped_chars l c hc

/-- An ampersand found behind characters that are not ampersands lies in what follows them. -/
theorem ampersand_after : ∀ (lit t pre post : List Char), (∀ c ∈ lit, c ≠ '&') →
    lit ++ t = pre ++ '&' :: post → ∃ pre', t = pre' ++ '&' :: post
  | [], t, pre, post, _, h => ⟨pre, h⟩
  | c :: lit, t, pre, post, hlit, h => by
    cases pre with
    | nil =>
      simp only [List.nil_append, List.cons_append, List.cons.injEq] at h
      exact absurd h.1 (hlit c (List.mem_cons_self _ _))
    | cons p pre =>
      simp only [List.cons_append, List.cons.injEq] at h
      exact ampersand_after lit t pre post
        (fun d hd => hlit d (List.mem_cons_of_mem _ hd)) h.2

/-- An ampersand of `'&' :: tail ++ t`, where `tail` has no ampersand, is the first character
or lies in `t`. -/
theorem ampersand_of_entity (tail t pre post : List Char) (htail : ∀ c ∈ tail, c ≠ '&')
    (h : '&' :: (tail ++ t) = pre ++ '&' :: post) :
    post = tail ++ t ∨ ∃ pre', t = pre' ++ '&' :: post := by
  cases pre with
  | nil =>
    simp only [List.nil_append, List.cons.injEq, true_and] at h
    exact Or.inl h.symm
  | cons p pre =>
    simp only [List.cons_append, List.cons.injEq] at h
    exact Or.inr (ampersand_after tail t pre post htail h.2)

theorem escaped_ampersands : ∀ (l pre post : List Char),
    replaceChar (Char.ofNat 39) "&#039;"
      (replaceChar (Char.ofNat 34) "&quot;"
        (replaceChar '>' "&gt;" (replaceChar '<' "&lt;" (replaceChar '&' "&amp;" l)))) =
      pre ++ '&' :: post →
    "amp;".data <+: post ∨ "lt;".data <+: post ∨ "gt;".data <+: post ∨
      "quot;".data <+: post ∨ "#039;".data <+: post
  | [], pre, post, h => by
    have : ([] : List Char) = pre ++ '&' :: post := h
    simp at this
  | x :: l, pre, post, h => by
    rw [escape_cons] at h
    split at h
    · rcases ampersand_of_entity "amp;".data _ pre post (by decide) h with hp | ⟨pre', hp⟩
      · exact Or.inl ⟨_, hp.symm⟩
      · exact escaped_ampersands l pre' post hp
    · split at h
      · rcases ampersand_of_entity "lt;".data _ pre post (by decide) h with hp | ⟨pre', hp⟩
        · exact Or.inr (Or.inl ⟨_, hp.symm⟩)
        · exact escaped_ampersands l pre' post hp
      · split at h
        · rcases ampersand_of_entity "gt;".data _ pre post (by decide) h with hp | ⟨pre', hp⟩
          · exact Or.inr (Or.inr (Or.inl ⟨_, hp.symm⟩))
          · exact escaped_ampersands l pre' post hp
        · split at h
          · rcases ampersand_of_entity "quot;".data _ pre post (by decide) h with
              hp | ⟨pre', hp⟩
            · exact Or.inr (Or.inr (Or.inr (Or.inl ⟨_, hp.symm⟩)))
            · exact escaped_ampersands l pre' post hp
          · split at h
            · rcases ampersand_of_entity "#039;".data _ pre post (by decide) h with
                hp | ⟨pre', hp⟩
              · exact Or.inr (Or.inr (Or.inr (Or.inr ⟨_, hp.symm⟩)))
              · exact escaped_ampersands l pre' post hp
            · rename_i h₁ _ _ _ _
              obtain ⟨pre', hp⟩ := ampersand_after [x] _ pre post
                (fun c hc => by rw [List.mem_singleton] at hc; rw [hc]; exact h₁) h
              exact escaped_ampersands l pre' post hp

theorem unescape_skip : ∀ (a b : List Char),
    unescapeEntities a.length (a ++ b) = unescapeEntities 0 b
  | [], b => rfl
  | _ :: a, b => by
    rw [List.length_cons, List.cons_append, unescapeEntities]
    exact unescape_skip a b

theorem unescape_other (c : Char) (rest : List Char) (h : c ≠ '&') :
    unescapeEntities 0 (c :: rest) = c :: unescapeEntities 0 rest := by
  have hne : ('&' == c) = false := by
    rw [beq_eq_false_iff_ne]
    exact fun e => h e.symm
  have h₁ : "&amp;".data.isPrefixOf (c :: rest) = false := by
    show (('&' == c) && _) = false
    rw [hne]; rfl
  have h₂ : "&lt;".data.isPrefixOf (c :: rest) = false := by
    show (('&' == c) && _) = false
    rw [hne]; rfl
  have h₃ : "&gt;".data.isPrefixOf (c :: rest) = false := by
    show (('&' == c) && _) = false
    rw [hne]; rfl
  have h₄ : "&quot;".data.isPrefixOf (c :: rest) = false := by
    show (('&' == c) && _) = false
    rw [hne]; rfl
  have h₅ : "&#039;".data.isPrefixOf (c :: rest) = false := by
    show (('&' == c) && _) = false
    rw [hne]; rfl
  rw [unescapeEntities]
  simp only [h₁, h₂, h₃, h₄, h₅, Bool.false_eq_true, if_false]

theorem unescape_escaped : ∀ (l : List Char),
    unescapeEntities 0
      (replaceChar (Char.ofNat 39) "&#039;"
        (replaceChar (Char.ofNat 34) "&quot;"
          (replaceChar '>' "&gt;" (replaceChar '<' "&lt;" (replaceChar '&' "&amp;" l))))) = l
  | [] => rfl
  | x :: l => by
    rw [escape_cons]
    split
    · rename_i h; subst h
      show unescapeEntities 0 ('&' :: ("amp;".data ++ _)) = _
      rw [unescapeEntities, if_pos (by simp [List.isPrefixOf])]
      rw [show (4 : Nat) = "amp;".data.length from rfl, unescape_skip, unescape_escaped l]
    · split
      · rename_i h; subst h
        show unescapeEntities 0 ('&' :: ("lt;".data ++ _)) = _
        rw [unescapeEntities, if_neg (by simp [List.isPrefixOf]),
          if_pos (by simp [List.isPrefixOf])]
        rw [show (3 : Nat) = "lt;".data.length from rfl, unescape_skip, unescape_escaped l]
      · split
        · rename_i h; subst h
          show unescapeEntities 0 ('&' :: ("gt;".data ++ _)) = _
          rw [unescapeEntities, if_neg (by simp [List.isPrefixOf]),
            if_neg (by simp [List.isPrefixOf]), if_pos (by simp [List.isPrefixOf])]
          rw [show (3 : Nat) = "gt;".data.length from rfl, unescape_skip, unescape_escaped l]
        · split
          · rename_i h; subst h
            show unescapeEntities 0 ('&' :: ("quot;".data ++ _)) = _
            rw [unescapeEntities, if_neg (by simp [List.isPrefixOf]),
              if_neg (by simp [List.isPrefixOf]), if_neg (by simp [List.isPrefixOf]),
              if_pos (by simp [List.isPrefixOf])]
            rw [show (5 : Nat) = "quot;".data.length from rfl, unescape_skip,
              unescape_escaped l]
          · split
            · rename_i h; subst h
              show unescapeEntities 0 ('&' :: ("#039;".data ++ _)) = _
              rw [unescapeEntities, if_neg (by simp [List.isPrefixOf]),
                if_neg (by simp [List.isPrefixOf]), if_neg (by simp [List.isPrefixOf]),
                if_neg (by simp [List.isPrefixOf]), if_pos (by simp [List.isPrefixOf])]
              rw [show (5 : Nat) = "#039;".data.length from rfl, unescape_skip,
                unescape_escaped l]
            · rename_i h₁ _ _ _ _
              rw [List.singleton_append, unescape_other x _ h₁, unescape_escaped l]

/-- C25: for every string `s`, no character of `escapeHtml(s)` is '<', '>', a double quote or
a single quote; every '&' in it is followed by the rest of one of the entities `&amp;`, `&lt;`,
`&gt;`, `&quot;`, `&#039;`; and reading the five entities back as their characters gives
`s`. -/
theorem escapeHtml_safe_and_reversible (s : String) :
    (∀ c ∈ (escapeHtml s).data,
      c ≠ '<' ∧ c ≠ '>' ∧ c ≠ Char.ofNat 34 ∧ c ≠ Char.ofNat 39) ∧
    (∀ pre post : List Char, (escapeHtml s).data = pre ++ '&' :: post →
      "amp;".data <+: post ∨ "lt;".data <+: post ∨ "gt;".data <+: post ∨
        "quot;".data <+: post ∨ "#039;".data <+: post) ∧
    String.mk (unescapeEntities 0 (escapeHtml s).data) = s := by
  rw [escapeHtml_data]
  exact ⟨escaped_chars s.data, escaped_ampersands s.data, by rw [unescape_escaped]⟩


theorem guarded_student_progress (gate : Option Response) (s : Store)
    (handler : Response × Store) (h : handler.2.student_progress = s.student_progress) :
    (guarded gate s handler).2.student_progress = s.student_progress := by
  unfold guarded
  split
  · rfl
  · exact h

theorem runReorder_student_progress (courseId : Nat) (fails : Nat → Bool) :
    ∀ (items : List ReorderItem) (k : Nat) (s s' : Store),
      runReorder courseId fails k items s = some s' →
      s'.student_progress = s.student_progress
  | [], _, s, s', h => by
    simp only [runReorder, Option.some.injEq] at h
    rw [← h]
  | item :: rest, k, s, s', h => by
    rw [runReorder] at h
    split at h
    · cases h
    · rw [runReorder_student_progress courseId fails rest (k + 1) _ s' h]
      unfold applyReorderItem
      (repeat' split) <;> rfl

theorem insertCourse_student_progress (s s' : Store) (row : CourseRow) (id : Nat)
    (h : insertCourse s row = some (id, s')) : s'.student_progress = s.student_progress := by
  unfold insertCourse at h
  split at h
  · simp only [Option.some.injEq, Prod.mk.injEq] at h
    rw [← h.2]
  · cases h

theorem stepCourseRequest_student_progress (toNumber : JsValue → JsValue) (now : Nat)
    (s : Store) (request : CourseRequest) :
    (stepCourseRequest toNumber now s request).student_progress = s.student_progress := by
  cases request with
  | create session body =>
    refine guarded_student_progress _ _ _ ?_
    unfold createCourseHandler
    (repeat' first | split | dsimp only) <;>
      first
      | rfl
      | (apply insertCourse_student_progress; assumption)
  | basic session body =>
    refine guarded_student_progress _ _ _ ?_
    unfold createCourseBasicHandler
    (repeat' first | split | dsimp only) <;>
      first
      | rfl
      | (apply insertCourse_student_progress; assumption)
  | upload session body file lectureInsertFails =>
    refine guarded_student_progress _ _ _ ?_
    unfold createCourseUploadHandler
    (repeat' first | split | dsimp only) <;>
      first
      | rfl
      | (apply insertCourse_student_progress; assumption)

/-- What one request does to `student_progress`: nothing, unless it is the removal of a lecture
or of a teacher, where the table is the one the cascade of the schema leaves. -/
theorem stepRequest_student_progress (lib : Library) (s : Store) (request : Request) :
    (stepRequest lib s request).student_progress = s.student_progress ∨
    (∃ id t, (stepRequest lib s request).student_progress =
        (lib.cascadeLecture id t).student_progress ∧
      t.student_progress = s.student_progress) ∨
    (∃ id t, (stepRequest lib s request).student_progress =
        (lib.cascadeUser id t).student_progress ∧
      t.student_progress = s.student_progress) := by
  cases request with
  | read => exact Or.inl rfl
  | register session body =>
    left
    simp only [stepRequest, register]
    (repeat' split) <;> rfl
  | createTeacher session body =>
    left
    refine guarded_student_progress _ _ _ ?_
    unfold createTeacherHandler
    (repeat' split) <;> rfl
  | deleteTeacher session teacherId =>
    simp only [stepRequest, deleteTeacher, guarded]
    split
    · exact Or.inl rfl
    · unfold deleteTeacherHandler
      split
      · exact Or.inl rfl
      · exact Or.inr (Or.inr ⟨_, _, rfl, rfl⟩)
  | enroll session course_id =>
    left
    refine guarded_student_progress _ _ _ ?_
    unfold enrollHandler
    (repeat' split) <;> rfl
  | createCourse request now =>
    exact Or.inl (stepCourseRequest_student_progress _ _ _ _)
  | updateCourse session id body =>
    left
    refine guarded_student_progress _ _ _ ?_
    unfold updateCourseHandler
    split
    · rfl
    · split
      · rfl
      · split
        · rfl
        · split
          · rfl
          · rfl
  | uploadLecture session body file now =>
    left
    refine guarded_student_progress _ _ _ ?_
    unfold uploadLectureHandler
    (repeat' split) <;> rfl
  | uploadLectureWithResource session uploadError body video resource fails now =>
    left
    refine guarded_student_progress _ _ _ ?_
    unfold uploadLectureWithResourceHandler
    (repeat' split) <;> rfl
  | updateLecture session lectureId body =>
    left
    refine guarded_student_progress _ _ _ ?_
    unfold updateLectureHandler
    (repeat' split) <;> rfl
  | deleteLecture session lectureId =>
    simp only [stepRequest, deleteLecture, guarded]
    split
    · exact Or.inl rfl
    · unfold deleteLectureHandler
      split
      · exact Or.inl rfl
      · split
        · exact Or.inl rfl
        · exact Or.inr (Or.inl ⟨_, _, rfl, rfl⟩)
  | createLectureAssignment session lectureId body errorMessage =>
    left
    refine guarded_student_progress _ _ _ ?_
    unfold createLectureAssignmentHandler
    (repeat' split) <;> rfl
  | createLectureQuiz session lectureId body =>
    left
    refine guarded_student_progress _ _ _ ?_
    unfold createLectureQuizHandler
    (repeat' split) <;> rfl
  | createGrandQuiz session courseId body now =>
    left
    refine guarded_student_progress _ _ _ ?_
    unfold createGrandQuizHandler
    (repeat' split) <;> rfl
  | createGrandAssignment session courseId body now =>
    left
    refine guarded_student_progress _ _ _ ?_
    unfold createGrandAssignmentHandler
    (repeat' split) <;> rfl
  | uploadGrandAssignment session courseId file =>
    left
    refine guarded_student_progress _ _ _ ?_
    unfold uploadGrandAssignmentHandler
    (repeat' split) <;> rfl
  | reorderContent session courseId items fails =>
    left
    refine guarded_student_progress _ _ _ ?_
    unfold reorderContentHandler
    split
    · rfl
    · rfl
    · split
      · rfl
      · split
        · rfl
        · split
          · rename_i h
            exact runReorder_student_progress _ _ _ _ _ _ h
          · rfl
  | deleteGrandQuiz session quizId =>
    left
    refine guarded_student_progress _ _ _ ?_
    unfold deleteGrandQuizHandler
    (repeat' split) <;> rfl
  | submitGrandQuiz session quizId answers now =>
    left
    refine guarded_student_progress _ _ _ ?_
    unfold submitGrandQuizHandler
    (repeat' split) <;> rfl
  | submitGrandAssignment session assignmentId file now =>
    left
    refine guarded_student_progress _ _ _ ?_
    unfold submitGrandAssignmentHandler
    (repeat' split) <;> rfl


/-- Witness for C25: a title with markup, a quote pair and an ampersand. -/
theorem escapeHtml_safe_and_reversible_witness :
    escapeHtml "<a href='x'>Q&A</a>" = "&lt;a href=&#039;x&#039;&gt;Q&amp;A&lt;/a&gt;" ∧
    String.mk (unescapeEntities 0 (escapeHtml "<a href='x'>Q&A</a>").data) =
      "<a href='x'>Q&A</a>" :=
  ⟨by decide, (escapeHtml_safe_and_reversible "<a href='x'>Q&A</a>").2.2⟩

theorem runRequests_student_progress_sublist (lib : Library)
    (hLecture : ∀ id t, List.Sublist (lib.cascadeLecture id t).student_progress
      t.student_progress)
    (hUser : ∀ id t, List.Sublist (lib.cascadeUser id t).student_progress t.student_progress) :
    ∀ (requests : List Request) (s : Store),
      List.Sublist (runRequests lib s requests).student_progress s.student_progress
  | [], _ => List.Sublist.refl _
  | request :: rest, s => by
    have hrest := runRequests_student_progress_sublist lib hLecture hUser rest
      (stepRequest lib s request)
    have hstep : List.Sublist (stepRequest lib s request).student_progress
        s.student_progress := by
      rcases stepRequest_student_progress lib s request with h | ⟨id, t, h, ht⟩ | ⟨id, t, h, ht⟩
      · rw [h]
      · rw [h, ← ht]; exact hLecture id t
      · rw [h, ← ht]; exact hUser id t
    exact hrest.trans hstep

theorem runRequests_student_progress_eq (lib : Library)
    (hLecture : ∀ id t, (lib.cascadeLecture id t).student_progress = t.student_progress)
    (hUser : ∀ id t, (lib.cascadeUser id t).student_progress = t.student_progress) :
    ∀ (requests : List Request) (s : Store),
      (runRequests lib s requests).student_progress = s.student_progress
  | [], _ => rfl
  | request :: rest, s => by
    have hrest := runRequests_student_progress_eq lib hLecture hUser rest
      (stepRequest lib s request)
    have hstep : (stepRequest lib s request).student_progress = s.student_progress := by
      rcases stepRequest_student_progress lib s request with h | ⟨id, t, h, ht⟩ | ⟨id, t, h, ht⟩
      · exact h
      · rw [h, ← ht]; exact hLecture id t
      · rw [h, ← ht]; exact hUser id t
    exact hrest.trans hstep

/-- With no progress rows at all, a student sees every item that follows a lecture locked. -/
theorem locked_after_lecture (s : Store) (hempty : s.student_progress = [])
    (user : SessionUser) (id : Nat) (p : CoursePayload) (hrole : user.role = "student")
    (hresp : (getCourse s (some user) id).1 = ⟨200, .course p⟩)
    (i : Nat) (a b : ContentItem) (ha : p.allContent[i]? = some a)
    (hb : p.allContent[i + 1]? = some b) (hlecture : a.type = .lecture) :
    b.is_locked = some true := by
  obtain ⟨-, -, hall, -⟩ := getCourse_ok s user id p hresp
  rw [if_pos hrole] at hall
  rw [hall] at ha hb
  obtain ⟨a', ha', hta, -, -, -⟩ := annotate_item _ _ i a ha
  obtain ⟨b', -, -, -, -, hlock⟩ := annotate_item _ _ (i + 1) b hb
  have hnone : (studentProgressMap s user.id).get (progressKey a') = none := by
    apply studentProgressMap_get_none
    rw [← hta, hlecture]
    intro r hr
    rw [hempty] at hr
    cases hr
  rw [hlock]
  simp [ha', completedIn, hnone]

/-- C26: no request writes `student_progress`.  Whatever the request, the statements of its
handler leave the table as it is; only the schema's cascade behind the removal of a lecture or
of a teacher reaches it, and as long as a cascade only removes rows, the table after any
sequence of requests is a sublist of the table before, equal to it when the cascades leave the
table alone.  Starting from an empty table it is empty after any sequence of requests, and then
every 200 answer of GET /api/courses/:id to a student reports `is_locked = true` for every item
of `allContent` whose immediate predecessor is a lecture. -/
theorem student_progress_never_written (lib : Library)
    (hLecture : ∀ id t, List.Sublist (lib.cascadeLecture id t).student_progress
      t.student_progress)
    (hUser : ∀ id t, List.Sublist (lib.cascadeUser id t).student_progress t.student_progress)
    (s : Store) (requests : List Request) :
    (∀ (t : Store) (request : Request),
      (stepRequest lib t request).student_progress = t.student_progress ∨
      (∃ id t', (stepRequest lib t request).student_progress =
          (lib.cascadeLecture id t').student_progress ∧
        t'.student_progress = t.student_progress) ∨
      (∃ id t', (stepRequest lib t request).student_progress =
          (lib.cascadeUser id t').student_progress ∧
        t'.student_progress = t.student_progress)) ∧
    List.Sublist (runRequests lib s requests).student_progress s.student_progress ∧
    ((∀ id t, (lib.cascadeLecture id t).student_progress = t.student_progress) →
      (∀ id t, (lib.cascadeUser id t).student_progress = t.student_progress) →
      (runRequests lib s requests).student_progress = s.student_progress) ∧
    (s.student_progress = [] →
      (runRequests lib s requests).student_progress = [] ∧
      ∀ (user : SessionUser) (id : Nat) (p : CoursePayload), user.role = "student" →
        (getCourse (runRequests lib s requests) (some user) id).1 = ⟨200, .course p⟩ →
        ∀ (i : Nat) (a b : ContentItem), p.allContent[i]? = some a →
          p.allContent[i + 1]? = some b → a.type = .lecture → b.is_locked = some true) := by
  have hsub := runRequests_student_progress_sublist lib hLecture hUser requests s
  refine ⟨stepRequest_student_progress lib, hsub,
    fun h₁ h₂ => runRequests_student_progress_eq lib h₁ h₂ requests s, fun hempty => ?_⟩
  have hfinal : (runRequests lib s requests).student_progress = [] := by
    rw [hempty] at hsub
    exact List.sublist_nil.mp hsub
  exact ⟨hfinal, fun user id p hrole hresp i a b ha hb hlecture =>
    locked_after_lecture _ hfinal user id p hrole hresp i a b ha hb hlecture⟩

/-- Witness for C26: on the store where nobody is enrolled and no progress row exists, after the
example requests the table is still empty, the student gets course 1, and the grand quiz that
follows lecture 1 is locked, while the grand assignment that follows the submitted grand quiz is
not. -/
theorem student_progress_never_written_witness :
    (∀ id t, List.Sublist (exampleLibrary.cascadeLecture id t).student_progress
      t.student_progress) ∧
    (∀ id t, List.Sublist (exampleLibrary.cascadeUser id t).student_progress
      t.student_progress) ∧
    unenrolledStore.student_progress = [] ∧
    (runRequests exampleLibrary unenrolledStore exampleRequests).student_progress = [] ∧
    (getCourse (runRequests exampleLibrary unenrolledStore exampleRequests)
      (some studentUser) 1).1.status = 200 ∧
    (match (getCourse (runRequests exampleLibrary unenrolledStore exampleRequests)
        (some studentUser) 1).1.body with
      | .course p => p.allContent.map fun item => (item.type, item.is_locked)
      | _ => []) =
      [(.lecture, some false), (.grand_quiz, some true), (.grand_assignment, some false)] ∧
    ∀ (p : CoursePayload) (b : ContentItem),
      (getCourse (runRequests exampleLibrary unenrolledStore exampleRequests)
        (some studentUser) 1).1 = ⟨200, .course p⟩ →
      p.allContent[0]? = some ⟨.lecture, .lecture ⟨exampleLecture 1 1 0 10, 0, 0, 0, none⟩,
        some ⟨.num 0, .num 0⟩, some false⟩ →
      p.allContent[1]? = some b → b.is_locked = some true :=
  have h₁ : ∀ id t, List.Sublist (exampleLibrary.cascadeLecture id t).student_progress
      t.student_progress := fun _ _ => List.filter_sublist _
  have h₂ : ∀ id t, List.Sublist (exampleLibrary.cascadeUser id t).student_progress
      t.student_progress := fun _ _ => List.filter_sublist _
  have h := student_progress_never_written exampleLibrary h₁ h₂ unenrolledStore exampleRequests
  ⟨h₁, h₂, rfl, (h.2.2.2 rfl).1, by decide, by decide,
    fun p b hp h0 h1 => (h.2.2.2 rfl).2 studentUser 1 p rfl hp 0 _ b h0 h1 rfl⟩


theorem runReorder_some (courseId : Nat) (fails : Nat → Bool) :
    ∀ (items : List ReorderItem) (k : Nat) (s s' : Store),
      runReorder courseId fails k items s = some s' →
      s' = items.foldl (applyReorderItem courseId) s
  | [], _, s, s', h => by
    simp only [runReorder, Option.some.injEq] at h
    rw [← h]; rfl
  | item :: rest, k, s, s', h => by
    rw [runReorder] at h
    split at h
    · cases h
    · exact runReorder_some courseId fails rest (k + 1) _ s' h

/-- The store after a reorder request is the store of before, or the one the loop over the
items leaves. -/
theorem reorderContent_store (fails : Nat → Bool) (s : Store) (session : Option SessionUser)
    (courseId : Nat) (items : Option (List ReorderItem)) :
    (reorderContent fails s session courseId items).2 = s ∨
    (reorderContent fails s session courseId items).2 =
      (items.getD []).foldl (applyReorderItem courseId) s := by
  unfold reorderContent guarded
  split
  · exact Or.inl rfl
  · unfold reorderContentHandler
    split
    · exact Or.inl rfl
    · exact Or.inl rfl
    · split
      · exact Or.inl rfl
      · split
        · exact Or.inl rfl
        · split
          · rename_i h
            exact Or.inr (runReorder_some _ _ _ _ _ _ h)
          · exact Or.inl rfl

/-- A row through the loop is the row itself or the row with the order of a listed item that
names it, with its type, its id and the course of the path. -/
theorem foldl_row (tag : String) {α : Type} (rowId rowCourse : α → Nat)
    (setOrder : Int → α → α)
    (hid : ∀ n a, rowId (setOrder n a) = rowId a)
    (hcourse : ∀ n a, rowCourse (setOrder n a) = rowCourse a)
    (hset : ∀ n m a, setOrder n (setOrder m a) = setOrder n a)
    (courseId : Nat) (a : α) (items : List ReorderItem) :
    items.foldl (fun a i =>
        if (decide (i.type = tag) && (rowId a == i.id && rowCourse a == courseId)) then
          setOrder i.order a
        else a) a = a ∨
    ∃ item ∈ items, item.type = tag ∧ item.id = rowId a ∧ rowCourse a = courseId ∧
      items.foldl (fun a i =>
        if (decide (i.type = tag) && (rowId a == i.id && rowCourse a == courseId)) then
          setOrder i.order a
        else a) a = setOrder item.order a := by
  induction items using List.reverseRecOn with
  | nil => exact Or.inl rfl
  | append_singleton pre x ih =>
    rw [List.foldl_append, List.foldl_cons, List.foldl_nil]
    rcases ih with h | ⟨item, hmem, ht, hi, hc, h⟩
    · rw [h]
      split
      · rename_i hx
        simp only [Bool.and_eq_true, decide_eq_true_eq, beq_iff_eq] at hx
        exact Or.inr ⟨x, by simp, hx.1, hx.2.1.symm, hx.2.2, rfl⟩
      · exact Or.inl rfl
    · rw [h]
      right
      split
      · rename_i hx
        simp only [Bool.and_eq_true, decide_eq_true_eq, beq_iff_eq, hid, hcourse] at hx
        exact ⟨x, by simp, hx.1, hx.2.1.symm, hx.2.2, hset _ _ _⟩
      · exact ⟨item, by simp [hmem], ht, hi, hc, rfl⟩

/-- What a committed or abandoned loop does to a table: row by row, nothing but the order index
may differ, and it differs only for a row of the course that an item of the row's type names. -/
theorem foldl_table_frame (tag : String) {α : Type} (rowId rowCourse : α → Nat)
    (setOrder : Int → α → α) (getOrder : α → Int)
    (hid : ∀ n a, rowId (setOrder n a) = rowId a)
    (hcourse : ∀ n a, rowCourse (setOrder n a) = rowCourse a)
    (hset : ∀ n m a, setOrder n (setOrder m a) = setOrder n a)
    (hget : ∀ n a, getOrder (setOrder n a) = n)
    (hself : ∀ a, setOrder (getOrder a) a = a)
    (courseId : Nat) (table : Store → List α)
    (hstep : ∀ s item, table (applyReorderItem courseId s item) = (table s).map fun a =>
      if (decide (item.type = tag) && (rowId a == item.id && rowCourse a == courseId)) then
        setOrder item.order a
      else a)
    (s s' : Store) (items : List ReorderItem)
    (hs' : s' = s ∨ s' = items.foldl (applyReorderItem courseId) s) :
    List.Forall₂ (fun a a' => a' = setOrder (getOrder a') a ∧
      (rowCourse a ≠ courseId → a' = a) ∧
      ((∀ item ∈ items, item.type = tag → item.id ≠ rowId a) → a' = a)) (table s) (table s') := by
  rcases hs' with h | h
  · rw [h, List.forall₂_same]
    exact fun a _ => ⟨(hself a).symm, fun _ => rfl, fun _ => rfl⟩
  · rw [h, foldl_table courseId table _ hstep items s, List.forall₂_map_right_iff,
      List.forall₂_same]
    intro a _
    rcases foldl_row tag rowId rowCourse setOrder hid hcourse hset courseId a items with
      h | ⟨item, hmem, ht, hi, hc, h⟩
    · rw [h]
      exact ⟨(hself a).symm, fun _ => rfl, fun _ => rfl⟩
    · rw [h]
      exact ⟨by rw [hget], fun hne => absurd hc hne, fun hno => absurd hi (hno item hmem ht)⟩

/-- What no statement of the loop touches is the same after the loop. -/
theorem foldl_frame {β : Type} (courseId : Nat) (view : Store → β)
    (hview : ∀ s item, view (applyReorderItem courseId s item) = view s) :
    ∀ (items : List ReorderItem) (s : Store),
      view (items.foldl (applyReorderItem courseId) s) = view s
  | [], _ => rfl
  | item :: rest, s => by
    rw [List.foldl_cons, foldl_frame courseId view hview rest, hview]

theorem foldl_other_tables (courseId : Nat) (items : List ReorderItem) (s : Store) :
    { items.foldl (applyReorderItem courseId) s with
      lectures := s.lectures, grand_quizzes := s.grand_quizzes,
      grand_assignments := s.grand_assignments } = s := by
  refine foldl_frame courseId (fun t => { t with
      lectures := s.lectures, grand_quizzes := s.grand_quizzes,
      grand_assignments := s.grand_assignments }) ?_ items s
  intro t item
  unfold applyReorderItem
  (repeat' split) <;> rfl


/-- C27: PUT /api/courses/:id/reorder-content changes nothing but order indexes of rows of the
course of the path.  Every table other than `lectures`, `grand_quizzes` and `grand_assignments`
is the same after the request; in these three, row by row, no column other than `order_index`
differs, a row of another course is unchanged, and so is a row that no listed item of its own
type names, so that an item of an unknown type changes no row.  Such items cause no error: for
the teacher who owns the course the request is answered 200 and the loop is committed unless a
statement run for an item of one of the three types throws. -/
theorem reorder_changes_order_index_only (fails : Nat → Bool) (s : Store)
    (session : Option SessionUser) (courseId : Nat) (items : Option (List ReorderItem)) :
    { (reorderContent fails s session courseId items).2 with
      lectures := s.lectures, grand_quizzes := s.grand_quizzes,
      grand_assignments := s.grand_assignments } = s ∧
    List.Forall₂ (fun l l' => l' = { l with order_index := l'.order_index } ∧
        (l.course_id ≠ courseId → l' = l) ∧
        ((∀ item ∈ items.getD [], item.type = "lecture" → item.id ≠ l.id) → l' = l))
      s.lectures (reorderContent fails s session courseId items).2.lectures ∧
    List.Forall₂ (fun q q' => q' = { q with order_index := q'.order_index } ∧
        (q.course_id ≠ courseId → q' = q) ∧
        ((∀ item ∈ items.getD [], item.type = "grand_quiz" → item.id ≠ q.id) → q' = q))
      s.grand_quizzes (reorderContent fails s session courseId items).2.grand_quizzes ∧
    List.Forall₂ (fun a a' => a' = { a with order_index := a'.order_index } ∧
        (a.course_id ≠ courseId → a' = a) ∧
        ((∀ item ∈ items.getD [], item.type = "grand_assignment" → item.id ≠ a.id) → a' = a))
      s.grand_assignments (reorderContent fails s session courseId items).2.grand_assignments ∧
    (∀ (user : SessionUser) (item : ReorderItem) (rest : List ReorderItem),
      session = some user → user.role = "teacher" → ownsCourse s courseId user.id = true →
      items = some (item :: rest) →
      (∀ k it, (item :: rest)[k]? = some it →
        (it.type = "lecture" ∨ it.type = "grand_quiz" ∨ it.type = "grand_assignment") →
        fails k = false) →
      reorderContent fails s session courseId items =
        (⟨200, .ok⟩, (item :: rest).foldl (applyReorderItem courseId) s)) := by
  have hstore := reorderContent_store fails s session courseId items
  refine ⟨?_, ?_, ?_, ?_, ?_⟩
  · rcases hstore with h | h
    · rw [h]
    · rw [h]; exact foldl_other_tables courseId _ s
  · exact foldl_table_frame "lecture" LectureRow.id LectureRow.course_id
      (fun n l => { l with order_index := n }) LectureRow.order_index
      (fun _ _ => rfl) (fun _ _ => rfl) (fun _ _ _ => rfl) (fun _ _ => rfl) (fun _ => rfl)
      courseId Store.lectures (applyReorderItem_lectures courseId) s _ _ hstore
  · exact foldl_table_frame "grand_quiz" GrandQuizRow.id GrandQuizRow.course_id
      (fun n q => { q with order_index := n }) GrandQuizRow.order_index
      (fun _ _ => rfl) (fun _ _ => rfl) (fun _ _ _ => rfl) (fun _ _ => rfl) (fun _ => rfl)
      courseId Store.grand_quizzes (applyReorderItem_grand_quizzes courseId) s _ _ hstore
  · exact foldl_table_frame "grand_assignment" GrandAssignmentRow.id
      GrandAssignmentRow.course_id
      (fun n a => { a with order_index := n }) GrandAssignmentRow.order_index
      (fun _ _ => rfl) (fun _ _ => rfl) (fun _ _ _ => rfl) (fun _ _ => rfl) (fun _ => rfl)
      courseId Store.grand_assignments (applyReorderItem_grand_assignments courseId) s _ _ hstore
  · intro user item rest hsession hrole howns hitems hfails
    subst hsession hitems
    have hrun := runReorder_ok courseId fails (item :: rest) 0 s
      (fun j it hj ht => by rw [Nat.zero_add]; exact hfails j it hj ht)
    simp [reorderContent, guarded, requireRole, reorderContentHandler, hrole, howns, hrun]

/-- Witness for C27: the owner of course 1 sends a list that names lecture 3 of course 2, an
item of type "video" and lecture 1; the answer is 200 and only the order index of lecture 1 has
changed. -/
theorem reorder_changes_order_index_only_witness :
    teacherUser.role = "teacher" ∧ ownsCourse twoCourseStore 1 teacherUser.id = true ∧
    (twoCourseStore.lectures.map fun l => (l.id, l.course_id, l.order_index)) =
      [(1, 1, 0), (2, 1, 2), (3, 2, 0)] ∧
    reorderContent (fun _ => false) twoCourseStore (some teacherUser) 1 (some strayReorder) =
      (⟨200, .ok⟩, strayReorder.foldl (applyReorderItem 1) twoCourseStore) ∧
    strayReorder.foldl (applyReorderItem 1) twoCourseStore =
      { twoCourseStore with
        lectures := [{ exampleLecture 1 1 0 10 with order_index := 4 }, exampleLecture 2 1 2 12,
          exampleLecture 3 2 0 13] } :=
  ⟨rfl, by decide, by decide,
    (reorder_changes_order_index_only (fun _ => false) twoCourseStore (some teacherUser) 1
      (some strayReorder)).2.2.2.2 teacherUser _ _ rfl rfl (by decide) rfl
      (fun _ _ _ _ => rfl),
    by decide⟩


/-- The store after PUT /api/courses/:id is the store of before, or the one the UPDATE statement
leaves, computed from the first row with the id. -/
theorem updateCourse_store (toNumber : JsValue → JsValue) (s : Store)
    (session : Option SessionUser) (id : Nat) (body : CourseUpdateBody) :
    (updateCourse toNumber s session id body).2 = s ∨
    ∃ current ∈ s.courses, current.id = id ∧
      (updateCourse toNumber s session id body).2 =
        { s with courses := s.courses.map fun c =>
            if c.id == id then
              { c with
                title := body.title.nullish current.title
                description :=
                  if body.description ≠ .undefined then body.description
                  else current.description
                projected_hours :=
                  if body.projected_hours ≠ .undefined then
                    (if body.projected_hours ≠ .null then toNumber body.projected_hours
                    else .null)
                  else current.projected_hours
                total_lectures :=
                  if body.total_lectures ≠ .undefined then
                    (if body.total_lectures ≠ .null then toNumber body.total_lectures else .null)
                  else current.total_lectures
                price :=
                  if body.price ≠ .undefined then toNumber body.price
                  else (if current.price ≠ .undefined then current.price else .num 0)
                payment_type :=
                  body.payment_type.nullish (current.payment_type.or (.str "one_time"))
                monthly_payment_month :=
                  if body.monthly_payment_month ≠ .undefined then body.monthly_payment_month
                  else current.monthly_payment_month
                is_free :=
                  if body.is_free ≠ .undefined then
                    (if body.is_free.truthy then .num 1 else .num 0)
                  else (if current.is_free ≠ .null ∧ current.is_free ≠ .undefined then
                    current.is_free else .num 1) }
            else c } := by
  unfold updateCourse guarded
  split
  · exact Or.inl rfl
  · unfold updateCourseHandler
    split
    · exact Or.inl rfl
    · split
      · exact Or.inl rfl
      · split
        · exact Or.inl rfl
        · split
          · exact Or.inl rfl
          · rename_i current hcurrent
            right
            have hmem := List.mem_of_mem_head? hcurrent
            rw [List.mem_filter] at hmem
            exact ⟨current, hmem.1, by simpa using hmem.2, rfl⟩


/-- C28: PUT /api/courses/:id leaves alone what the body does not name.  On a store whose course
ids are distinct, whatever the answer: no other table changes; row by row of `courses`, the
columns id, teacher_id, video_url, thumbnail_url, launch_date, is_published and created_at are
the same after the request, a row with another id is unchanged, and each of title, description,
projected_hours, total_lectures, price, payment_type, monthly_payment_month and is_free whose
body field is `undefined` keeps its value, for payment_type when the stored value is truthy,
for is_free when it is not null, and for price when the stored cell is a value at all (no cell
read from the database is `undefined`). -/
theorem update_course_keeps_absent_fields (toNumber : JsValue → JsValue) (s : Store)
    (session : Option SessionUser) (id : Nat) (body : CourseUpdateBody)
    (hkey : (s.courses.map fun c => c.id).Nodup) :
    { (updateCourse toNumber s session id body).2 with courses := s.courses } = s ∧
    List.Forall₂ (fun c c' =>
        c'.id = c.id ∧ c'.teacher_id = c.teacher_id ∧ c'.video_url = c.video_url ∧
        c'.thumbnail_url = c.thumbnail_url ∧ c'.launch_date = c.launch_date ∧
        c'.is_published = c.is_published ∧ c'.created_at = c.created_at ∧
        (c.id ≠ id → c' = c) ∧
        (body.title = .undefined → c'.title = c.title) ∧
        (body.description = .undefined → c'.description = c.description) ∧
        (body.projected_hours = .undefined → c'.projected_hours = c.projected_hours) ∧
        (body.total_lectures = .undefined → c'.total_lectures = c.total_lectures) ∧
        (body.price = .undefined → c.price ≠ .undefined → c'.price = c.price) ∧
        (body.payment_type = .undefined → c.payment_type.truthy = true →
          c'.payment_type = c.payment_type) ∧
        (body.monthly_payment_month = .undefined →
          c'.monthly_payment_month = c.monthly_payment_month) ∧
        (body.is_free = .undefined → c.is_free.notNullish = true → c'.is_free = c.is_free))
      s.courses (updateCourse toNumber s session id body).2.courses := by
  rcases updateCourse_store toNumber s session id body with h | ⟨current, hmem, hid, h⟩
  · rw [h, List.forall₂_same]
    exact ⟨rfl, fun c _ => ⟨rfl, rfl, rfl, rfl, rfl, rfl, rfl, fun _ => rfl, fun _ => rfl,
      fun _ => rfl, fun _ => rfl, fun _ => rfl, fun _ _ => rfl, fun _ _ => rfl, fun _ => rfl,
      fun _ _ => rfl⟩⟩
  · rw [h]
    refine ⟨rfl, ?_⟩
    rw [List.forall₂_map_right_iff, List.forall₂_same]
    intro c hc
    by_cases hc_id : c.id = id
    · have hcur : current = c := by
        have hinj := List.inj_on_of_nodup_map hkey hmem hc
        exact hinj (by rw [hid, hc_id])
      subst hcur
      rw [if_pos (by simpa using hc_id)]
      refine ⟨rfl, rfl, rfl, rfl, rfl, rfl, rfl, fun hne => absurd hc_id hne, ?_, ?_, ?_, ?_, ?_,
        ?_, ?_, ?_⟩
      · intro hb; simp [hb, JsValue.nullish]
      · intro hb; simp [hb]
      · intro hb; simp [hb]
      · intro hb; simp [hb]
      · intro hb hp; simp [hb, hp]
      · intro hb hp; simp [hb, JsValue.nullish, JsValue.or, hp]
      · intro hb; simp [hb]
      · intro hb hp
        have : current.is_free ≠ .null ∧ current.is_free ≠ .undefined := by
          cases hf : current.is_free <;> simp [hf, JsValue.notNullish] at hp ⊢
        simp [hb, this]
    · rw [if_neg (by simpa using hc_id)]
      exact ⟨rfl, rfl, rfl, rfl, rfl, rfl, rfl, fun _ => rfl, fun _ => rfl,
        fun _ => rfl, fun _ => rfl, fun _ => rfl, fun _ _ => rfl, fun _ _ => rfl, fun _ => rfl,
        fun _ _ => rfl⟩

/-- Witness for C28: the owner of course 1 sends a body with a title only; the answer is 200 and
the row differs from the stored one in the title alone. -/
theorem update_course_keeps_absent_fields_witness :
    (scenarioStore.courses.map fun c => c.id).Nodup ∧
    scenarioStore.courses = [exampleCourse 1 1] ∧
    updateCourse exampleToNumber scenarioStore (some teacherUser) 1 titleCourseUpdate =
      (⟨200, .ok⟩,
        { scenarioStore with
          courses := [{ exampleCourse 1 1 with title := .str "Taken over" }] }) ∧
    { (updateCourse exampleToNumber scenarioStore (some teacherUser) 1 titleCourseUpdate).2 with
      courses := scenarioStore.courses } = scenarioStore :=
  ⟨by decide, rfl, by decide,
    (update_course_keeps_absent_fields exampleToNumber scenarioStore (some teacherUser) 1
      titleCourseUpdate (by decide)).1⟩


/-- C30: a teacher creates courses for nobody else.  Through each of POST /api/courses,
/api/courses/basic and /api/courses/upload, a requester with role 'teacher' gets the same answer
and the same store whatever `teacher_id` the body carries, and every course row the request
adds has the requester's id as `teacher_id`.  For any requester, a row added with another
`teacher_id` means that the requester is an admin and that the body named that id. -/
theorem teacher_creates_own_courses (toNumber : JsValue → JsValue) (now : Nat) (s : Store)
    (user : SessionUser) :
    (user.role = "teacher" →
      (∀ (body : CourseCreateBody) (t : Option Nat),
        createCourse toNumber now s (some user) { body with teacher_id := t } =
          createCourse toNumber now s (some user) body ∧
        createCourseBasic toNumber now s (some user) { body with teacher_id := t } =
          createCourseBasic toNumber now s (some user) body ∧
        ∀ file lectureInsertFails,
          createCourseUpload toNumber now lectureInsertFails s (some user)
              { body with teacher_id := t } file =
            createCourseUpload toNumber now lectureInsertFails s (some user) body file) ∧
      ∀ (request : CourseRequest), request.session = some user →
        ∀ c ∈ (stepCourseRequest toNumber now s request).courses,
          c ∈ s.courses ∨ c.teacher_id = user.id) ∧
    (∀ (request : CourseRequest), request.session = some user →
      ∀ c ∈ (stepCourseRequest toNumber now s request).courses,
        c ∉ s.courses → c.teacher_id ≠ user.id →
        user.role = "admin" ∧ request.body.teacher_id = some c.teacher_id) := by
  refine ⟨fun hrole => ⟨fun body t => ⟨?_, ?_, fun file lectureInsertFails => ?_⟩,
    fun request hsession c hc => ?_⟩, fun request hsession c hc hnew hother => ?_⟩
  · simp only [createCourse, createCourseHandler, courseTeacherId, if_pos hrole]
  · simp only [createCourseBasic, createCourseBasicHandler, courseTeacherId, if_pos hrole]
  · simp only [createCourseUpload, createCourseUploadHandler, courseTeacherId, if_pos hrole]
  · rcases (stepCourseRequest_courses toNumber now s request).2 c hc with
      h | ⟨user', hs', -, ht⟩
    · exact Or.inl h
    · rw [hsession] at hs'
      cases hs'
      right
      rw [ht, courseTeacherId, if_pos hrole]
  · rcases (stepCourseRequest_courses toNumber now s request).2 c hc with
      h | ⟨user', hs', hr, ht⟩
    · exact absurd h hnew
    · rw [hsession] at hs'
      cases hs'
      rw [courseTeacherId] at ht
      rcases hr with hr | hr
      · rw [if_pos hr] at ht
        exact absurd ht hother
      · refine ⟨hr, ?_⟩
        rw [if_neg (by rw [hr]; decide)] at ht
        cases hb : request.body.teacher_id with
        | none => rw [hb] at ht; exact absurd ht hother
        | some t => rw [hb] at ht; rw [ht]; rfl

/-- Witness for C30: with a body that names teacher 4, the teacher of the scenario gets the
course herself through each of the three routes, and the admin gets it for teacher 4. -/
theorem teacher_creates_own_courses_witness :
    teacherUser.role = "teacher" ∧ teacherUser.id = 1 ∧ delegatedCourse.teacher_id = some 4 ∧
    ((createCourse exampleToNumber 100 twoTeacherStore (some teacherUser)
        delegatedCourse).2.courses.map fun c => (c.id, c.teacher_id)) = [(1, 1), (2, 1)] ∧
    ((createCourseBasic exampleToNumber 100 twoTeacherStore (some teacherUser)
        delegatedCourse).2.courses.map fun c => (c.id, c.teacher_id)) = [(1, 1), (2, 1)] ∧
    ((createCourseUpload exampleToNumber 100 false twoTeacherStore (some teacherUser)
        delegatedCourse (some storedVideo)).2.courses.map fun c => (c.id, c.teacher_id)) =
      [(1, 1), (2, 1)] ∧
    ((createCourse exampleToNumber 100 twoTeacherStore (some adminUser)
        delegatedCourse).2.courses.map fun c => (c.id, c.teacher_id)) = [(1, 1), (2, 4)] ∧
    createCourse exampleToNumber 100 twoTeacherStore (some teacherUser) delegatedCourse =
      createCourse exampleToNumber 100 twoTeacherStore (some teacherUser) titleOnlyCourse :=
  ⟨rfl, rfl, rfl, by decide, by decide, by decide, by decide,
    ((teacher_creates_own_courses exampleToNumber 100 twoTeacherStore teacherUser).1 rfl).1
      titleOnlyCourse (some 4) |>.1⟩


/-! ## The heap of GET /api/courses/:id -/

theorem update_getElem? (h : Heap) (a : Nat) (f : RowObject → RowObject) (b : Nat) :
    (Heap.update h a f)[b]? = if a = b then (h[b]?).map f else h[b]? := by
  unfold Heap.update
  cases ha : h[a]? with
  | none =>
    by_cases hab : a = b
    · subst hab; simp [ha]
    · simp [hab]
  | some o =>
    by_cases hab : a = b
    · subst hab
      have hlt : a < h.length := by
        by_contra hge
        rw [List.getElem?_eq_none (Nat.le_of_not_lt hge)] at ha
        cases ha
      simp [List.getElem?_set, ha, hlt]
    · simp [hab, List.getElem?_set_ne hab]

theorem update_skeleton (h : Heap) (a : Nat) (f : RowObject → RowObject)
    (hf : ∀ o, ((f o).row, (f o).type) = (o.row, o.type)) :
    (Heap.update h a f).map (fun o => (o.row, o.type)) = h.map fun o => (o.row, o.type) := by
  apply List.ext_getElem?
  intro i
  rw [List.getElem?_map, List.getElem?_map, update_getElem?]
  split
  · cases h[i]? with
    | none => rfl
    | some o => simp only [Option.map_some', Option.some.injEq]; exact hf o
  · rfl

theorem getElem?_skeleton (h h' : Heap)
    (hsk : h'.map (fun o => (o.row, o.type)) = h.map fun o => (o.row, o.type)) (r : Nat) :
    (h'[r]?).map (fun o => (o.row, o.type)) = (h[r]?).map fun o => (o.row, o.type) := by
  rw [← List.getElem?_map, ← List.getElem?_map, hsk]

theorem completedObject_skeleton (m : ProgressMap) (p p' : RowObject)
    (h : (p'.row, p'.type) = (p.row, p.type)) :
    completedObject m p' = completedObject m p := by
  simp only [Prod.mk.injEq] at h
  unfold completedObject progressOf
  rw [h.1, h.2]

/-- The lock flag computed from the object before is the same on two heaps whose objects have
the same rows and types. -/
theorem locked_skeleton (m : ProgressMap) (h h' : Heap)
    (hsk : h'.map (fun o => (o.row, o.type)) = h.map fun o => (o.row, o.type))
    (x : Option Nat) :
    (match x.bind fun reference => h'[reference]? with
      | none => true
      | some prevItem => !completedObject m prevItem) =
    (match x.bind fun reference => h[reference]? with
      | none => true
      | some prevItem => !completedObject m prevItem) := by
  cases x with
  | none => rfl
  | some r =>
    have hr := getElem?_skeleton h h' hsk r
    simp only [Option.some_bind]
    cases h1 : h'[r]? with
    | none =>
      cases h2 : h[r]? with
      | none => rfl
      | some p => rw [h1, h2] at hr; cases hr
    | some p' =>
      cases h2 : h[r]? with
      | none => rw [h1, h2] at hr; cases hr
      | some p =>
        rw [h1, h2] at hr
        simp only [Option.map_some', Option.some.injEq] at hr
        simp only [completedObject_skeleton m p p' hr]


/-- One round of the loop, with the object before read from a heap of the same rows and
types. -/
theorem annotateStep_getElem? (m : ProgressMap) (all : List Nat) (h0 h' : Heap)
    (hsk : h'.map (fun o => (o.row, o.type)) = h0.map fun o => (o.row, o.type))
    (k a b : Nat) :
    (annotateStep m all h' (k, a))[b]? =
      if a = b then
        (h'[b]?).map fun item : RowObject =>
          { item with
            progress := some ((progressOf m item).getD ⟨.num 0, .num 0⟩)
            is_locked := some (
              if k = 0 then false
              else match (all[k - 1]?).bind fun reference => h0[reference]? with
                | none => true
                | some prevItem => !completedObject m prevItem) }
      else h'[b]? := by
  unfold annotateStep
  rw [update_getElem?]
  simp only [locked_skeleton m h0 h' hsk]

theorem annotateStep_skeleton (m : ProgressMap) (all : List Nat) (h' : Heap) (entry : Nat × Nat) :
    (annotateStep m all h' entry).map (fun o => (o.row, o.type)) =
      h'.map fun o => (o.row, o.type) := by
  unfold annotateStep
  exact update_skeleton _ _ _ fun _ => rfl

/-- The loop over the rest of the array, from position `k` on: objects outside the rest are
not written, and the object at each position of the rest gets its two properties, the lock
computed from the object just before it in the array. -/
theorem annotate_fold (m : ProgressMap) (all : List Nat) (h0 : Heap) :
    ∀ (rest : List Nat) (k : Nat) (h' : Heap),
      h'.map (fun o => (o.row, o.type)) = h0.map (fun o => (o.row, o.type)) → rest.Nodup →
      (∀ a, a ∉ rest → ((rest.enumFrom k).foldl (annotateStep m all) h')[a]? = h'[a]?) ∧
      (∀ j a, rest[j]? = some a →
        ((rest.enumFrom k).foldl (annotateStep m all) h')[a]? =
          (h'[a]?).map fun item : RowObject =>
            { item with
              progress := some ((progressOf m item).getD ⟨.num 0, .num 0⟩)
              is_locked := some (
                if k + j = 0 then false
                else match (all[k + j - 1]?).bind fun reference => h0[reference]? with
                  | none => true
                  | some prevItem => !completedObject m prevItem) })
  | [], _, _, _, _ => ⟨fun _ _ => rfl, fun j a hj => by simp at hj⟩
  | a :: rest, k, h', hsk, hnodup => by
    rw [List.nodup_cons] at hnodup
    have hsk' : (annotateStep m all h' (k, a)).map (fun o => (o.row, o.type)) =
        h0.map fun o => (o.row, o.type) := by
      rw [annotateStep_skeleton, hsk]
    obtain ⟨ih₁, ih₂⟩ := annotate_fold m all h0 rest (k + 1) _ hsk' hnodup.2
    rw [List.enumFrom_cons, List.foldl_cons]
    refine ⟨fun b hb => ?_, fun j b hj => ?_⟩
    · rw [List.mem_cons, not_or] at hb
      rw [ih₁ b hb.2, annotateStep_getElem? m all h0 h' hsk, if_neg (Ne.symm hb.1)]
    · cases j with
      | zero =>
        simp only [List.getElem?_cons_zero, Option.some.injEq] at hj
        subst hj
        rw [ih₁ a hnodup.1, annotateStep_getElem? m all h0 h' hsk, if_pos rfl]
        rfl
      | succ j =>
        rw [List.getElem?_cons_succ] at hj
        have hne : a ≠ b := fun e => hnodup.1 (e ▸ List.getElem?_mem hj)
        rw [ih₂ j b hj, annotateStep_getElem? m all h0 h' hsk, if_neg hne]
        have hk : k + 1 + j = k + (j + 1) := by omega
        rw [hk]


theorem read_of_map (h : Heap) (array : List Nat) (objects : List RowObject)
    (hmap : array.map (fun reference => h[reference]?) = objects.map some) :
    h.read array = objects := by
  have h₁ : h.read array = (array.map fun reference => h[reference]?).filterMap id := by
    rw [List.filterMap_map]; rfl
  rw [h₁, hmap, List.filterMap_map]
  exact List.filterMap_some objects

theorem map_range' (before objects after : List RowObject) :
    (List.range' before.length objects.length).map
      (fun reference => (before ++ objects ++ after)[reference]?) = objects.map some := by
  apply List.ext_getElem?
  intro i
  rw [List.getElem?_map, List.getElem?_map]
  by_cases hi : i < objects.length
  · rw [List.getElem?_range' _ _ hi]
    simp only [Option.map_some', Nat.one_mul]
    rw [List.append_assoc, List.getElem?_append_right (by omega)]
    rw [List.getElem?_append_left (by omega)]
    rw [List.getElem?_eq_getElem (by omega), List.getElem?_eq_getElem hi]
    simp
  · rw [List.getElem?_eq_none (by simpa using hi),
      List.getElem?_eq_none (Nat.le_of_not_lt hi)]
    rfl

theorem sortReferences_map (h : Heap) (array : List Nat) (items : List ContentItem)
    (hmap : array.map (fun reference => h[reference]?) =
      items.map fun item => some item.toObject) :
    (sortReferences h array).map (fun reference => h[reference]?) =
      (sortByOrderIndex items).map fun item => some item.toObject := by
  have h₁ := List.map_insertionSort (fun a b => h.orderIndex a - h.orderIndex b ≤ 0)
    (fun x y : Option RowObject =>
      (x.map fun object => object.row.order_index).getD 0 -
        (y.map fun object => object.row.order_index).getD 0 ≤ 0)
    (fun reference => h[reference]?) array (fun _ _ _ _ => Iff.rfl)
  have h₂ := List.map_insertionSort (fun a b => compareOrderIndex a b ≤ 0)
    (fun x y : Option RowObject =>
      (x.map fun object => object.row.order_index).getD 0 -
        (y.map fun object => object.row.order_index).getD 0 ≤ 0)
    (fun item : ContentItem => some item.toObject) items (fun _ _ _ _ => Iff.rfl)
  rw [hmap] at h₁
  exact h₁.trans h₂.symm


theorem completedObject_toObject (m : ProgressMap) (item : ContentItem) :
    completedObject m item.toObject = completedIn m item := rfl

/-- The student loop on the heap against the loop on values: when the array refers to the
objects of `items`, one distinct object each, the objects behind it after the loop are the
annotated items, and no other object has been written. -/
theorem annotateOnHeap_read (m : ProgressMap) (all : List Nat) (h : Heap)
    (items : List ContentItem)
    (hall : all.map (fun reference => h[reference]?) = items.map fun item => some item.toObject)
    (hnodup : all.Nodup) :
    (annotateOnHeap m all h).read all = (annotate m items).map ContentItem.toObject ∧
    ∀ a, a ∉ all → (annotateOnHeap m all h)[a]? = h[a]? := by
  obtain ⟨h₁, h₂⟩ := annotate_fold m all h all 0 h rfl hnodup
  have hidx : ∀ i : Nat, (all[i]?).bind (fun reference => h[reference]?) =
      (items[i]?).map ContentItem.toObject := by
    intro i
    have := congrArg (fun l => l[i]?) hall
    simp only [List.getElem?_map] at this
    cases ha : all[i]? with
    | none =>
      cases hi : items[i]? with
      | none => rfl
      | some item => rw [ha, hi] at this; cases this
    | some a =>
      cases hi : items[i]? with
      | none => rw [ha, hi] at this; cases this
      | some item =>
        rw [ha, hi] at this
        simp only [Option.map_some', Option.some.injEq] at this
        simpa using this
  refine ⟨?_, h₁⟩
  apply read_of_map
  apply List.ext_getElem?
  intro i
  rw [List.getElem?_map, List.getElem?_map, List.getElem?_map, annotate_getElem?]
  have hi := hidx i
  cases ha : all[i]? with
  | none =>
    rw [ha] at hi
    cases hitem : items[i]? with
    | none => rfl
    | some item => rw [hitem] at hi; cases hi
  | some a =>
    rw [ha] at hi
    cases hitem : items[i]? with
    | none =>
      have hlen := congrArg (fun l => l[i]?) hall
      simp only [List.getElem?_map, ha, hitem] at hlen
      cases hlen
    | some item =>
      rw [hitem] at hi
      simp only [Option.some_bind, Option.map_some'] at hi
      simp only [Option.map_some', Option.some.injEq]
      unfold annotateOnHeap List.enum
      rw [h₂ i a ha, hi]
      simp only [Option.map_some', Option.some.injEq, Nat.zero_add]
      rw [hidx (i - 1)]
      unfold ContentItem.toObject
      simp only [RowObject.mk.injEq, true_and, Option.some.injEq]
      refine ⟨rfl, ?_⟩
      split
      · rfl
      · cases items[i - 1]? with
        | none => rfl
        | some prevItem => rfl


theorem read_range' (before objects after : List RowObject) :
    Heap.read (before ++ objects ++ after) (List.range' before.length objects.length) =
      objects :=
  read_of_map _ _ _ (map_range' before objects after)

/-- Objects below `n` that a later heap has not written are read from it as they were. -/
theorem read_frame (hf h : Heap) (n : Nat) (hsame : ∀ a, a < n → hf[a]? = h[a]?)
    (before objects after : List RowObject) (hh : h = before ++ objects ++ after)
    (hle : before.length + objects.length ≤ n) :
    hf.read (List.range' before.length objects.length) = objects := by
  apply read_of_map
  rw [← map_range' before objects after, ← hh]
  apply List.map_congr_left
  intro a ha
  rw [List.mem_range'_1] at ha
  exact hsame a (by omega)

/-- The heap of the student path: three arrays of row objects, their typed copies, the sort of
the copies and the loop over them.  Read after the loop, the row objects are as allocated and
the sorted array holds the annotated items. -/
theorem heap_rows_and_copies (m : ProgressMap) (L Q A : List RowObject)
    (tL tQ tA : ContentType) (items : List ContentItem)
    (hitems : (L.map fun x => { x with type := some tL }) ++
      (Q.map fun x => { x with type := some tQ }) ++
      (A.map fun x => { x with type := some tA }) = items.map ContentItem.toObject) :
    let lectures := Heap.allocate [] L
    let grandQuizzes := lectures.1.allocate Q
    let grandAssignments := grandQuizzes.1.allocate A
    let lectureCopies := grandAssignments.1.copyWithType tL lectures.2
    let quizCopies := lectureCopies.1.copyWithType tQ grandQuizzes.2
    let assignmentCopies := quizCopies.1.copyWithType tA grandAssignments.2
    let allContent := sortReferences assignmentCopies.1
      (lectureCopies.2 ++ quizCopies.2 ++ assignmentCopies.2)
    let h := annotateOnHeap m allContent assignmentCopies.1
    h.read lectures.2 = L ∧ h.read grandQuizzes.2 = Q ∧ h.read grandAssignments.2 = A ∧
    h.read allContent = (annotate m (sortByOrderIndex items)).map ContentItem.toObject ∧
    allContent.length = items.length := by
  intro lectures grandQuizzes grandAssignments lectureCopies quizCopies assignmentCopies
    allContent h
  have hl : lectures = (L, List.range' 0 L.length) := rfl
  have hq : grandQuizzes = (L ++ Q, List.range' L.length Q.length) := rfl
  have ha : grandAssignments = (L ++ Q ++ A, List.range' (L ++ Q).length A.length) := rfl
  have hlc : lectureCopies = (L ++ Q ++ A ++ L.map fun x => { x with type := some tL },
      List.range' (L ++ Q ++ A).length L.length) := by
    show Heap.allocate _ _ = _
    rw [ha, hl]
    have := read_range' [] L (Q ++ A)
    simp only [List.nil_append, List.length_nil, ← List.append_assoc] at this
    simp only [this, Heap.allocate, List.length_map]
  have hqc : quizCopies = (L ++ Q ++ A ++ (L.map fun x => { x with type := some tL }) ++
        Q.map fun x => { x with type := some tQ },
      List.range' ((L ++ Q ++ A).length + L.length) Q.length) := by
    show Heap.allocate _ _ = _
    rw [hlc, hq]
    have := read_range' L Q (A ++ L.map fun x => { x with type := some tL })
    simp only [← List.append_assoc] at this
    simp only [this, Heap.allocate, List.length_map, List.length_append]
  have hac : assignmentCopies = (L ++ Q ++ A ++ (L.map fun x => { x with type := some tL }) ++
        (Q.map fun x => { x with type := some tQ }) ++ A.map fun x => { x with type := some tA },
      List.range' ((L ++ Q ++ A).length + L.length + Q.length) A.length) := by
    show Heap.allocate _ _ = _
    rw [hqc, ha]
    have := read_range' (L ++ Q) A ((L.map fun x => { x with type := some tL }) ++
      Q.map fun x => { x with type := some tQ })
    simp only [← List.append_assoc, List.length_append] at this
    simp only [this, Heap.allocate, List.length_map, List.length_append]
  have hheap : assignmentCopies.1 = (L ++ Q ++ A) ++ items.map ContentItem.toObject := by
    rw [hac, ← hitems]
    simp only [List.append_assoc]
  have hrefs : lectureCopies.2 ++ quizCopies.2 ++ assignmentCopies.2 =
      List.range' (L ++ Q ++ A).length (items.map ContentItem.toObject).length := by
    rw [hlc, hqc, hac, ← hitems]
    show List.range' (L ++ Q ++ A).length L.length ++
      List.range' ((L ++ Q ++ A).length + L.length) Q.length ++
      List.range' ((L ++ Q ++ A).length + L.length + Q.length) A.length = _
    have e : (L ++ Q ++ A).length + L.length + Q.length =
        (L ++ Q ++ A).length + (Q.length + L.length) := by omega
    rw [List.range'_append_1, e, List.range'_append_1]
    congr 1
    simp only [List.length_append, List.length_map]
    omega
  have hmap : (lectureCopies.2 ++ quizCopies.2 ++ assignmentCopies.2).map
      (fun reference => assignmentCopies.1[reference]?) =
      items.map fun item => some item.toObject := by
    rw [hrefs, hheap]
    have := map_range' (L ++ Q ++ A) (items.map ContentItem.toObject) []
    simp only [List.append_nil, List.map_map] at this
    exact this
  have hsorted := sortReferences_map assignmentCopies.1 _ items hmap
  have hperm : allContent.Perm (List.range' (L ++ Q ++ A).length
      (items.map ContentItem.toObject).length) := by
    rw [← hrefs]
    exact List.perm_insertionSort _ _
  have hnodup : allContent.Nodup := hperm.nodup_iff.2 (List.nodup_range' _ _)
  obtain ⟨hread, hframe⟩ := annotateOnHeap_read m allContent assignmentCopies.1
    (sortByOrderIndex items) hsorted hnodup
  have hsame : ∀ a, a < (L ++ Q ++ A).length → h[a]? = assignmentCopies.1[a]? := by
    intro a ha
    apply hframe
    intro hmem
    rw [hperm.mem_iff, List.mem_range'_1] at hmem
    omega
  refine ⟨?_, ?_, ?_, hread, ?_⟩
  · rw [hl]
    have := read_frame h assignmentCopies.1 _ hsame [] L (Q ++ A ++ items.map ContentItem.toObject)
      (by rw [hheap]; simp only [List.nil_append, List.append_assoc])
      (by simp only [List.length_append, List.length_nil]; omega)
    simpa using this
  · rw [hq]
    exact read_frame h assignmentCopies.1 _ hsame L Q (A ++ items.map ContentItem.toObject)
      (by rw [hheap]; simp only [List.append_assoc])
      (by simp only [List.length_append]; omega)
  · rw [ha]
    exact read_frame h assignmentCopies.1 _ hsame (L ++ Q) A (items.map ContentItem.toObject)
      (by rw [hheap])
      (by simp only [List.length_append]; omega)
  · rw [hperm.length_eq, List.length_range', List.length_map]


/-- The answer of the handler on the heap to a student who gets the course: the row objects as
the queries returned them, and the annotated copies in `allContent`. -/
theorem getCourseOnHeap_student (s : Store) (user : SessionUser) (id : Nat) (q : ObjectPayload)
    (hrole : user.role = "student")
    (hresp : getCourseOnHeap s (some user) id = .course q) :
    ∃ course teacher_name, courseQuery s id = some (course, teacher_name) ∧
      enrolled s user.id id = true ∧
      q =
        { course :=
            { course := course
              teacher_name := teacher_name
              lecture_count := (lecturesQuery s id).length
              grand_quiz_count := (grandQuizzesQuery s id).length
              grand_assignment_count := (grandAssignmentsQuery s id).length
              total_content_count :=
                (mergeContent (lecturesQuery s id) (grandQuizzesQuery s id)
                  (grandAssignmentsQuery s id)).length }
          lectures := (lecturesQuery s id).map fun l => RowObject.ofRow (.lecture l)
          grandQuizzes := (grandQuizzesQuery s id).map fun q => RowObject.ofRow (.grand_quiz q)
          grandAssignments :=
            (grandAssignmentsQuery s id).map fun a => RowObject.ofRow (.grand_assignment a)
          allContent :=
            (annotate (studentProgressMap s user.id)
              (mergeContent (lecturesQuery s id) (grandQuizzesQuery s id)
                (grandAssignmentsQuery s id))).map ContentItem.toObject } := by
  unfold getCourseOnHeap at hresp
  cases hq : courseQuery s id with
  | none => rw [hq] at hresp; cases hresp
  | some ct =>
    obtain ⟨course, teacher_name⟩ := ct
    rw [hq] at hresp
    simp only at hresp
    by_cases hgate : user.role = "student" ∧ enrolled s user.id id = false
    · rw [if_pos hgate] at hresp; cases hresp
    · rw [if_neg hgate] at hresp
      have hstaff : ¬ (user.role = "admin" ∨ user.role = "teacher") := by
        rw [hrole]; decide
      rw [if_pos hrole, if_neg hstaff] at hresp
      obtain ⟨h₁, h₂, h₃, h₄, h₅⟩ := heap_rows_and_copies (studentProgressMap s user.id)
        ((lecturesQuery s id).map fun l => RowObject.ofRow (.lecture l))
        ((grandQuizzesQuery s id).map fun q => RowObject.ofRow (.grand_quiz q))
        ((grandAssignmentsQuery s id).map fun a => RowObject.ofRow (.grand_assignment a))
        .lecture .grand_quiz .grand_assignment
        (taggedContent (lecturesQuery s id) (grandQuizzesQuery s id)
          (grandAssignmentsQuery s id))
        (by simp only [taggedContent, List.map_append, List.map_map]; rfl)
      simp only [ObjectResponse.course.injEq] at hresp
      refine ⟨course, teacher_name, rfl, ?_, ?_⟩
      · by_contra he
        exact hgate ⟨hrole, by simpa using he⟩
      · rw [← hresp, h₁, h₂, h₃, h₄, h₅]
        simp only [Heap.allocate, List.length_range', List.length_map, mergeContent,
          sortByOrderIndex, List.length_insertionSort]


/-- C29: for a student, the annotations of GET /api/courses/:id go to the elements of
`allContent` only.  In the answer read off the heap after the loop, the elements of `lectures`,
`grandQuizzes` and `grandAssignments` are the rows of the three queries, unchanged, and carry
no `type`, `progress` or `is_locked`, while every element of `allContent` carries all three;
the answer is the one of the value-level handler, object for object. -/
theorem annotations_only_on_copies (s : Store) (user : SessionUser) (id : Nat)
    (q : ObjectPayload) (hrole : user.role = "student")
    (hresp : getCourseOnHeap s (some user) id = .course q) :
    q.lectures = (lecturesQuery s id).map (fun l => RowObject.ofRow (.lecture l)) ∧
    q.grandQuizzes = (grandQuizzesQuery s id).map (fun q => RowObject.ofRow (.grand_quiz q)) ∧
    q.grandAssignments =
      (grandAssignmentsQuery s id).map (fun a => RowObject.ofRow (.grand_assignment a)) ∧
    (∀ o ∈ q.lectures ++ q.grandQuizzes ++ q.grandAssignments,
      o.type = none ∧ o.progress = none ∧ o.is_locked = none) ∧
    (∀ o ∈ q.allContent, o.type.isSome ∧ o.progress.isSome ∧ o.is_locked.isSome) ∧
    ∃ p, (getCourse s (some user) id).1 = ⟨200, .course p⟩ ∧ q = p.toObjects := by
  obtain ⟨course, teacher_name, hq, henr, rfl⟩ := getCourseOnHeap_student s user id q hrole hresp
  refine ⟨rfl, rfl, rfl, ?_, ?_, ?_⟩
  · intro o ho
    simp only [List.mem_append, List.mem_map] at ho
    rcases ho with (⟨l, -, rfl⟩ | ⟨g, -, rfl⟩) | ⟨a, -, rfl⟩ <;> exact ⟨rfl, rfl, rfl⟩
  · intro o ho
    simp only [List.mem_map] at ho
    obtain ⟨item, hitem, rfl⟩ := ho
    obtain ⟨i, hi⟩ := List.mem_iff_getElem?.1 hitem
    obtain ⟨b, -, -, -, hp, hl⟩ := annotate_item _ _ i item hi
    simp [ContentItem.toObject, hp, hl]
  · refine ⟨
      { course :=
          { course := course
            teacher_name := teacher_name
            lecture_count := (lecturesQuery s id).length
            grand_quiz_count := (grandQuizzesQuery s id).length
            grand_assignment_count := (grandAssignmentsQuery s id).length
            total_content_count :=
              (annotate (studentProgressMap s user.id)
                (mergeContent (lecturesQuery s id) (grandQuizzesQuery s id)
                  (grandAssignmentsQuery s id))).length }
        lectures := lecturesQuery s id
        grandQuizzes := grandQuizzesQuery s id
        grandAssignments := grandAssignmentsQuery s id
        allContent :=
          annotate (studentProgressMap s user.id)
            (mergeContent (lecturesQuery s id) (grandQuizzesQuery s id)
              (grandAssignmentsQuery s id)) }, ?_, ?_⟩
    · simp [getCourse, guarded, requireAuth, getCourseHandler, hq, hrole, henr]
    · simp only [CoursePayload.toObjects, length_annotate]

/-- Witness for C29: the student of the scenario.  The three elements of `allContent` carry
progress and lock; the two lecture rows and the grand quiz row of the same answer carry
neither. -/
theorem annotations_only_on_copies_witness :
    studentUser.role = "student" ∧
    getCourseOnHeap scenarioStore (some studentUser) 1 = .course scenarioPayload.toObjects ∧
    (scenarioPayload.toObjects.allContent.map fun o => (o.row.id, o.type, o.is_locked)) =
      [(1, some .lecture, some false), (1, some .grand_quiz, some false),
        (2, some .lecture, some true)] ∧
    scenarioPayload.toObjects.lectures =
      (lecturesQuery scenarioStore 1).map (fun l => RowObject.ofRow (.lecture l)) ∧
    (scenarioPayload.toObjects.lectures.map fun o => (o.row.id, o.type, o.is_locked)) =
      [(1, none, none), (2, none, none)] ∧
    (scenarioPayload.toObjects.grandQuizzes.map fun o => (o.row.id, o.type, o.is_locked)) =
      [(1, none, none)] :=
  have h : getCourseOnHeap scenarioStore (some studentUser) 1 =
      .course scenarioPayload.toObjects := by decide
  ⟨rfl, h, by decide,
    (annotations_only_on_copies scenarioStore studentUser 1 _ rfl h).1, by decide, by decide⟩

end Courses
